import Mathlib

/-!
# Verification development for `td/telegram`

A shallow embedding of `UserPrivacySettingRule.cpp` and `VoiceNotesManager.cpp`.

Conventions of the embedding.

* A fatal `CHECK` failure is the value `none` of an `Option` result.
* `Result<T>` is `Except Status T`.
* A nullable `object_ptr<T>` is an `Option T`.
* `int32` and `int64` values are integers; no arithmetic that could overflow is performed on them
  in the embedded functions.
* Functions and types declared in headers that are not part of the sources (`UserId.h`,
  `DialogId.h`, `ContactsManager.h`, `MessagesManager.h`, `TranscriptionInfo.h`, `FileId.h`,
  `td/utils/algorithm.h`) are taken as parameters.  Logging has no effect and is left out.
* The queries of the managers reached through `Td *td` are functions of the context: a query
  answers the same for the same argument during one call of an embedded function.
* The table `voice_notes_` is a function from file identifiers to optional voice notes; a key
  that is absent and a key that holds a null pointer are the same state `none`, as they are for
  every reader of the table in the sources.
-/

namespace td

/-! ## Identifiers -/

/-- Wrapper of an `int64` user identifier; `get` is `UserId::get`. -/
structure UserId where
  get : Int
deriving DecidableEq

/-- Wrapper of an `int64` basic group identifier. -/
structure ChatId where
  get : Int
deriving DecidableEq

/-- Wrapper of an `int64` channel identifier. -/
structure ChannelId where
  get : Int
deriving DecidableEq

/-- Wrapper of an `int64` dialog identifier. -/
structure DialogId where
  get : Int
deriving DecidableEq

/-- Kinds of dialogs; the source distinguishes `Chat`, `Channel` and everything else. -/
inductive DialogType where
  | None
  | User
  | Chat
  | Channel
  | SecretChat
deriving DecidableEq

/-- Static functions of `UserId.h` and `DialogId.h`, which are not part of the sources. -/
structure IdDecls where
  /-- The function `UserId::get_user_ids`. -/
  get_user_ids : List Int → List UserId
  /-- The constructor `DialogId(ChatId)`. -/
  dialog_id_of_chat_id : ChatId → DialogId
  /-- The constructor `DialogId(ChannelId)`. -/
  dialog_id_of_channel_id : ChannelId → DialogId
  /-- The method `DialogId::get_type`. -/
  get_type : DialogId → DialogType
  /-- The method `DialogId::get_chat_id`. -/
  get_chat_id : DialogId → ChatId
  /-- The method `DialogId::get_channel_id`. -/
  get_channel_id : DialogId → ChannelId

/-! ## The two schemas -/

namespace td_api

/-- Local (caller-facing) schema: the variants of `td_api::UserPrivacySettingRule`. -/
inductive UserPrivacySettingRule where
  | userPrivacySettingRuleAllowContacts
  | userPrivacySettingRuleAllowCloseFriends
  | userPrivacySettingRuleAllowAll
  | userPrivacySettingRuleAllowUsers (user_ids_ : List Int)
  | userPrivacySettingRuleAllowChatMembers (chat_ids_ : List Int)
  | userPrivacySettingRuleRestrictContacts
  | userPrivacySettingRuleRestrictAll
  | userPrivacySettingRuleRestrictUsers (user_ids_ : List Int)
  | userPrivacySettingRuleRestrictChatMembers (chat_ids_ : List Int)
deriving DecidableEq

/-- The object `td_api::userPrivacySettingRules`: a vector of nullable rule pointers. -/
structure userPrivacySettingRules where
  rules_ : List (Option UserPrivacySettingRule)
deriving DecidableEq

end td_api

namespace telegram_api

/-- Wire schema, incoming: the variants of `telegram_api::PrivacyRule`. -/
inductive PrivacyRule where
  | privacyValueAllowContacts
  | privacyValueAllowCloseFriends
  | privacyValueAllowAll
  | privacyValueAllowUsers (users_ : List Int)
  | privacyValueAllowChatParticipants (chats_ : List Int)
  | privacyValueDisallowContacts
  | privacyValueDisallowAll
  | privacyValueDisallowUsers (users_ : List Int)
  | privacyValueDisallowChatParticipants (chats_ : List Int)
deriving DecidableEq

/-- The object `telegram_api::InputUser`; its content plays no role here. -/
structure InputUser where
  user_id_ : Int
  access_hash_ : Int
deriving DecidableEq

/-- Wire schema, outgoing: the variants of `telegram_api::InputPrivacyRule`. -/
inductive InputPrivacyRule where
  | inputPrivacyValueAllowContacts
  | inputPrivacyValueAllowCloseFriends
  | inputPrivacyValueAllowAll
  | inputPrivacyValueAllowUsers (users_ : List InputUser)
  | inputPrivacyValueAllowChatParticipants (chats_ : List Int)
  | inputPrivacyValueDisallowContacts
  | inputPrivacyValueDisallowAll
  | inputPrivacyValueDisallowUsers (users_ : List InputUser)
  | inputPrivacyValueDisallowChatParticipants (chats_ : List Int)
deriving DecidableEq

end telegram_api

/-! ## Collaborators reached through `Td *td` -/

/-- The queries of `td->contacts_manager_` used by the privacy rules. -/
structure ContactsManager where
  have_user : UserId → Bool
  have_chat : ChatId → Bool
  have_channel : ChannelId → Bool
  is_megagroup_channel : ChannelId → Bool
  get_input_user : UserId → Option telegram_api.InputUser
  get_user_ids_object : List UserId → List Int

/-- The queries of `td->messages_manager_` used by the privacy rules. -/
structure MessagesManager where
  have_dialog_force : DialogId → Bool
  get_chat_ids_object : List DialogId → List Int

/-- The context object `Td`. -/
structure Td where
  contacts_manager_ : ContactsManager
  messages_manager_ : MessagesManager

/-- An error `Status` with its code and message. -/
structure Status where
  code : Int
  message : String
deriving DecidableEq

/-! ## `UserPrivacySettingRule` -/

/-- The enumeration `UserPrivacySettingRule::Type`. -/
inductive RuleType where
  | AllowContacts
  | AllowCloseFriends
  | AllowAll
  | AllowUsers
  | AllowChatParticipants
  | RestrictContacts
  | RestrictAll
  | RestrictUsers
  | RestrictChatParticipants
deriving DecidableEq

/-- The class `UserPrivacySettingRule`: a rule type with its user and dialog identifier lists. -/
structure UserPrivacySettingRule where
  type_ : RuleType
  user_ids_ : List UserId
  dialog_ids_ : List DialogId
deriving DecidableEq

/-- The class `UserPrivacySettingRules`: the vector `rules_`. -/
structure UserPrivacySettingRules where
  rules_ : List UserPrivacySettingRule
deriving DecidableEq

namespace UserPrivacySettingRule

/-- The loop of `set_dialog_ids`: keeps the found basic groups and megagroup channels. -/
def set_dialog_ids (E : IdDecls) (td : Td) : List Int → List DialogId
  | [] => []
  | chat_id :: chat_ids =>
    let dialog_id : DialogId := ⟨chat_id⟩
    if !td.messages_manager_.have_dialog_force dialog_id then
      set_dialog_ids E td chat_ids
    else
      match E.get_type dialog_id with
      | DialogType.Chat => dialog_id :: set_dialog_ids E td chat_ids
      | DialogType.Channel =>
        if !td.contacts_manager_.is_megagroup_channel (E.get_channel_id dialog_id) then
          set_dialog_ids E td chat_ids
        else
          dialog_id :: set_dialog_ids E td chat_ids
      | _ => set_dialog_ids E td chat_ids

/-- The loop of `set_dialog_ids_from_server`: a server identifier is a known basic group, else a
known channel, else it is skipped. -/
def set_dialog_ids_from_server (E : IdDecls) (td : Td) : List Int → List DialogId
  | [] => []
  | server_chat_id :: server_chat_ids =>
    let chat_id : ChatId := ⟨server_chat_id⟩
    if !td.contacts_manager_.have_chat chat_id then
      let channel_id : ChannelId := ⟨server_chat_id⟩
      if !td.contacts_manager_.have_channel channel_id then
        set_dialog_ids_from_server E td server_chat_ids
      else
        E.dialog_id_of_channel_id channel_id :: set_dialog_ids_from_server E td server_chat_ids
    else
      E.dialog_id_of_chat_id chat_id :: set_dialog_ids_from_server E td server_chat_ids

/-- The constructor `UserPrivacySettingRule(Td *, const td_api::UserPrivacySettingRule &)`. -/
def of_td_api (E : IdDecls) (td : Td) : td_api.UserPrivacySettingRule → UserPrivacySettingRule
  | .userPrivacySettingRuleAllowContacts => ⟨RuleType.AllowContacts, [], []⟩
  | .userPrivacySettingRuleAllowCloseFriends => ⟨RuleType.AllowCloseFriends, [], []⟩
  | .userPrivacySettingRuleAllowAll => ⟨RuleType.AllowAll, [], []⟩
  | .userPrivacySettingRuleAllowUsers user_ids_ =>
    ⟨RuleType.AllowUsers, E.get_user_ids user_ids_, []⟩
  | .userPrivacySettingRuleAllowChatMembers chat_ids_ =>
    ⟨RuleType.AllowChatParticipants, [], set_dialog_ids E td chat_ids_⟩
  | .userPrivacySettingRuleRestrictContacts => ⟨RuleType.RestrictContacts, [], []⟩
  | .userPrivacySettingRuleRestrictAll => ⟨RuleType.RestrictAll, [], []⟩
  | .userPrivacySettingRuleRestrictUsers user_ids_ =>
    ⟨RuleType.RestrictUsers, E.get_user_ids user_ids_, []⟩
  | .userPrivacySettingRuleRestrictChatMembers chat_ids_ =>
    ⟨RuleType.RestrictChatParticipants, [], set_dialog_ids E td chat_ids_⟩

/-- The switch of the constructor from a `telegram_api::PrivacyRule`, before unknown users are
removed. -/
def of_telegram_api_switch (E : IdDecls) (td : Td) :
    telegram_api.PrivacyRule → UserPrivacySettingRule
  | .privacyValueAllowContacts => ⟨RuleType.AllowContacts, [], []⟩
  | .privacyValueAllowCloseFriends => ⟨RuleType.AllowCloseFriends, [], []⟩
  | .privacyValueAllowAll => ⟨RuleType.AllowAll, [], []⟩
  | .privacyValueAllowUsers users_ => ⟨RuleType.AllowUsers, E.get_user_ids users_, []⟩
  | .privacyValueAllowChatParticipants chats_ =>
    ⟨RuleType.AllowChatParticipants, [], set_dialog_ids_from_server E td chats_⟩
  | .privacyValueDisallowContacts => ⟨RuleType.RestrictContacts, [], []⟩
  | .privacyValueDisallowAll => ⟨RuleType.RestrictAll, [], []⟩
  | .privacyValueDisallowUsers users_ => ⟨RuleType.RestrictUsers, E.get_user_ids users_, []⟩
  | .privacyValueDisallowChatParticipants chats_ =>
    ⟨RuleType.RestrictChatParticipants, [], set_dialog_ids_from_server E td chats_⟩

/-- The body of the constructor from a `telegram_api::PrivacyRule` for a non-null rule: the
switch, then `td::remove_if` of the users for which `have_user` fails. -/
def of_PrivacyRule (E : IdDecls) (td : Td) (rule : telegram_api.PrivacyRule) :
    UserPrivacySettingRule :=
  let r := of_telegram_api_switch E td rule
  { r with user_ids_ := r.user_ids_.filter (fun user_id =>
      !(!td.contacts_manager_.have_user user_id)) }

/-- The constructor `UserPrivacySettingRule(Td *, const object_ptr<telegram_api::PrivacyRule> &)`:
`CHECK(rule != nullptr)`, then the body. -/
def of_telegram_api (E : IdDecls) (td : Td) :
    Option telegram_api.PrivacyRule → Option UserPrivacySettingRule
  | none => none
  | some rule => some (of_PrivacyRule E td rule)

/-- The method `get_user_privacy_setting_rule_object`. -/
def get_user_privacy_setting_rule_object (td : Td) (r : UserPrivacySettingRule) :
    td_api.UserPrivacySettingRule :=
  match r.type_ with
  | RuleType.AllowContacts => .userPrivacySettingRuleAllowContacts
  | RuleType.AllowCloseFriends => .userPrivacySettingRuleAllowCloseFriends
  | RuleType.AllowAll => .userPrivacySettingRuleAllowAll
  | RuleType.AllowUsers =>
    .userPrivacySettingRuleAllowUsers (td.contacts_manager_.get_user_ids_object r.user_ids_)
  | RuleType.AllowChatParticipants =>
    .userPrivacySettingRuleAllowChatMembers (td.messages_manager_.get_chat_ids_object r.dialog_ids_)
  | RuleType.RestrictContacts => .userPrivacySettingRuleRestrictContacts
  | RuleType.RestrictAll => .userPrivacySettingRuleRestrictAll
  | RuleType.RestrictUsers =>
    .userPrivacySettingRuleRestrictUsers (td.contacts_manager_.get_user_ids_object r.user_ids_)
  | RuleType.RestrictChatParticipants =>
    .userPrivacySettingRuleRestrictChatMembers
      (td.messages_manager_.get_chat_ids_object r.dialog_ids_)

/-- The method `get_input_users`: the users for which `get_input_user` succeeds, in order. -/
def get_input_users (td : Td) (r : UserPrivacySettingRule) : List telegram_api.InputUser :=
  r.user_ids_.filterMap td.contacts_manager_.get_input_user

/-- The loop of `get_input_chat_ids`; `none` is the `UNREACHABLE()` of the default case. -/
def get_input_chat_ids_loop (E : IdDecls) : List DialogId → Option (List Int)
  | [] => some []
  | dialog_id :: dialog_ids =>
    match E.get_type dialog_id with
    | DialogType.Chat =>
      (get_input_chat_ids_loop E dialog_ids).map (fun rest => (E.get_chat_id dialog_id).get :: rest)
    | DialogType.Channel =>
      (get_input_chat_ids_loop E dialog_ids).map
        (fun rest => (E.get_channel_id dialog_id).get :: rest)
    | _ => none

/-- The method `get_input_chat_ids`. -/
def get_input_chat_ids (E : IdDecls) (r : UserPrivacySettingRule) : Option (List Int) :=
  get_input_chat_ids_loop E r.dialog_ids_

/-- The method `get_input_privacy_rule`; it fails when `get_input_chat_ids` does. -/
def get_input_privacy_rule (E : IdDecls) (td : Td) (r : UserPrivacySettingRule) :
    Option telegram_api.InputPrivacyRule :=
  match r.type_ with
  | RuleType.AllowContacts => some .inputPrivacyValueAllowContacts
  | RuleType.AllowCloseFriends => some .inputPrivacyValueAllowCloseFriends
  | RuleType.AllowAll => some .inputPrivacyValueAllowAll
  | RuleType.AllowUsers => some (.inputPrivacyValueAllowUsers (get_input_users td r))
  | RuleType.AllowChatParticipants =>
    (get_input_chat_ids E r).map .inputPrivacyValueAllowChatParticipants
  | RuleType.RestrictContacts => some .inputPrivacyValueDisallowContacts
  | RuleType.RestrictAll => some .inputPrivacyValueDisallowAll
  | RuleType.RestrictUsers => some (.inputPrivacyValueDisallowUsers (get_input_users td r))
  | RuleType.RestrictChatParticipants =>
    (get_input_chat_ids E r).map .inputPrivacyValueDisallowChatParticipants

/-- The method `UserPrivacySettingRule::get_restricted_user_ids`. -/
def get_restricted_user_ids (r : UserPrivacySettingRule) : List UserId :=
  if r.type_ = RuleType.RestrictUsers then r.user_ids_ else []

end UserPrivacySettingRule

/-- Result of the test `get_id() == td_api::userPrivacySettingRuleRestrictAll::ID`; constructor
identifiers are distinct for distinct variants. -/
def td_api.UserPrivacySettingRule.is_userPrivacySettingRuleRestrictAll :
    td_api.UserPrivacySettingRule → Bool
  | .userPrivacySettingRuleRestrictAll => true
  | _ => false

/-- Result of the test `get_id() == telegram_api::inputPrivacyValueDisallowAll::ID`. -/
def telegram_api.InputPrivacyRule.is_inputPrivacyValueDisallowAll :
    telegram_api.InputPrivacyRule → Bool
  | .inputPrivacyValueDisallowAll => true
  | _ => false

/-! ## `UserPrivacySettingRules` -/

namespace UserPrivacySettingRules

/-- The loop of the wire overload: one rule is constructed and pushed back per element, and a
null element fails the `CHECK` of the constructor. -/
def push_back_telegram_api (E : IdDecls) (td : Td) :
    List (Option telegram_api.PrivacyRule) → Option (List UserPrivacySettingRule)
  | [] => some []
  | rule :: rules =>
    match UserPrivacySettingRule.of_telegram_api E td rule with
    | none => none
    | some r => (push_back_telegram_api E td rules).map (fun rest => r :: rest)

/-- The trailing step of the wire overload: when `rules_` is not empty and the caller-facing
object of `rules_.back()` is `userPrivacySettingRuleRestrictAll`, `rules_.pop_back()`. -/
def pop_back_if_RestrictAll (td : Td) (rules_ : List UserPrivacySettingRule) :
    List UserPrivacySettingRule :=
  match rules_.getLast? with
  | none => rules_
  | some back =>
    if (back.get_user_privacy_setting_rule_object td).is_userPrivacySettingRuleRestrictAll then
      rules_.dropLast
    else
      rules_

/-- The overload `get_user_privacy_setting_rules(Td *, vector<object_ptr<PrivacyRule>>)`. -/
def get_user_privacy_setting_rules_telegram_api (E : IdDecls) (td : Td)
    (rules : List (Option telegram_api.PrivacyRule)) : Option UserPrivacySettingRules :=
  (push_back_telegram_api E td rules).map (fun rules_ => ⟨pop_back_if_RestrictAll td rules_⟩)

/-- The loop of the local overload: a null element returns the error, otherwise one rule is
constructed per element. -/
def emplace_back_td_api (E : IdDecls) (td : Td) :
    List (Option td_api.UserPrivacySettingRule) → Except Status (List UserPrivacySettingRule)
  | [] => Except.ok []
  | none :: _ => Except.error ⟨400, "UserPrivacySettingRule must be non-empty"⟩
  | some rule :: rules =>
    (emplace_back_td_api E td rules).map
      (fun rest => UserPrivacySettingRule.of_td_api E td rule :: rest)

/-- The overload `get_user_privacy_setting_rules(Td *, object_ptr<td_api::userPrivacySettingRules>)`. -/
def get_user_privacy_setting_rules_td_api (E : IdDecls) (td : Td) :
    Option td_api.userPrivacySettingRules → Except Status UserPrivacySettingRules
  | none => Except.error ⟨400, "UserPrivacySettingRules must be non-empty"⟩
  | some rules => (emplace_back_td_api E td rules.rules_).map (fun rules_ => ⟨rules_⟩)

/-- The method `get_user_privacy_setting_rules_object`. -/
def get_user_privacy_setting_rules_object (td : Td) (r : UserPrivacySettingRules) :
    td_api.userPrivacySettingRules :=
  ⟨r.rules_.map (fun rule => some (rule.get_user_privacy_setting_rule_object td))⟩

/-- The `transform` of `get_input_privacy_rules`; it fails when one element does. -/
def transform_input_privacy_rule (E : IdDecls) (td : Td) :
    List UserPrivacySettingRule → Option (List telegram_api.InputPrivacyRule)
  | [] => some []
  | rule :: rules =>
    match rule.get_input_privacy_rule E td with
    | none => none
    | some x => (transform_input_privacy_rule E td rules).map (fun rest => x :: rest)

/-- The trailing step of `get_input_privacy_rules`: when `result` is not empty and
`result.back()` is `inputPrivacyValueDisallowAll`, `result.pop_back()`. -/
def pop_back_if_DisallowAll (result : List telegram_api.InputPrivacyRule) :
    List telegram_api.InputPrivacyRule :=
  match result.getLast? with
  | none => result
  | some back => if back.is_inputPrivacyValueDisallowAll then result.dropLast else result

/-- The method `get_input_privacy_rules`: the transformed rules without a trailing
`inputPrivacyValueDisallowAll`. -/
def get_input_privacy_rules (E : IdDecls) (td : Td) (r : UserPrivacySettingRules) :
    Option (List telegram_api.InputPrivacyRule) :=
  (transform_input_privacy_rule E td r.rules_).map pop_back_if_DisallowAll

/-- Model of `std::sort` with the comparator `lhs.get() < rhs.get()`: an insertion sort.  A user
identifier is determined by `get`, so every sorting algorithm returns this same list. -/
def sort_by_get (l : List UserId) : List UserId :=
  l.insertionSort (fun lhs rhs => lhs.get ≤ rhs.get)

/-- Model of `result.erase(std::unique(result.begin(), result.end()), result.end())`: of every
run of equal consecutive elements only one is kept. -/
def unique : List UserId → List UserId
  | [] => []
  | [a] => [a]
  | a :: b :: rest => if a = b then unique (b :: rest) else a :: unique (b :: rest)

/-- The method `UserPrivacySettingRules::get_restricted_user_ids`; `combine` of
`td/utils/algorithm.h` is a parameter. -/
def get_restricted_user_ids (combine : List UserId → List UserId → List UserId)
    (r : UserPrivacySettingRules) : List UserId :=
  let result := r.rules_.foldl (fun result rule => combine result rule.get_restricted_user_ids) []
  unique (sort_by_get result)

end UserPrivacySettingRules

/-! ## Vocabulary of the statements -/

/-- Rule type denoted by a variant of the local schema. -/
def td_api.UserPrivacySettingRule.rule_type : td_api.UserPrivacySettingRule → RuleType
  | .userPrivacySettingRuleAllowContacts => RuleType.AllowContacts
  | .userPrivacySettingRuleAllowCloseFriends => RuleType.AllowCloseFriends
  | .userPrivacySettingRuleAllowAll => RuleType.AllowAll
  | .userPrivacySettingRuleAllowUsers _ => RuleType.AllowUsers
  | .userPrivacySettingRuleAllowChatMembers _ => RuleType.AllowChatParticipants
  | .userPrivacySettingRuleRestrictContacts => RuleType.RestrictContacts
  | .userPrivacySettingRuleRestrictAll => RuleType.RestrictAll
  | .userPrivacySettingRuleRestrictUsers _ => RuleType.RestrictUsers
  | .userPrivacySettingRuleRestrictChatMembers _ => RuleType.RestrictChatParticipants

/-- Rule type denoted by a variant of the incoming wire schema. -/
def telegram_api.PrivacyRule.rule_type : telegram_api.PrivacyRule → RuleType
  | .privacyValueAllowContacts => RuleType.AllowContacts
  | .privacyValueAllowCloseFriends => RuleType.AllowCloseFriends
  | .privacyValueAllowAll => RuleType.AllowAll
  | .privacyValueAllowUsers _ => RuleType.AllowUsers
  | .privacyValueAllowChatParticipants _ => RuleType.AllowChatParticipants
  | .privacyValueDisallowContacts => RuleType.RestrictContacts
  | .privacyValueDisallowAll => RuleType.RestrictAll
  | .privacyValueDisallowUsers _ => RuleType.RestrictUsers
  | .privacyValueDisallowChatParticipants _ => RuleType.RestrictChatParticipants

/-- Rule type denoted by a variant of the outgoing wire schema. -/
def telegram_api.InputPrivacyRule.rule_type : telegram_api.InputPrivacyRule → RuleType
  | .inputPrivacyValueAllowContacts => RuleType.AllowContacts
  | .inputPrivacyValueAllowCloseFriends => RuleType.AllowCloseFriends
  | .inputPrivacyValueAllowAll => RuleType.AllowAll
  | .inputPrivacyValueAllowUsers _ => RuleType.AllowUsers
  | .inputPrivacyValueAllowChatParticipants _ => RuleType.AllowChatParticipants
  | .inputPrivacyValueDisallowContacts => RuleType.RestrictContacts
  | .inputPrivacyValueDisallowAll => RuleType.RestrictAll
  | .inputPrivacyValueDisallowUsers _ => RuleType.RestrictUsers
  | .inputPrivacyValueDisallowChatParticipants _ => RuleType.RestrictChatParticipants

/-- The sequence of rule types of a rule sequence. -/
def rule_types (rules_ : List UserPrivacySettingRule) : List RuleType :=
  rules_.map (fun rule => rule.type_)

/-- The reduction described by the specification, on sequences of rule types: the order is kept
and the final element is removed when it is `RestrictAll`. -/
def drop_trailing_RestrictAll (types : List RuleType) : List RuleType :=
  if types.getLast? = some RuleType.RestrictAll then types.dropLast else types

/-- Every dialog identifier of every rule is a basic group or a channel, the two kinds that
`get_input_chat_ids` handles. -/
def groups_only (E : IdDecls) (rules_ : List UserPrivacySettingRule) : Prop :=
  ∀ rule ∈ rules_, ∀ d ∈ rule.dialog_ids_,
    E.get_type d = DialogType.Chat ∨ E.get_type d = DialogType.Channel

/-- Scenario B, local schema: `[AllowContacts, RestrictAll]`. -/
def scenario_B_sentinel : List td_api.UserPrivacySettingRule :=
  [.userPrivacySettingRuleAllowContacts, .userPrivacySettingRuleRestrictAll]

/-- Scenario B, local schema: `[AllowContacts, RestrictUsers{42}]`. -/
def scenario_B_users : List td_api.UserPrivacySettingRule :=
  [.userPrivacySettingRuleAllowContacts, .userPrivacySettingRuleRestrictUsers [42]]

/-- Scenario B, wire schema: `[AllowContacts, DisallowUsers{42}]`. -/
def scenario_B_users_wire : List telegram_api.PrivacyRule :=
  [.privacyValueAllowContacts, .privacyValueDisallowUsers [42]]

/-- Scenario B: the rules value `[AllowContacts, RestrictUsers{42}]`. -/
def scenario_B_users_rules : UserPrivacySettingRules :=
  ⟨[⟨RuleType.AllowContacts, [], []⟩, ⟨RuleType.RestrictUsers, [⟨42⟩], []⟩]⟩

/-- A context in which nothing is known: no user, group, channel or dialog. -/
def Td.nothing_known : Td :=
  { contacts_manager_ :=
      { have_user := fun _ => false
        have_chat := fun _ => false
        have_channel := fun _ => false
        is_megagroup_channel := fun _ => false
        get_input_user := fun _ => none
        get_user_ids_object := fun user_ids => user_ids.map UserId.get }
    messages_manager_ :=
      { have_dialog_force := fun _ => false
        get_chat_ids_object := fun dialog_ids => dialog_ids.map DialogId.get } }

/-- A context in which every user, group and dialog is known. -/
def Td.all_known : Td :=
  { contacts_manager_ :=
      { have_user := fun _ => true
        have_chat := fun _ => true
        have_channel := fun _ => true
        is_megagroup_channel := fun _ => true
        get_input_user := fun user_id => some ⟨user_id.get, 0⟩
        get_user_ids_object := fun user_ids => user_ids.map UserId.get }
    messages_manager_ :=
      { have_dialog_force := fun _ => true
        get_chat_ids_object := fun dialog_ids => dialog_ids.map DialogId.get } }

/-- Identifier declarations for concrete evaluations: identifiers are wrapped as they are and a
dialog is a basic group when its identifier is negative, a channel otherwise. -/
def IdDecls.plain : IdDecls :=
  { get_user_ids := fun ids => ids.map UserId.mk
    dialog_id_of_chat_id := fun chat_id => ⟨-chat_id.get⟩
    dialog_id_of_channel_id := fun channel_id => ⟨channel_id.get⟩
    get_type := fun dialog_id => if dialog_id.get < 0 then DialogType.Chat else DialogType.Channel
    get_chat_id := fun dialog_id => ⟨-dialog_id.get⟩
    get_channel_id := fun dialog_id => ⟨dialog_id.get⟩ }

/-! ## `VoiceNotesManager` -/

/-- Wrapper of the `int32` file identifier. -/
structure FileId where
  get : Int
deriving DecidableEq

/-- The record `VoiceNotesManager::VoiceNote`, over the type `TI` of `TranscriptionInfo`. -/
structure VoiceNote (TI : Type) where
  mime_type : String
  duration : Int
  waveform : String
  transcription_info : Option TI
  file_id : FileId

/-- Declarations used by the voice notes manager whose definitions are not part of the sources:
`FileId::is_valid`, `TranscriptionInfo::update_from` (it returns the new value of its first
argument and its boolean result) and `TranscriptionInfo::copy_if_transcribed`. -/
structure VoiceDecls (TI : Type) where
  is_valid : FileId → Bool
  update_from : Option TI → Option TI → Option TI × Bool
  copy_if_transcribed : Option TI → Option TI

/-- State of a `VoiceNotesManager`: the table `voice_notes_`, where `none` is an absent or null
entry, followed by the calls made so far to `on_transcription_completed` of the transcription
manager and to `merge` of the file manager. -/
structure VoiceNotesManager (TI : Type) where
  voice_notes_ : FileId → Option (VoiceNote TI)
  transcription_completed : List FileId
  file_manager_merge : List (FileId × FileId)

namespace VoiceNotesManager

variable {TI : Type}

/-- The method `get_voice_note`. -/
def get_voice_note (s : VoiceNotesManager TI) (file_id : FileId) : Option (VoiceNote TI) :=
  s.voice_notes_ file_id

/-- The method `get_voice_note_duration`. -/
def get_voice_note_duration (s : VoiceNotesManager TI) (file_id : FileId) : Int :=
  match s.get_voice_note file_id with
  | none => 0
  | some voice_note => voice_note.duration

/-- The first reconciliation step of `on_get_voice_note`: the mime type is assigned when it
differs. -/
def replace_mime_type (v new_voice_note : VoiceNote TI) : VoiceNote TI :=
  if v.mime_type ≠ new_voice_note.mime_type then
    { v with mime_type := new_voice_note.mime_type }
  else v

/-- The second reconciliation step of `on_get_voice_note`: duration and waveform are assigned
when one of them differs. -/
def replace_duration_waveform (v new_voice_note : VoiceNote TI) : VoiceNote TI :=
  if v.duration ≠ new_voice_note.duration ∨ v.waveform ≠ new_voice_note.waveform then
    { v with duration := new_voice_note.duration, waveform := new_voice_note.waveform }
  else v

/-- The method `on_get_voice_note`; the result is the new state with the returned file
identifier, and `none` is a failed `CHECK`. -/
def on_get_voice_note (X : VoiceDecls TI) (s : VoiceNotesManager TI)
    (new_voice_note : VoiceNote TI) (replace : Bool) :
    Option (VoiceNotesManager TI × FileId) :=
  let file_id := new_voice_note.file_id
  if !X.is_valid file_id then none
  else
    match s.voice_notes_ file_id with
    | none =>
      some ({ s with voice_notes_ := Function.update s.voice_notes_ file_id (some new_voice_note) },
        file_id)
    | some v =>
      if replace then
        if v.file_id ≠ new_voice_note.file_id then none
        else
          let v1 := replace_mime_type v new_voice_note
          let v2 := replace_duration_waveform v1 new_voice_note
          let u := X.update_from v2.transcription_info new_voice_note.transcription_info
          let v3 := { v2 with transcription_info := u.1 }
          some ({ s with
                  voice_notes_ := Function.update s.voice_notes_ file_id (some v3)
                  transcription_completed :=
                    if u.2 then s.transcription_completed ++ [file_id]
                    else s.transcription_completed },
            file_id)
      else some (s, file_id)

/-- The method `dup_voice_note`. -/
def dup_voice_note (X : VoiceDecls TI) (s : VoiceNotesManager TI) (new_id old_id : FileId) :
    Option (VoiceNotesManager TI × FileId) :=
  match s.get_voice_note old_id with
  | none => none
  | some old_voice_note =>
    match s.voice_notes_ new_id with
    | some _ => none
    | none =>
      let new_voice_note : VoiceNote TI :=
        { file_id := new_id
          mime_type := old_voice_note.mime_type
          duration := old_voice_note.duration
          waveform := old_voice_note.waveform
          transcription_info := X.copy_if_transcribed old_voice_note.transcription_info }
      some ({ s with voice_notes_ := Function.update s.voice_notes_ new_id (some new_voice_note) },
        new_id)

/-- The method `merge_voice_notes`. -/
def merge_voice_notes (X : VoiceDecls TI) (s : VoiceNotesManager TI) (new_id old_id : FileId) :
    Option (VoiceNotesManager TI) :=
  if !(X.is_valid old_id && X.is_valid new_id) then none
  else if !(new_id ≠ old_id) then none
  else
    match s.get_voice_note old_id with
    | none => none
    | some _ =>
      match s.get_voice_note new_id with
      | none =>
        (dup_voice_note X s new_id old_id).map (fun r =>
          { r.1 with file_manager_merge := r.1.file_manager_merge ++ [(new_id, old_id)] })
      | some _ =>
        some { s with file_manager_merge := s.file_manager_merge ++ [(new_id, old_id)] }

/-- The method `create_voice_note`. -/
def create_voice_note (X : VoiceDecls TI) (s : VoiceNotesManager TI) (file_id : FileId)
    (mime_type : String) (duration : Int) (waveform : String) (replace : Bool) :
    Option (VoiceNotesManager TI) :=
  let v : VoiceNote TI :=
    { file_id := file_id
      mime_type := mime_type
      duration := max duration 0
      waveform := waveform
      transcription_info := none }
  (on_get_voice_note X s v replace).map (fun r => r.1)

/-- The manager with an empty table and no call made. -/
def empty : VoiceNotesManager TI :=
  { voice_notes_ := fun _ => none, transcription_completed := [], file_manager_merge := [] }

end VoiceNotesManager

/-- Scenario A: the file identifier `F1`. -/
def F1 : FileId := ⟨1⟩

/-- Scenario A: the voice note with waveform "ABC", duration 5 and mime type "audio/ogg". -/
def scenario_A_note : VoiceNote Bool :=
  { file_id := F1, mime_type := "audio/ogg", duration := 5, waveform := "ABC",
    transcription_info := none }

/-- Scenario A: the manager whose table holds the voice note of the scenario under `F1`. -/
def scenario_A : VoiceNotesManager Bool :=
  { voice_notes_ := Function.update (fun _ => none) F1 (some scenario_A_note)
    transcription_completed := []
    file_manager_merge := [] }

/-- Declarations for concrete evaluations, with transcription information reduced to an
"is transcribed" flag: an identifier is valid when it is positive, a transcribed new value
replaces an absent or not transcribed one, and only a transcribed value is copied. -/
def VoiceDecls.flag : VoiceDecls Bool :=
  { is_valid := fun file_id => decide (0 < file_id.get)
    update_from := fun old_info new_info =>
      match new_info, old_info with
      | some true, none => (some true, true)
      | some true, some false => (some true, true)
      | _, _ => (old_info, false)
    copy_if_transcribed := fun info =>
      match info with
      | some true => some true
      | _ => none }

/-- Modelled from the spec: `TranscriptionInfo::copy_if_transcribed`, whose definition
(`TranscriptionInfo.cpp`) is not part of the sources.  The nested sub-resource is copied only if
it exists and is in a complete state, which `is_transcribed` tells; otherwise the duplicate starts
without it. -/
def TranscriptionInfo.copy_if_transcribed {TI : Type} (is_transcribed : TI → Bool) :
    Option TI → Option TI
  | none => none
  | some info => if is_transcribed info then some info else none

/-- Scenario C: the file identifier `F2`. -/
def F2 : FileId := ⟨2⟩

/-- Scenario C: the manager whose voice note under `F1` has a completed transcription. -/
def scenario_C_completed : VoiceNotesManager Bool :=
  { voice_notes_ := Function.update (fun _ => none) F1
      (some { scenario_A_note with transcription_info := some true })
    transcription_completed := []
    file_manager_merge := [] }

/-! ## `ForumTopicManager` and `CreateForumTopicQuery` -/

/-- Wrapper of the `int64` custom emoji identifier. -/
structure CustomEmojiId where
  get : Int
deriving DecidableEq

/-- Wrapper of the `int64` message identifier. -/
structure MessageId where
  get : Int
deriving DecidableEq

/-- The class `ForumTopicIcon`, built from a color and a custom emoji identifier. -/
structure ForumTopicIcon where
  color_ : Int
  custom_emoji_id_ : CustomEmojiId
deriving DecidableEq

/-- The class `ForumTopicInfo` of `ForumTopicInfo.h`. -/
structure ForumTopicInfo where
  top_thread_message_id_ : MessageId
  title_ : String
  icon_ : ForumTopicIcon
  creation_date_ : Int
  creator_dialog_id_ : DialogId
  is_outgoing_ : Bool
  is_closed_ : Bool
deriving DecidableEq

/-- The object `td_api::forumTopicIcon`. -/
structure td_api.forumTopicIcon where
  color_ : Int
  custom_emoji_id_ : Int
deriving DecidableEq

namespace telegram_api

/-- The object `telegram_api::InputChannel`; its content plays no role here. -/
structure InputChannel where
  channel_id_ : Int
  access_hash_ : Int
deriving DecidableEq

/-- The variants of `telegram_api::MessageAction`: the topic creation and every other action. -/
inductive MessageAction where
  | messageActionTopicCreate (title_ : String) (icon_color_ : Int) (icon_emoji_id_ : Int)
  | messageActionOther
deriving DecidableEq

/-- The variants of `telegram_api::Message`, with the fields of a service message that are
read. -/
inductive Message where
  | messageEmpty
  | message
  | messageService (id_ : Int) (date_ : Int) (action_ : MessageAction)
deriving DecidableEq

/-- The request `telegram_api::channels_createForumTopic`; `send_as_` is the null pointer. -/
structure channels_createForumTopic where
  flags_ : Nat
  channel_ : InputChannel
  title_ : String
  icon_color_ : Int
  icon_emoji_id_ : Int
  random_id_ : Int
deriving DecidableEq

end telegram_api

/-- A byte buffer. -/
abbrev BufferSlice := List Nat

/-- Declarations used by the forum topic manager whose definitions are not part of the sources,
over the type `U` of `telegram_api::Updates` and the type `O` of `td_api::forumTopicInfo`:
queries of the contacts manager (`is_forum_channel`, `can_create_topics` of
`get_channel_permissions`, `get_my_id`, `get_input_channel`), `clean_name` of `misc.h`, the
constant `MAX_FORUM_TOPIC_TITLE_LENGTH`, the constructor `DialogId(UserId)`, the two flag masks of
the request, `CustomEmojiId::is_valid`, `fetch_result`, `UpdatesManager::get_message_by_random_id`,
the constructors `MessageId(ServerMessageId(id))` and `ForumTopicIcon(color, emoji)`, and
`ForumTopicInfo::get_forum_topic_info_object`. -/
structure ForumDecls (U O : Type) where
  is_forum_channel : ChannelId → Bool
  can_create_topics : ChannelId → Bool
  get_my_id : UserId
  get_input_channel : ChannelId → Option telegram_api.InputChannel
  clean_name : String → Nat → String
  MAX_FORUM_TOPIC_TITLE_LENGTH : Nat
  dialog_id_of_user_id : UserId → DialogId
  ICON_COLOR_MASK : Nat
  ICON_EMOJI_ID_MASK : Nat
  custom_emoji_id_is_valid : CustomEmojiId → Bool
  fetch_result : BufferSlice → Except Status U
  get_message_by_random_id : U → DialogId → Int → Option telegram_api.Message
  message_id_of_server_message_id : Int → MessageId
  forum_topic_icon : Int → Int → ForumTopicIcon
  get_forum_topic_info_object : ForumTopicInfo → O

/-- The fields of a `CreateForumTopicQuery` next to its promise. -/
structure CreateForumTopicQuery where
  channel_id_ : ChannelId
  creator_dialog_id_ : DialogId
  random_id_ : Int
deriving DecidableEq

/-- What a function of the forum topic manager or of its query does to the outside, in the order
of the list that holds them: the resolution of the caller's promise with a value or with an error,
the dispatch of the request by its handler, the report of an error to the contacts manager, and
the call of `UpdatesManager::on_get_updates` with the updates and with the lambda promise that
captures the topic information and the caller's promise, and the end of the application of
updates inside the updates manager. -/
inductive Effect (U O : Type) where
  | promise_set_value (value : O)
  | promise_set_error (status : Status)
  | send_query (handler : CreateForumTopicQuery) (query : telegram_api.channels_createForumTopic)
  | on_get_channel_error (channel_id : ChannelId) (status : Status)
  | on_get_updates (updates : U) (forum_topic_info : ForumTopicInfo)
  | updates_applied (updates : U)
deriving DecidableEq

/-- Modelled from the spec: the macro `TRY_STATUS_PROMISE`, whose header is not part of the
sources.  A failed check fails fast with its error: the promise named in the macro receives the
status through `set_error` and the calling function returns; with an OK status the function goes
on with `rest`. -/
def TRY_STATUS_PROMISE {α : Type} (set_error : Status → α) (status : Except Status Unit)
    (rest : α) : α :=
  match status with
  | Except.error e => set_error e
  | Except.ok _ => rest

namespace CreateForumTopicQuery

variable {U O : Type}

/-- The loop `do random_id_ = Random::secure_int64() while (random_id_ == 0)` over the successive
results `draws` of `Random::secure_int64`; `none` when the loop has not ended within them. -/
def secure_random_id : List Int → Option Int
  | [] => none
  | draw :: draws => if draw = 0 then secure_random_id draws else some draw

/-- The method `send`; `none` is a loop that has not ended or the failed `CHECK` on the input
channel. -/
def send (D : ForumDecls U O) (draws : List Int) (channel_id : ChannelId) (title : String)
    (icon_color : Int) (icon_custom_emoji_id : CustomEmojiId) : Option (List (Effect U O)) :=
  let creator_dialog_id := D.dialog_id_of_user_id D.get_my_id
  let flags : Nat := 0
  let flags := if icon_color ≠ -1 then flags ||| D.ICON_COLOR_MASK else flags
  let flags :=
    if D.custom_emoji_id_is_valid icon_custom_emoji_id then flags ||| D.ICON_EMOJI_ID_MASK
    else flags
  match secure_random_id draws with
  | none => none
  | some random_id =>
    match D.get_input_channel channel_id with
    | none => none
    | some input_channel =>
      some [Effect.send_query ⟨channel_id, creator_dialog_id, random_id⟩
        ⟨flags, input_channel, title, icon_color, icon_custom_emoji_id.get, random_id⟩]

/-- The method `on_error`. -/
def on_error (q : CreateForumTopicQuery) (status : Status) : List (Effect U O) :=
  [Effect.on_get_channel_error q.channel_id_ status, Effect.promise_set_error status]

/-- The method `on_result`. -/
def on_result (E : IdDecls) (D : ForumDecls U O) (q : CreateForumTopicQuery)
    (packet : BufferSlice) : List (Effect U O) :=
  match D.fetch_result packet with
  | Except.error status => on_error q status
  | Except.ok ptr =>
    match D.get_message_by_random_id ptr (E.dialog_id_of_channel_id q.channel_id_)
        q.random_id_ with
    | some (telegram_api.Message.messageService id_ date_ action_) =>
      match action_ with
      | telegram_api.MessageAction.messageActionTopicCreate title_ icon_color_ icon_emoji_id_ =>
        let forum_topic_info : ForumTopicInfo :=
          ⟨D.message_id_of_server_message_id id_, title_,
            D.forum_topic_icon icon_color_ icon_emoji_id_, date_, q.creator_dialog_id_, true,
            false⟩
        [Effect.on_get_updates ptr forum_topic_info]
      | _ => [Effect.promise_set_error ⟨400, "Invalid result received"⟩]
    | _ => [Effect.promise_set_error ⟨400, "Invalid result received"⟩]

end CreateForumTopicQuery

namespace ForumTopicManager

variable {U O : Type}

/-- The method `is_forum`. -/
def is_forum (E : IdDecls) (td : Td) (D : ForumDecls U O) (dialog_id : DialogId) :
    Except Status Unit :=
  if !td.messages_manager_.have_dialog_force dialog_id then
    Except.error ⟨400, "Chat not found"⟩
  else if decide (E.get_type dialog_id ≠ DialogType.Channel)
      || !D.is_forum_channel (E.get_channel_id dialog_id) then
    Except.error ⟨400, "The chat is not a forum"⟩
  else Except.ok ()

/-- The method `create_forum_topic`; the handler is created and its `send` called only when
every check has passed. -/
def create_forum_topic (E : IdDecls) (td : Td) (D : ForumDecls U O) (draws : List Int)
    (dialog_id : DialogId) (title : String) (icon : Option td_api.forumTopicIcon) :
    Option (List (Effect U O)) :=
  TRY_STATUS_PROMISE (fun status => some [Effect.promise_set_error status])
    (is_forum E td D dialog_id)
    (let channel_id := E.get_channel_id dialog_id
     if !D.can_create_topics channel_id then
       some [Effect.promise_set_error ⟨400, "Not enough rights to create a topic"⟩]
     else
       let new_title := D.clean_name title D.MAX_FORUM_TOPIC_TITLE_LENGTH
       if new_title.isEmpty then
         some [Effect.promise_set_error ⟨400, "Title must be non-empty"⟩]
       else
         match icon with
         | none => CreateForumTopicQuery.send D draws channel_id new_title (-1) ⟨0⟩
         | some icon =>
           if icon.color_ < 0 ∨ icon.color_ > 0xFFFFFF then
             some [Effect.promise_set_error ⟨400, "Invalid icon color specified"⟩]
           else
             CreateForumTopicQuery.send D draws channel_id new_title icon.color_
               ⟨icon.custom_emoji_id_⟩)

/-- The method `on_forum_topic_created`, with the value of `G()->close_status()`. -/
def on_forum_topic_created (D : ForumDecls U O) (close_status : Except Status Unit)
    (forum_topic_info : ForumTopicInfo) : List (Effect U O) :=
  TRY_STATUS_PROMISE (fun status => [Effect.promise_set_error status]) close_status
    [Effect.promise_set_value (D.get_forum_topic_info_object forum_topic_info)]

/-- The lambda promise given to `on_get_updates` by `on_result`: once the updates manager sets
it, the closure `on_forum_topic_created` is sent to the forum topic manager with the captured
topic information and promise. -/
def on_get_updates_lambda (D : ForumDecls U O) (close_status : Except Status Unit)
    (forum_topic_info : ForumTopicInfo) : List (Effect U O) :=
  on_forum_topic_created D close_status forum_topic_info

end ForumTopicManager

/-- Modelled from the spec: `UpdatesManager::on_get_updates`, whose definition is not part of the
sources; the specification gives it as `apply(embeddedUpdates) -> eventually(Unit | Error)`.  The
embedded updates are applied and, once the application has completed, the promise given with
them is set; for the lambda promise of `on_result` this runs the lambda. -/
def UpdatesManager.on_get_updates {U O : Type} (D : ForumDecls U O)
    (close_status : Except Status Unit) (updates : U) (forum_topic_info : ForumTopicInfo) :
    List (Effect U O) :=
  Effect.updates_applied updates
    :: ForumTopicManager.on_get_updates_lambda D close_status forum_topic_info

/-- The effects of `on_result` followed through the updates manager: every call of
`on_get_updates` is followed by what the updates manager does with it. -/
def CreateForumTopicQuery.on_result_completed {U O : Type} (E : IdDecls) (D : ForumDecls U O)
    (close_status : Except Status Unit) (q : CreateForumTopicQuery) (packet : BufferSlice) :
    List (Effect U O) :=
  (CreateForumTopicQuery.on_result E D q packet).flatMap (fun effect =>
    match effect with
    | Effect.on_get_updates updates forum_topic_info =>
      effect :: UpdatesManager.on_get_updates D close_status updates forum_topic_info
    | _ => [effect])

/-- Declarations for concrete evaluations: the updates hold at most one message, which every
random identifier matches; the packet `[1]` decodes to a topic creation, `[2]` to an ordinary
message, `[3]` to another service action, `[4]` to no message, and every other packet to an
error; every channel is a forum in which topics can be created; `clean_name` keeps the title. -/
def ForumDecls.plain : ForumDecls (Option telegram_api.Message) ForumTopicInfo :=
  { is_forum_channel := fun _ => true
    can_create_topics := fun _ => true
    get_my_id := ⟨7⟩
    get_input_channel := fun channel_id => some ⟨channel_id.get, 0⟩
    clean_name := fun title _ => title
    MAX_FORUM_TOPIC_TITLE_LENGTH := 128
    dialog_id_of_user_id := fun user_id => ⟨user_id.get⟩
    ICON_COLOR_MASK := 1
    ICON_EMOJI_ID_MASK := 8
    custom_emoji_id_is_valid := fun id => decide (id.get ≠ 0)
    fetch_result := fun packet =>
      if packet = [1] then
        Except.ok (some (.messageService 5 100 (.messageActionTopicCreate "News" 255 0)))
      else if packet = [2] then Except.ok (some .message)
      else if packet = [3] then Except.ok (some (.messageService 5 100 .messageActionOther))
      else if packet = [4] then Except.ok none
      else Except.error ⟨500, "Failed to parse"⟩
    get_message_by_random_id := fun ptr _ _ => ptr
    message_id_of_server_message_id := fun id => ⟨id⟩
    forum_topic_icon := fun color emoji => ⟨color, ⟨emoji⟩⟩
    get_forum_topic_info_object := fun info => info }

/-- A handler that has sent its request for channel 3 with the random identifier 11. -/
def scenario_D_query : CreateForumTopicQuery := ⟨⟨3⟩, ⟨7⟩, 11⟩

/-- The checks of `create_forum_topic`, as the specification lists them: the dialog is found, it
is a channel that is a forum, the channel permissions allow creating topics, the cleaned title is
not empty, and the icon is absent or has a color between 0 and 0xFFFFFF. -/
def ForumTopicManager.checks_pass {U O : Type} (E : IdDecls) (td : Td) (D : ForumDecls U O)
    (dialog_id : DialogId) (title : String) (icon : Option td_api.forumTopicIcon) : Prop :=
  td.messages_manager_.have_dialog_force dialog_id = true
  ∧ E.get_type dialog_id = DialogType.Channel
  ∧ D.is_forum_channel (E.get_channel_id dialog_id) = true
  ∧ D.can_create_topics (E.get_channel_id dialog_id) = true
  ∧ (D.clean_name title D.MAX_FORUM_TOPIC_TITLE_LENGTH).isEmpty = false
  ∧ ∀ i, icon = some i → 0 ≤ i.color_ ∧ i.color_ ≤ 0xFFFFFF

/-- Scenario D: the topic information built from the topic creation of the packet `[1]`. -/
def scenario_D_info : ForumTopicInfo := ⟨⟨5⟩, "News", ⟨255, ⟨0⟩⟩, 100, ⟨7⟩, true, false⟩

/-- What the network layer delivers to the handler of a dispatched request: a transport error,
given to `on_error`, or an answer packet, given to `on_result`. -/
inductive Completion where
  | transport_error (status : Status)
  | answer (packet : BufferSlice)
deriving DecidableEq

/-- One invocation of `create_forum_topic` followed to its end: the effects of
`create_forum_topic` and, after a dispatched request, the effects of the handler method that
receives the completion, with `on_result` followed through the updates manager. -/
def ForumTopicManager.invocation {U O : Type} (E : IdDecls) (td : Td) (D : ForumDecls U O)
    (draws : List Int) (dialog_id : DialogId) (title : String)
    (icon : Option td_api.forumTopicIcon) (completion : Completion)
    (close_status : Except Status Unit) : Option (List (Effect U O)) :=
  (ForumTopicManager.create_forum_topic E td D draws dialog_id title icon).map (fun effects =>
    effects.flatMap (fun effect =>
      match effect with
      | Effect.send_query handler _ =>
        effect ::
          (match completion with
            | Completion.transport_error status => CreateForumTopicQuery.on_error handler status
            | Completion.answer packet =>
              CreateForumTopicQuery.on_result_completed E D close_status handler packet)
      | _ => [effect]))

/-- Number of resolutions of the caller's promise in a sequence of effects. -/
def resolutions {U O : Type} : List (Effect U O) → Nat
  | [] => 0
  | Effect.promise_set_value _ :: effects => resolutions effects + 1
  | Effect.promise_set_error _ :: effects => resolutions effects + 1
  | _ :: effects => resolutions effects

/-- The packet decodes to an answer of the expected shape: a message matches the random
identifier of the request, it is a service message and its action is a topic creation. -/
def CreateForumTopicQuery.topic_created_answer {U O : Type} (E : IdDecls) (D : ForumDecls U O)
    (q : CreateForumTopicQuery) (packet : BufferSlice) : Prop :=
  ∃ ptr id_ date_ title_ color emoji, D.fetch_result packet = Except.ok ptr
    ∧ D.get_message_by_random_id ptr (E.dialog_id_of_channel_id q.channel_id_) q.random_id_
        = some (telegram_api.Message.messageService id_ date_
            (telegram_api.MessageAction.messageActionTopicCreate title_ color emoji))

/-- The key and identity invariant of the table of voice notes: every entry stored under a key
carries that key as its file identifier. -/
def VoiceNotesManager.keys_match {TI : Type} (s : VoiceNotesManager TI) : Prop :=
  ∀ k e, s.voice_notes_ k = some e → e.file_id = k

/-- Position of the variant of a local rule among the nine variants, standing for the
constructor identifier `get_id()`. -/
def td_api.UserPrivacySettingRule.variant : td_api.UserPrivacySettingRule → Nat
  | .userPrivacySettingRuleAllowContacts => 0
  | .userPrivacySettingRuleAllowCloseFriends => 1
  | .userPrivacySettingRuleAllowAll => 2
  | .userPrivacySettingRuleAllowUsers _ => 3
  | .userPrivacySettingRuleAllowChatMembers _ => 4
  | .userPrivacySettingRuleRestrictContacts => 5
  | .userPrivacySettingRuleRestrictAll => 6
  | .userPrivacySettingRuleRestrictUsers _ => 7
  | .userPrivacySettingRuleRestrictChatMembers _ => 8

/-- Position of the variant of an incoming wire rule among the nine variants. -/
def telegram_api.PrivacyRule.variant : telegram_api.PrivacyRule → Nat
  | .privacyValueAllowContacts => 0
  | .privacyValueAllowCloseFriends => 1
  | .privacyValueAllowAll => 2
  | .privacyValueAllowUsers _ => 3
  | .privacyValueAllowChatParticipants _ => 4
  | .privacyValueDisallowContacts => 5
  | .privacyValueDisallowAll => 6
  | .privacyValueDisallowUsers _ => 7
  | .privacyValueDisallowChatParticipants _ => 8

/-- Position of the variant of an outgoing wire rule among the nine variants. -/
def telegram_api.InputPrivacyRule.variant : telegram_api.InputPrivacyRule → Nat
  | .inputPrivacyValueAllowContacts => 0
  | .inputPrivacyValueAllowCloseFriends => 1
  | .inputPrivacyValueAllowAll => 2
  | .inputPrivacyValueAllowUsers _ => 3
  | .inputPrivacyValueAllowChatParticipants _ => 4
  | .inputPrivacyValueDisallowContacts => 5
  | .inputPrivacyValueDisallowAll => 6
  | .inputPrivacyValueDisallowUsers _ => 7
  | .inputPrivacyValueDisallowChatParticipants _ => 8

/-- The test of `set_dialog_ids` on one chat identifier: the dialog is found and it is a basic
group or a megagroup channel. -/
def UserPrivacySettingRule.is_kept_dialog (E : IdDecls) (td : Td) (dialog_id : DialogId) : Bool :=
  td.messages_manager_.have_dialog_force dialog_id
    && (decide (E.get_type dialog_id = DialogType.Chat)
      || (decide (E.get_type dialog_id = DialogType.Channel)
        && td.contacts_manager_.is_megagroup_channel (E.get_channel_id dialog_id)))

/-- A context in which the users 1 and 3 are known and the dialogs -5 and 8 are found, 8 being
a megagroup channel. -/
def Td.some_known : Td :=
  { contacts_manager_ :=
      { have_user := fun user_id => decide (user_id.get = 1 ∨ user_id.get = 3)
        have_chat := fun _ => false
        have_channel := fun _ => false
        is_megagroup_channel := fun channel_id => decide (channel_id.get = 8)
        get_input_user := fun _ => none
        get_user_ids_object := fun user_ids => user_ids.map UserId.get }
    messages_manager_ :=
      { have_dialog_force := fun dialog_id => decide (dialog_id.get = -5 ∨ dialog_id.get = 8)
        get_chat_ids_object := fun dialog_ids => dialog_ids.map DialogId.get } }

/-- The dialog that a server chat identifier denotes in the wire schema: the basic group with
that identifier when the contacts manager knows one, the channel with that identifier
otherwise. -/
def server_chat_dialog (E : IdDecls) (td : Td) (server_chat_id : Int) : DialogId :=
  if td.contacts_manager_.have_chat ⟨server_chat_id⟩ then
    E.dialog_id_of_chat_id ⟨server_chat_id⟩
  else
    E.dialog_id_of_channel_id ⟨server_chat_id⟩

/-- A local rule and a wire rule denote the same rule: they are the same variant, a user rule
lists the same user identifiers, and the chat identifiers of a chat rule refer, position by
position, to the same dialogs. -/
def denote_same_rule (E : IdDecls) (td : Td) :
    td_api.UserPrivacySettingRule → telegram_api.PrivacyRule → Prop
  | .userPrivacySettingRuleAllowContacts, .privacyValueAllowContacts => True
  | .userPrivacySettingRuleAllowCloseFriends, .privacyValueAllowCloseFriends => True
  | .userPrivacySettingRuleAllowAll, .privacyValueAllowAll => True
  | .userPrivacySettingRuleAllowUsers user_ids_, .privacyValueAllowUsers users_ =>
    user_ids_ = users_
  | .userPrivacySettingRuleAllowChatMembers chat_ids_, .privacyValueAllowChatParticipants chats_ =>
    chat_ids_.map DialogId.mk = chats_.map (server_chat_dialog E td)
  | .userPrivacySettingRuleRestrictContacts, .privacyValueDisallowContacts => True
  | .userPrivacySettingRuleRestrictAll, .privacyValueDisallowAll => True
  | .userPrivacySettingRuleRestrictUsers user_ids_, .privacyValueDisallowUsers users_ =>
    user_ids_ = users_
  | .userPrivacySettingRuleRestrictChatMembers chat_ids_,
      .privacyValueDisallowChatParticipants chats_ =>
    chat_ids_.map DialogId.mk = chats_.map (server_chat_dialog E td)
  | _, _ => False

/-- The local side and the wire side know the same about a chat: the dialog of the local chat
identifier is found and is a basic group or a megagroup channel exactly when the contacts manager
knows a basic group or a channel with the server chat identifier. -/
def chat_known_alike (E : IdDecls) (td : Td) (chat_id server_chat_id : Int) : Prop :=
  UserPrivacySettingRule.is_kept_dialog E td ⟨chat_id⟩
    = (td.contacts_manager_.have_chat ⟨server_chat_id⟩
        || td.contacts_manager_.have_channel ⟨server_chat_id⟩)

/-- Every identifier listed by the two rules is known alike to both sides: every listed user is
known to `have_user`, and every listed chat is known alike. -/
def known_alike_rule (E : IdDecls) (td : Td) :
    td_api.UserPrivacySettingRule → telegram_api.PrivacyRule → Prop
  | .userPrivacySettingRuleAllowUsers user_ids_, _ =>
    ∀ x ∈ E.get_user_ids user_ids_, td.contacts_manager_.have_user x = true
  | .userPrivacySettingRuleRestrictUsers user_ids_, _ =>
    ∀ x ∈ E.get_user_ids user_ids_, td.contacts_manager_.have_user x = true
  | .userPrivacySettingRuleAllowChatMembers chat_ids_, .privacyValueAllowChatParticipants chats_ =>
    List.Forall₂ (chat_known_alike E td) chat_ids_ chats_
  | .userPrivacySettingRuleRestrictChatMembers chat_ids_,
      .privacyValueDisallowChatParticipants chats_ =>
    List.Forall₂ (chat_known_alike E td) chat_ids_ chats_
  | _, _ => True

/-- A context in which the channel 7 is known and its dialog is found, and in which it is a
broadcast channel, not a megagroup. -/
def Td.broadcast_known : Td :=
  { contacts_manager_ :=
      { have_user := fun _ => false
        have_chat := fun _ => false
        have_channel := fun channel_id => decide (channel_id.get = 7)
        is_megagroup_channel := fun _ => false
        get_input_user := fun _ => none
        get_user_ids_object := fun user_ids => user_ids.map UserId.get }
    messages_manager_ :=
      { have_dialog_force := fun dialog_id => decide (dialog_id.get = 7)
        get_chat_ids_object := fun dialog_ids => dialog_ids.map DialogId.get } }

/-- Scenario B with a chat rule, local schema: `[AllowChatMembers{-5}, RestrictUsers{42}]`. -/
def scenario_B_chats : List td_api.UserPrivacySettingRule :=
  [.userPrivacySettingRuleAllowChatMembers [-5], .userPrivacySettingRuleRestrictUsers [42]]

/-- Scenario B with a chat rule, wire schema: `[AllowChatParticipants{5}, DisallowUsers{42}]`. -/
def scenario_B_chats_wire : List telegram_api.PrivacyRule :=
  [.privacyValueAllowChatParticipants [5], .privacyValueDisallowUsers [42]]

/-! ## Lemmas on the trailing step -/

namespace UserPrivacySettingRules

theorem is_RestrictAll_object (td : Td) (r : UserPrivacySettingRule) :
    (r.get_user_privacy_setting_rule_object td).is_userPrivacySettingRuleRestrictAll
      = decide (r.type_ = RuleType.RestrictAll) := by
  obtain ⟨t, u, d⟩ := r
  cases t <;> rfl

theorem pop_back_if_RestrictAll_nil (td : Td) : pop_back_if_RestrictAll td [] = [] := rfl

theorem pop_back_if_RestrictAll_concat (td : Td) (l : List UserPrivacySettingRule)
    (a : UserPrivacySettingRule) :
    pop_back_if_RestrictAll td (l ++ [a])
      = if a.type_ = RuleType.RestrictAll then l else l ++ [a] := by
  unfold pop_back_if_RestrictAll
  rw [List.getLast?_concat]
  simp only [is_RestrictAll_object, List.dropLast_concat, decide_eq_true_eq]

theorem drop_trailing_RestrictAll_concat (l : List RuleType) (a : RuleType) :
    drop_trailing_RestrictAll (l ++ [a]) = if a = RuleType.RestrictAll then l else l ++ [a] := by
  unfold drop_trailing_RestrictAll
  rw [List.getLast?_concat]
  simp only [Option.some.injEq, List.dropLast_concat]

theorem rule_types_pop_back_if_RestrictAll (td : Td) (l : List UserPrivacySettingRule) :
    rule_types (pop_back_if_RestrictAll td l) = drop_trailing_RestrictAll (rule_types l) := by
  rcases List.eq_nil_or_concat l with rfl | ⟨pre, a, rfl⟩
  · rfl
  · rw [List.concat_eq_append, pop_back_if_RestrictAll_concat]
    simp only [rule_types, List.map_append, List.map_cons, List.map_nil]
    rw [drop_trailing_RestrictAll_concat]
    split <;> simp [rule_types]

end UserPrivacySettingRules

/-! ## Claims on the canonical rule sequence -/

namespace UserPrivacySettingRules

theorem concat_two_inj {α : Type} {l pre : List α} {x a b : α}
    (h : l ++ [x] = pre ++ [a, b]) : l = pre ++ [a] ∧ x = b := by
  have h2 : l ++ [x] = (pre ++ [a]) ++ [b] := by simpa using h
  have h3 := List.append_inj' h2 rfl
  exact ⟨h3.1, by simpa using h3.2⟩

/-- C1, as stated, fails: on the sequence of two `RestrictAll` rules the trailing step of
`get_user_privacy_setting_rules` applied twice differs from the step applied once; the wire
overload maps `[DisallowAll, DisallowAll]` to `[RestrictAll]` and `[DisallowAll]` to `[]`. -/
theorem C1_pop_back_twice_differs :
    pop_back_if_RestrictAll Td.nothing_known
        (pop_back_if_RestrictAll Td.nothing_known
          [⟨RuleType.RestrictAll, [], []⟩, ⟨RuleType.RestrictAll, [], []⟩])
      ≠ pop_back_if_RestrictAll Td.nothing_known
          [⟨RuleType.RestrictAll, [], []⟩, ⟨RuleType.RestrictAll, [], []⟩]
    ∧ get_user_privacy_setting_rules_telegram_api IdDecls.plain Td.nothing_known
        [some .privacyValueDisallowAll, some .privacyValueDisallowAll]
      = some ⟨[⟨RuleType.RestrictAll, [], []⟩]⟩
    ∧ get_user_privacy_setting_rules_telegram_api IdDecls.plain Td.nothing_known
        [some .privacyValueDisallowAll]
      = some ⟨[]⟩ := by
  refine ⟨by decide, by decide, by decide⟩

/-- C1, amended: the trailing step of `get_user_privacy_setting_rules` (keep the rules in order,
drop the final rule if it is `RestrictAll`) applied to its own output gives the same sequence as
applying it once exactly when the sequence does not end in two `RestrictAll` rules. -/
theorem C1_pop_back_idempotent_iff (td : Td) (L : List UserPrivacySettingRule) :
    pop_back_if_RestrictAll td (pop_back_if_RestrictAll td L) = pop_back_if_RestrictAll td L
      ↔ ¬ ∃ pre a b, L = pre ++ [a, b] ∧ a.type_ = RuleType.RestrictAll
            ∧ b.type_ = RuleType.RestrictAll := by
  rcases List.eq_nil_or_concat L with rfl | ⟨l, b, rfl⟩
  · simp [pop_back_if_RestrictAll_nil]
  · rw [List.concat_eq_append, pop_back_if_RestrictAll_concat]
    by_cases hb : b.type_ = RuleType.RestrictAll
    · rw [if_pos hb]
      rcases List.eq_nil_or_concat l with rfl | ⟨pre, a, rfl⟩
      · rw [pop_back_if_RestrictAll_nil]
        refine iff_of_true rfl ?_
        rintro ⟨pre, a, c, h, -, -⟩
        have := congrArg List.length h
        simp at this
      · rw [List.concat_eq_append, pop_back_if_RestrictAll_concat]
        by_cases ha : a.type_ = RuleType.RestrictAll
        · rw [if_pos ha]
          refine iff_of_false ?_ ?_
          · intro h
            have := congrArg List.length h
            simp at this
          · intro h
            exact h ⟨pre, a, b, by simp, ha, hb⟩
        · rw [if_neg ha]
          refine iff_of_true rfl ?_
          rintro ⟨pre2, a2, b2, h, ha2, -⟩
          obtain ⟨h1, -⟩ := concat_two_inj h
          have h4 := List.append_inj' h1 rfl
          have : a = a2 := by simpa using h4.2
          exact ha (this ▸ ha2)
    · rw [if_neg hb, pop_back_if_RestrictAll_concat, if_neg hb]
      refine iff_of_true rfl ?_
      rintro ⟨pre2, a2, b2, h, -, hb2⟩
      obtain ⟨-, h1⟩ := concat_two_inj h
      exact hb (h1 ▸ hb2)

end UserPrivacySettingRules

namespace UserPrivacySettingRules

theorem of_PrivacyRule_type (E : IdDecls) (td : Td) (rule : telegram_api.PrivacyRule) :
    (UserPrivacySettingRule.of_PrivacyRule E td rule).type_ = rule.rule_type := by
  cases rule <;> rfl

theorem of_td_api_type (E : IdDecls) (td : Td) (rule : td_api.UserPrivacySettingRule) :
    (UserPrivacySettingRule.of_td_api E td rule).type_ = rule.rule_type := by
  cases rule <;> rfl

theorem push_back_telegram_api_some (E : IdDecls) (td : Td)
    (rules : List telegram_api.PrivacyRule) :
    push_back_telegram_api E td (rules.map some)
      = some (rules.map (UserPrivacySettingRule.of_PrivacyRule E td)) := by
  induction rules with
  | nil => rfl
  | cons rule rules ih =>
    simp only [List.map_cons, push_back_telegram_api, UserPrivacySettingRule.of_telegram_api, ih,
      Option.map_some']

theorem emplace_back_td_api_some (E : IdDecls) (td : Td)
    (rules : List td_api.UserPrivacySettingRule) :
    emplace_back_td_api E td (rules.map some)
      = Except.ok (rules.map (UserPrivacySettingRule.of_td_api E td)) := by
  induction rules with
  | nil => rfl
  | cons rule rules ih =>
    simp only [List.map_cons, emplace_back_td_api, ih, Except.map]

theorem rule_type_eq_RestrictAll_iff (rule : telegram_api.PrivacyRule) :
    rule.rule_type = RuleType.RestrictAll ↔ rule = .privacyValueDisallowAll := by
  cases rule <;> simp [telegram_api.PrivacyRule.rule_type]

/-- C3: for every wire-schema rule list the wire overload of `get_user_privacy_setting_rules`
returns, and the rule-type sequence of its result is the type sequence of the input, in order,
without its last element when the input ends in `privacyValueDisallowAll` and unchanged
otherwise; at most one element is removed. -/
theorem C3_telegram_api_type_sequence (E : IdDecls) (td : Td)
    (rules : List telegram_api.PrivacyRule) :
    ∃ r, get_user_privacy_setting_rules_telegram_api E td (rules.map some) = some r
      ∧ rule_types r.rules_
          = (if rules.getLast? = some .privacyValueDisallowAll
              then (rules.map (fun rule => rule.rule_type)).dropLast
              else rules.map (fun rule => rule.rule_type))
      ∧ rules.length ≤ r.rules_.length + 1 := by
  refine ⟨⟨pop_back_if_RestrictAll td (rules.map (UserPrivacySettingRule.of_PrivacyRule E td))⟩,
    ?_, ?_, ?_⟩
  · simp only [get_user_privacy_setting_rules_telegram_api, push_back_telegram_api_some,
      Option.map_some']
  · rcases List.eq_nil_or_concat rules with rfl | ⟨pre, a, rfl⟩
    · rfl
    · simp only [List.concat_eq_append, List.map_append, List.map_cons, List.map_nil,
        pop_back_if_RestrictAll_concat, of_PrivacyRule_type, rule_type_eq_RestrictAll_iff,
        List.getLast?_concat, Option.some.injEq, List.dropLast_concat]
      split <;> simp [rule_types, of_PrivacyRule_type]
  · rcases List.eq_nil_or_concat rules with rfl | ⟨pre, a, rfl⟩
    · simp
    · simp only [List.concat_eq_append, List.map_append, List.map_cons, List.map_nil,
        pop_back_if_RestrictAll_concat]
      split <;> simp

end UserPrivacySettingRules

namespace UserPrivacySettingRules

theorem get_input_chat_ids_loop_some (E : IdDecls) (ds : List DialogId)
    (h : ∀ d ∈ ds, E.get_type d = DialogType.Chat ∨ E.get_type d = DialogType.Channel) :
    ∃ ids, UserPrivacySettingRule.get_input_chat_ids_loop E ds = some ids := by
  induction ds with
  | nil => exact ⟨[], rfl⟩
  | cons d ds ih =>
    obtain ⟨ids, hids⟩ := ih (fun x hx => h x (List.mem_cons_of_mem _ hx))
    rcases h d (List.mem_cons_self _ _) with hd | hd
    · exact ⟨(E.get_chat_id d).get :: ids, by
        simp [UserPrivacySettingRule.get_input_chat_ids_loop, hd, hids]⟩
    · exact ⟨(E.get_channel_id d).get :: ids, by
        simp [UserPrivacySettingRule.get_input_chat_ids_loop, hd, hids]⟩

theorem get_input_privacy_rule_some (E : IdDecls) (td : Td) (r : UserPrivacySettingRule)
    (h : ∀ d ∈ r.dialog_ids_, E.get_type d = DialogType.Chat ∨ E.get_type d = DialogType.Channel) :
    ∃ x, r.get_input_privacy_rule E td = some x ∧ x.rule_type = r.type_ := by
  obtain ⟨ids, hids⟩ := get_input_chat_ids_loop_some E r.dialog_ids_ h
  obtain ⟨t, u, d⟩ := r
  cases t <;>
    simp [UserPrivacySettingRule.get_input_privacy_rule,
      UserPrivacySettingRule.get_input_chat_ids, telegram_api.InputPrivacyRule.rule_type] <;>
    exact ⟨ids, hids⟩

theorem transform_input_privacy_rule_some (E : IdDecls) (td : Td)
    (rules_ : List UserPrivacySettingRule) (h : groups_only E rules_) :
    ∃ out, transform_input_privacy_rule E td rules_ = some out
      ∧ out.map (fun x => x.rule_type) = rule_types rules_ := by
  induction rules_ with
  | nil => exact ⟨[], rfl, rfl⟩
  | cons rule rules_ ih =>
    obtain ⟨out, hout, htypes⟩ := ih (fun x hx => h x (List.mem_cons_of_mem _ hx))
    obtain ⟨x, hx, hxt⟩ := get_input_privacy_rule_some E td rule (h rule (List.mem_cons_self _ _))
    refine ⟨x :: out, ?_, ?_⟩
    · simp [transform_input_privacy_rule, hx, hout]
    · simp only [List.map_cons, hxt, htypes, rule_types]

theorem is_DisallowAll_input (x : telegram_api.InputPrivacyRule) :
    x.is_inputPrivacyValueDisallowAll = decide (x.rule_type = RuleType.RestrictAll) := by
  cases x <;> rfl

theorem input_pop_back_types (result : List telegram_api.InputPrivacyRule) :
    (pop_back_if_DisallowAll result).map (fun x => x.rule_type)
      = drop_trailing_RestrictAll (result.map (fun x => x.rule_type)) := by
  rcases List.eq_nil_or_concat result with rfl | ⟨pre, a, rfl⟩
  · rfl
  · unfold pop_back_if_DisallowAll
    rw [List.concat_eq_append, List.getLast?_concat]
    simp only [is_DisallowAll_input, decide_eq_true_eq, List.dropLast_concat, List.map_append,
      List.map_cons, List.map_nil, drop_trailing_RestrictAll_concat]
    split <;> simp

theorem get_input_privacy_rules_types (E : IdDecls) (td : Td) (r : UserPrivacySettingRules)
    (h : groups_only E r.rules_) :
    ∃ out, get_input_privacy_rules E td r = some out
      ∧ out.map (fun x => x.rule_type) = drop_trailing_RestrictAll (rule_types r.rules_) := by
  obtain ⟨res, hres, htypes⟩ := transform_input_privacy_rule_some E td r.rules_ h
  refine ⟨pop_back_if_DisallowAll res, ?_, ?_⟩
  · simp only [get_input_privacy_rules, hres, Option.map_some']
  · rw [input_pop_back_types, htypes]

theorem set_dialog_ids_types (E : IdDecls) (td : Td) (chat_ids : List Int) :
    ∀ d ∈ UserPrivacySettingRule.set_dialog_ids E td chat_ids,
      E.get_type d = DialogType.Chat ∨ E.get_type d = DialogType.Channel := by
  induction chat_ids with
  | nil => intro d hd; simp [UserPrivacySettingRule.set_dialog_ids] at hd
  | cons c cs ih =>
    intro d hd
    unfold UserPrivacySettingRule.set_dialog_ids at hd
    simp only at hd
    split at hd
    · exact ih d hd
    · split at hd
      · rcases List.mem_cons.1 hd with rfl | hd
        · left; assumption
        · exact ih d hd
      · split at hd
        · exact ih d hd
        · rcases List.mem_cons.1 hd with rfl | hd
          · right; assumption
          · exact ih d hd
      · exact ih d hd

theorem groups_only_of_td_api (E : IdDecls) (td : Td)
    (rules : List td_api.UserPrivacySettingRule) :
    groups_only E (rules.map (UserPrivacySettingRule.of_td_api E td)) := by
  intro rule hrule d hd
  obtain ⟨x, -, rfl⟩ := List.mem_map.1 hrule
  cases x <;> simp [UserPrivacySettingRule.of_td_api] at hd <;>
    exact set_dialog_ids_types E td _ d hd

theorem rule_types_of_td_api (E : IdDecls) (td : Td)
    (rules : List td_api.UserPrivacySettingRule) :
    rule_types (rules.map (UserPrivacySettingRule.of_td_api E td))
      = rules.map (fun rule => rule.rule_type) := by
  simp [rule_types, of_td_api_type]

end UserPrivacySettingRules

namespace UserPrivacySettingRules

theorem td_api_rule_type_eq_RestrictAll_iff (rule : td_api.UserPrivacySettingRule) :
    rule.rule_type = RuleType.RestrictAll ↔ rule = .userPrivacySettingRuleRestrictAll := by
  cases rule <;> simp [td_api.UserPrivacySettingRule.rule_type]

theorem drop_trailing_RestrictAll_of_ne (types : List RuleType)
    (h : types.getLast? ≠ some RuleType.RestrictAll) :
    drop_trailing_RestrictAll types = types := by
  unfold drop_trailing_RestrictAll
  rw [if_neg h]

theorem pop_back_if_RestrictAll_of_ne (td : Td) (l : List UserPrivacySettingRule)
    (h : (rule_types l).getLast? ≠ some RuleType.RestrictAll) :
    pop_back_if_RestrictAll td l = l := by
  rcases List.eq_nil_or_concat l with rfl | ⟨pre, a, rfl⟩
  · rfl
  · rw [List.concat_eq_append] at h ⊢
    rw [pop_back_if_RestrictAll_concat]
    have ha : a.type_ ≠ RuleType.RestrictAll := by
      intro ha
      apply h
      simp [rule_types, ha]
    rw [if_neg ha]

theorem object_rule_type (td : Td) (r : UserPrivacySettingRule) :
    (r.get_user_privacy_setting_rule_object td).rule_type = r.type_ := by
  obtain ⟨t, u, d⟩ := r
  cases t <;> rfl

/-- C4, as stated, fails: from the local list `[AllowContacts, RestrictAll]` the local overload
builds the sequence `[AllowContacts, RestrictAll]`, not `[AllowContacts]`. -/
theorem C4_td_api_keeps_trailing_RestrictAll :
    get_user_privacy_setting_rules_td_api IdDecls.plain Td.all_known
        (some ⟨scenario_B_sentinel.map some⟩)
      = Except.ok ⟨[⟨RuleType.AllowContacts, [], []⟩, ⟨RuleType.RestrictAll, [], []⟩]⟩
    ∧ rule_types [⟨RuleType.AllowContacts, [], []⟩, ⟨RuleType.RestrictAll, [], []⟩]
        ≠ [RuleType.AllowContacts] := by
  refine ⟨rfl, by decide⟩

/-- C4, amended: for every rule list supplied in the local schema the local overload of
`get_user_privacy_setting_rules` returns a sequence that keeps every rule in order, a trailing
`RestrictAll` included; the trailing `RestrictAll` is omitted by the wire-bound projection
`get_input_privacy_rules` of that sequence, which returns and has the type sequence of the input
without a final `RestrictAll`. -/
theorem C4_td_api_keeps_all_and_wire_projection_drops (E : IdDecls) (td : Td)
    (rules : List td_api.UserPrivacySettingRule) :
    ∃ r out, get_user_privacy_setting_rules_td_api E td (some ⟨rules.map some⟩) = Except.ok r
      ∧ rule_types r.rules_ = rules.map (fun rule => rule.rule_type)
      ∧ get_input_privacy_rules E td r = some out
      ∧ out.map (fun x => x.rule_type)
          = drop_trailing_RestrictAll (rules.map (fun rule => rule.rule_type)) := by
  obtain ⟨out, hout, htypes⟩ := get_input_privacy_rules_types E td
    ⟨rules.map (UserPrivacySettingRule.of_td_api E td)⟩ (groups_only_of_td_api E td rules)
  refine ⟨⟨rules.map (UserPrivacySettingRule.of_td_api E td)⟩, out, ?_, ?_, hout, ?_⟩
  · simp only [get_user_privacy_setting_rules_td_api, emplace_back_td_api_some, Except.map]
  · exact rule_types_of_td_api E td rules
  · rw [htypes, rule_types_of_td_api]

/-- C6, as stated, fails: for the value `[RestrictAll]`, which the local overload builds from
`[RestrictAll]`, the caller-facing projection has one element and the wire-bound projection has
none. -/
theorem C6_projections_differ_on_RestrictAll :
    get_user_privacy_setting_rules_td_api IdDecls.plain Td.all_known
        (some ⟨[some .userPrivacySettingRuleRestrictAll]⟩)
      = Except.ok ⟨[⟨RuleType.RestrictAll, [], []⟩]⟩
    ∧ (get_user_privacy_setting_rules_object Td.all_known
        ⟨[⟨RuleType.RestrictAll, [], []⟩]⟩).rules_ = [some .userPrivacySettingRuleRestrictAll]
    ∧ get_input_privacy_rules IdDecls.plain Td.all_known ⟨[⟨RuleType.RestrictAll, [], []⟩]⟩
        = some [] := by
  refine ⟨rfl, by decide, by decide⟩

/-- C6, amended: for every `UserPrivacySettingRules` value whose dialog identifiers are basic
groups or channels, the variant sequence of the wire-bound projection `get_input_privacy_rules`
is the variant sequence of the caller-facing projection `get_user_privacy_setting_rules_object`
without a final `RestrictAll`; when the value does not end in `RestrictAll` the two projections
have the same length and corresponding variants at every position. -/
theorem C6_wire_projection_is_object_projection_trimmed (E : IdDecls) (td : Td)
    (r : UserPrivacySettingRules) (h : groups_only E r.rules_) :
    ∃ (objs : List td_api.UserPrivacySettingRule) (out : List telegram_api.InputPrivacyRule),
      (get_user_privacy_setting_rules_object td r).rules_ = objs.map some
      ∧ get_input_privacy_rules E td r = some out
      ∧ out.map (fun x => x.rule_type)
          = drop_trailing_RestrictAll (objs.map (fun o => o.rule_type))
      ∧ ((rule_types r.rules_).getLast? ≠ some RuleType.RestrictAll →
          out.length = objs.length
            ∧ out.map (fun x => x.rule_type) = objs.map (fun o => o.rule_type)) := by
  obtain ⟨out, hout, htypes⟩ := get_input_privacy_rules_types E td r h
  have hobj : (r.rules_.map (fun rule => rule.get_user_privacy_setting_rule_object td)).map
      (fun o => o.rule_type) = rule_types r.rules_ := by
    simp [rule_types, object_rule_type]
  refine ⟨r.rules_.map (fun rule => rule.get_user_privacy_setting_rule_object td), out, ?_, hout,
    ?_, ?_⟩
  · simp [get_user_privacy_setting_rules_object]
  · rw [htypes, hobj]
  · intro hlast
    have heq : out.map (fun x => x.rule_type)
        = (r.rules_.map (fun rule => rule.get_user_privacy_setting_rule_object td)).map
            (fun o => o.rule_type) := by
      rw [htypes, hobj, drop_trailing_RestrictAll_of_ne _ hlast]
    refine ⟨?_, heq⟩
    have := congrArg List.length heq
    simpa using this

/-- C6, amended, at the value `[AllowContacts, RestrictUsers{42}]`. -/
theorem C6_wire_projection_witness :
    groups_only IdDecls.plain
        [⟨RuleType.AllowContacts, [], []⟩, ⟨RuleType.RestrictUsers, [⟨42⟩], []⟩]
    ∧ ∃ (objs : List td_api.UserPrivacySettingRule) (out : List telegram_api.InputPrivacyRule),
      (get_user_privacy_setting_rules_object Td.all_known
          ⟨[⟨RuleType.AllowContacts, [], []⟩, ⟨RuleType.RestrictUsers, [⟨42⟩], []⟩]⟩).rules_
          = objs.map some
      ∧ get_input_privacy_rules IdDecls.plain Td.all_known
          ⟨[⟨RuleType.AllowContacts, [], []⟩, ⟨RuleType.RestrictUsers, [⟨42⟩], []⟩]⟩ = some out
      ∧ out.map (fun x => x.rule_type)
          = drop_trailing_RestrictAll (objs.map (fun o => o.rule_type))
      ∧ ((rule_types
            [⟨RuleType.AllowContacts, [], []⟩, ⟨RuleType.RestrictUsers, [⟨42⟩], []⟩]).getLast?
            ≠ some RuleType.RestrictAll →
          out.length = objs.length
            ∧ out.map (fun x => x.rule_type) = objs.map (fun o => o.rule_type)) :=
  have h : groups_only IdDecls.plain
      [⟨RuleType.AllowContacts, [], []⟩, ⟨RuleType.RestrictUsers, [⟨42⟩], []⟩] := by
    intro rule hrule d hd
    simp only [List.mem_cons, List.mem_singleton, List.not_mem_nil, or_false] at hrule
    rcases hrule with rfl | rfl <;> simp at hd
  ⟨h, C6_wire_projection_is_object_projection_trimmed IdDecls.plain Td.all_known _ h⟩

end UserPrivacySettingRules

/-! ## Restricted user identifiers -/

namespace UserPrivacySettingRules

theorem mem_unique_cons (x : UserId) (l : List UserId) :
    ∀ a, x ∈ unique (a :: l) ↔ x ∈ a :: l := by
  induction l with
  | nil => intro a; simp [unique]
  | cons b t ih =>
    intro a
    by_cases hab : a = b
    · subst hab
      simp only [unique, if_true, ih a, List.mem_cons]
      tauto
    · simp only [unique, if_neg hab, List.mem_cons, ih b]

theorem mem_unique (x : UserId) (l : List UserId) : x ∈ unique l ↔ x ∈ l := by
  cases l with
  | nil => simp [unique]
  | cons a l => exact mem_unique_cons x l a

theorem sorted_unique_cons (l : List UserId) :
    ∀ a, List.Pairwise (fun lhs rhs : UserId => lhs.get ≤ rhs.get) (a :: l) →
      List.Pairwise (fun lhs rhs : UserId => lhs.get < rhs.get) (unique (a :: l)) := by
  induction l with
  | nil => intro a _; simp [unique]
  | cons b t ih =>
    intro a h
    have htail : List.Pairwise (fun lhs rhs : UserId => lhs.get ≤ rhs.get) (b :: t) :=
      (List.pairwise_cons.1 h).2
    by_cases hab : a = b
    · simp only [unique, if_pos hab]
      exact ih b htail
    · simp only [unique, if_neg hab]
      refine List.pairwise_cons.2 ⟨?_, ih b htail⟩
      intro x hx
      have hx2 : x ∈ b :: t := (mem_unique_cons x t b).1 hx
      have hle : a.get ≤ b.get := (List.pairwise_cons.1 h).1 b (List.mem_cons_self _ _)
      have hne : a.get ≠ b.get := by
        intro hget
        apply hab
        cases a
        cases b
        simp only at hget
        rw [hget]
      have hlt : a.get < b.get := lt_of_le_of_ne hle hne
      rcases List.mem_cons.1 hx2 with rfl | hxt
      · exact hlt
      · exact lt_of_lt_of_le hlt ((List.pairwise_cons.1 htail).1 x hxt)

theorem sorted_unique (l : List UserId)
    (h : List.Pairwise (fun lhs rhs : UserId => lhs.get ≤ rhs.get) l) :
    List.Pairwise (fun lhs rhs : UserId => lhs.get < rhs.get) (unique l) := by
  cases l with
  | nil => simp [unique]
  | cons a l => exact sorted_unique_cons l a h

theorem sorted_sort_by_get (l : List UserId) :
    List.Pairwise (fun lhs rhs : UserId => lhs.get ≤ rhs.get) (sort_by_get l) := by
  haveI : IsTotal UserId (fun lhs rhs : UserId => lhs.get ≤ rhs.get) :=
    ⟨fun a b => le_total a.get b.get⟩
  haveI : IsTrans UserId (fun lhs rhs : UserId => lhs.get ≤ rhs.get) :=
    ⟨fun _ _ _ hab hbc => le_trans hab hbc⟩
  exact List.sorted_insertionSort (fun lhs rhs : UserId => lhs.get ≤ rhs.get) l

theorem mem_sort_by_get (x : UserId) (l : List UserId) : x ∈ sort_by_get l ↔ x ∈ l :=
  (List.perm_insertionSort (fun lhs rhs : UserId => lhs.get ≤ rhs.get) l).mem_iff

theorem mem_foldl_combine (combine : List UserId → List UserId → List UserId)
    (hcombine : ∀ d s, (combine d s).Perm (d ++ s)) (x : UserId)
    (rules_ : List UserPrivacySettingRule) :
    ∀ acc, x ∈ rules_.foldl (fun result rule => combine result rule.get_restricted_user_ids) acc
      ↔ x ∈ acc ∨ ∃ rule ∈ rules_, x ∈ rule.get_restricted_user_ids := by
  induction rules_ with
  | nil => intro acc; simp
  | cons rule rules_ ih =>
    intro acc
    rw [List.foldl_cons, ih, (hcombine acc rule.get_restricted_user_ids).mem_iff, List.mem_append]
    simp only [List.mem_cons, exists_eq_or_imp]
    tauto

theorem mem_get_restricted_user_ids_rule (x : UserId) (rule : UserPrivacySettingRule) :
    x ∈ rule.get_restricted_user_ids
      ↔ rule.type_ = RuleType.RestrictUsers ∧ x ∈ rule.user_ids_ := by
  unfold UserPrivacySettingRule.get_restricted_user_ids
  split <;> simp [*]

/-- C5: for every rule list, `UserPrivacySettingRules::get_restricted_user_ids` returns a list
that is strictly increasing by numeric user identifier and contains an identifier if and only if
it occurs in the user identifier list of some rule of type `RestrictUsers`; `combine` is any
function whose result holds the elements of its two arguments. -/
theorem C5_get_restricted_user_ids_sorted_union
    (combine : List UserId → List UserId → List UserId)
    (hcombine : ∀ d s, (combine d s).Perm (d ++ s)) (r : UserPrivacySettingRules) :
    List.Sorted (fun lhs rhs : UserId => lhs.get < rhs.get) (get_restricted_user_ids combine r)
      ∧ ∀ id : UserId, id ∈ get_restricted_user_ids combine r
          ↔ ∃ rule ∈ r.rules_, rule.type_ = RuleType.RestrictUsers ∧ id ∈ rule.user_ids_ := by
  refine ⟨sorted_unique _ (sorted_sort_by_get _), ?_⟩
  intro id
  simp only [get_restricted_user_ids, mem_unique, mem_sort_by_get,
    mem_foldl_combine combine hcombine, List.not_mem_nil, false_or,
    mem_get_restricted_user_ids_rule]

/-- C5 at the value `[AllowContacts, RestrictUsers{42}]` with `combine` appending its second
argument to the first: the result is `[42]`. -/
theorem C5_get_restricted_user_ids_witness :
    (∀ d s : List UserId, (d ++ s).Perm (d ++ s))
    ∧ get_restricted_user_ids (fun d s => d ++ s) scenario_B_users_rules = [⟨42⟩]
    ∧ List.Sorted (fun lhs rhs : UserId => lhs.get < rhs.get)
        (get_restricted_user_ids (fun d s => d ++ s) scenario_B_users_rules)
    ∧ ∀ id : UserId, id ∈ get_restricted_user_ids (fun d s => d ++ s) scenario_B_users_rules
        ↔ ∃ rule ∈ scenario_B_users_rules.rules_,
            rule.type_ = RuleType.RestrictUsers ∧ id ∈ rule.user_ids_ :=
  ⟨fun _ _ => List.Perm.refl _, by decide,
    C5_get_restricted_user_ids_sorted_union (fun d s => d ++ s) (fun _ _ => List.Perm.refl _)
      scenario_B_users_rules⟩

end UserPrivacySettingRules

/-! ## Claims on the voice note table -/

namespace VoiceNotesManager

variable {TI : Type}

theorem replace_mime_type_mime_type (v new_voice_note : VoiceNote TI) :
    (replace_duration_waveform (replace_mime_type v new_voice_note) new_voice_note).mime_type
      = new_voice_note.mime_type := by
  unfold replace_duration_waveform replace_mime_type
  by_cases h : v.mime_type = new_voice_note.mime_type
  · simp only [ne_eq, h, not_true_eq_false, if_false]
    split <;> simp only [h]
  · simp only [ne_eq, h, not_false_eq_true, if_true]
    split <;> rfl

theorem replace_duration_waveform_fields (v new_voice_note : VoiceNote TI) :
    (replace_duration_waveform v new_voice_note).duration = new_voice_note.duration
      ∧ (replace_duration_waveform v new_voice_note).waveform = new_voice_note.waveform := by
  unfold replace_duration_waveform
  split
  · exact ⟨rfl, rfl⟩
  · rename_i h
    simp only [ne_eq, not_or, not_not] at h
    exact h

theorem on_get_voice_note_absent (X : VoiceDecls TI) (s : VoiceNotesManager TI)
    (v : VoiceNote TI) (replace : Bool) (hvalid : X.is_valid v.file_id = true)
    (habsent : s.voice_notes_ v.file_id = none) :
    on_get_voice_note X s v replace
      = some ({ s with voice_notes_ := Function.update s.voice_notes_ v.file_id (some v) },
          v.file_id) := by
  simp [on_get_voice_note, hvalid, habsent]

theorem on_get_voice_note_replace_present (X : VoiceDecls TI) (s : VoiceNotesManager TI)
    (v old : VoiceNote TI) (hvalid : X.is_valid v.file_id = true)
    (hpresent : s.voice_notes_ v.file_id = some old) (hkey : old.file_id = v.file_id) :
    ∃ e log, on_get_voice_note X s v true
      = some ({ s with
                voice_notes_ := Function.update s.voice_notes_ v.file_id (some e)
                transcription_completed := log }, v.file_id)
      ∧ e.mime_type = v.mime_type ∧ e.duration = v.duration ∧ e.waveform = v.waveform := by
  refine ⟨{ replace_duration_waveform (replace_mime_type old v) v with
      transcription_info := (X.update_from (replace_duration_waveform
        (replace_mime_type old v) v).transcription_info v.transcription_info).1 },
    if (X.update_from (replace_duration_waveform
      (replace_mime_type old v) v).transcription_info v.transcription_info).2
    then s.transcription_completed ++ [v.file_id] else s.transcription_completed, ?_,
    replace_mime_type_mime_type old v, (replace_duration_waveform_fields _ v).1,
    (replace_duration_waveform_fields _ v).2⟩
  simp only [on_get_voice_note, hvalid, hpresent, hkey, Bool.not_true, Bool.false_eq_true,
    if_false, if_true, ne_eq, not_true_eq_false]

/-- C7: for every manager state, every valid file identifier present in the table and every new
voice note `v` carrying it, `on_get_voice_note(v, replace = false)` returns that identifier and
leaves the whole state unchanged: the table keeps every entry with all its fields, and no
transcription-completed notification is emitted. -/
theorem C7_on_get_voice_note_keeps_existing (X : VoiceDecls TI) (s : VoiceNotesManager TI)
    (v old : VoiceNote TI) (hvalid : X.is_valid v.file_id = true)
    (hpresent : s.voice_notes_ v.file_id = some old) :
    on_get_voice_note X s v false = some (s, v.file_id) := by
  simp [on_get_voice_note, hvalid, hpresent]

/-- C7 in scenario A: a note with other fields under `F1` and `replace = false`. -/
theorem C7_on_get_voice_note_keeps_existing_witness :
    VoiceDecls.flag.is_valid F1 = true
    ∧ scenario_A.voice_notes_ F1 = some scenario_A_note
    ∧ on_get_voice_note VoiceDecls.flag scenario_A
        { file_id := F1, mime_type := "audio/mpeg", duration := 9, waveform := "",
          transcription_info := some true } false
      = some (scenario_A, F1) :=
  ⟨rfl, rfl,
    C7_on_get_voice_note_keeps_existing VoiceDecls.flag scenario_A
      { file_id := F1, mime_type := "audio/mpeg", duration := 9, waveform := "",
        transcription_info := some true } scenario_A_note rfl rfl⟩

/-- C8: for every manager state and every new voice note `v` whose valid file identifier is
absent from the table, `on_get_voice_note(v, replace)` returns the identifier of `v` for either
value of `replace`, and in the new table that identifier maps to `v` verbatim while every other
entry is unchanged. -/
theorem C8_on_get_voice_note_inserts_absent (X : VoiceDecls TI) (s : VoiceNotesManager TI)
    (v : VoiceNote TI) (replace : Bool) (hvalid : X.is_valid v.file_id = true)
    (habsent : s.voice_notes_ v.file_id = none) :
    ∃ s', on_get_voice_note X s v replace = some (s', v.file_id)
      ∧ s'.voice_notes_ v.file_id = some v
      ∧ ∀ k, k ≠ v.file_id → s'.voice_notes_ k = s.voice_notes_ k := by
  refine ⟨_, on_get_voice_note_absent X s v replace hvalid habsent, ?_, ?_⟩
  · simp
  · intro k hk
    simp [Function.update, hk]

/-- C8 at the empty table and the voice note of scenario A. -/
theorem C8_on_get_voice_note_inserts_absent_witness :
    VoiceDecls.flag.is_valid scenario_A_note.file_id = true
    ∧ (empty : VoiceNotesManager Bool).voice_notes_ scenario_A_note.file_id = none
    ∧ ∃ s', on_get_voice_note VoiceDecls.flag empty scenario_A_note true
          = some (s', scenario_A_note.file_id)
      ∧ s'.voice_notes_ scenario_A_note.file_id = some scenario_A_note
      ∧ ∀ k, k ≠ scenario_A_note.file_id →
          s'.voice_notes_ k = (empty : VoiceNotesManager Bool).voice_notes_ k :=
  ⟨rfl, rfl,
    C8_on_get_voice_note_inserts_absent VoiceDecls.flag empty scenario_A_note true rfl rfl⟩

/-- C9: for every manager state, every valid identifier present in the table whose entry carries
that identifier, and every new voice note `v` with that identifier,
`on_get_voice_note(v, replace = true)` returns, and afterwards the stored mime type, duration and
waveform under the identifier are exactly those of `v`, while the entries under other identifiers
are unchanged. -/
theorem C9_on_get_voice_note_replace_last_write_wins (X : VoiceDecls TI)
    (s : VoiceNotesManager TI) (v old : VoiceNote TI) (hvalid : X.is_valid v.file_id = true)
    (hpresent : s.voice_notes_ v.file_id = some old) (hkey : old.file_id = v.file_id) :
    ∃ s' e, on_get_voice_note X s v true = some (s', v.file_id)
      ∧ s'.voice_notes_ v.file_id = some e
      ∧ e.mime_type = v.mime_type ∧ e.duration = v.duration ∧ e.waveform = v.waveform
      ∧ ∀ k, k ≠ v.file_id → s'.voice_notes_ k = s.voice_notes_ k := by
  have hrun := on_get_voice_note_replace_present X s v old hvalid hpresent hkey
  obtain ⟨e, log, hlog, hm, hd, hw⟩ := hrun
  exact ⟨_, e, hlog, by simp only [Function.update_same], hm, hd, hw,
    fun k hk => by simp [Function.update, hk]⟩

/-- C9 in scenario A with a new voice note whose mime type and waveform are empty and whose
duration is zero. -/
theorem C9_on_get_voice_note_replace_witness :
    VoiceDecls.flag.is_valid F1 = true
    ∧ scenario_A.voice_notes_ F1 = some scenario_A_note
    ∧ scenario_A_note.file_id = F1
    ∧ ∃ s' e, on_get_voice_note VoiceDecls.flag scenario_A
          { file_id := F1, mime_type := "", duration := 0, waveform := "",
            transcription_info := none } true = some (s', F1)
      ∧ s'.voice_notes_ F1 = some e
      ∧ e.mime_type = "" ∧ e.duration = 0 ∧ e.waveform = ""
      ∧ ∀ k, k ≠ F1 → s'.voice_notes_ k = scenario_A.voice_notes_ k :=
  ⟨rfl, rfl, rfl,
    C9_on_get_voice_note_replace_last_write_wins VoiceDecls.flag scenario_A
      { file_id := F1, mime_type := "", duration := 0, waveform := "",
        transcription_info := none } scenario_A_note rfl rfl rfl⟩

/-- C10: for every manager state, valid file identifier (whose entry, if present, carries that
identifier), mime type, waveform and duration `d`, `create_voice_note(id, mime, d, waveform,
replace = true)` returns and the duration stored under the identifier afterwards is `max(d, 0)`,
whether or not the identifier was present before. -/
theorem C10_create_voice_note_clamps_duration (X : VoiceDecls TI) (s : VoiceNotesManager TI)
    (file_id : FileId) (mime_type : String) (d : Int) (waveform : String)
    (hvalid : X.is_valid file_id = true)
    (hkey : ∀ old, s.voice_notes_ file_id = some old → old.file_id = file_id) :
    ∃ s' e, create_voice_note X s file_id mime_type d waveform true = some s'
      ∧ s'.voice_notes_ file_id = some e
      ∧ e.duration = max d 0
      ∧ s'.get_voice_note_duration file_id = max d 0 := by
  rcases hs : s.voice_notes_ file_id with _ | old
  · have hrun := on_get_voice_note_absent X s
      { file_id := file_id, mime_type := mime_type, duration := max d 0, waveform := waveform,
        transcription_info := none } true hvalid hs
    refine ⟨{ s with
        voice_notes_ := Function.update s.voice_notes_ file_id
          (some ⟨mime_type, max d 0, waveform, none, file_id⟩) },
      ⟨mime_type, max d 0, waveform, none, file_id⟩, ?_, ?_, rfl, ?_⟩
    · simp only [create_voice_note, hrun, Option.map_some']
    · simp only [Function.update_same]
    · simp only [get_voice_note_duration, get_voice_note, Function.update_same]
  · obtain ⟨e, log, hrun, -, hd, -⟩ := on_get_voice_note_replace_present X s
      { file_id := file_id, mime_type := mime_type, duration := max d 0, waveform := waveform,
        transcription_info := none } old hvalid hs (hkey old hs)
    refine ⟨{ s with voice_notes_ := Function.update s.voice_notes_ file_id (some e)
                     transcription_completed := log }, e, ?_, ?_, hd, ?_⟩
    · simp only [create_voice_note, hrun, Option.map_some']
    · simp only [Function.update_same]
    · simp only [get_voice_note_duration, get_voice_note, Function.update_same, hd]

/-- C10 in scenario A: `F1` holds duration 5 and is updated with duration 0; zero is stored. -/
theorem C10_create_voice_note_witness :
    VoiceDecls.flag.is_valid F1 = true
    ∧ (∀ old, scenario_A.voice_notes_ F1 = some old → old.file_id = F1)
    ∧ scenario_A.get_voice_note_duration F1 = 5
    ∧ ∃ s' e, create_voice_note VoiceDecls.flag scenario_A F1 "" 0 "" true = some s'
      ∧ s'.voice_notes_ F1 = some e
      ∧ e.duration = max 0 0
      ∧ s'.get_voice_note_duration F1 = max 0 0 :=
  have hkey : ∀ old, scenario_A.voice_notes_ F1 = some old → old.file_id = F1 := by
    intro old hold
    have h : some scenario_A_note = some old := hold
    rw [← Option.some.inj h]
    rfl
  ⟨rfl, hkey, rfl,
    C10_create_voice_note_clamps_duration VoiceDecls.flag scenario_A F1 "" 0 "" rfl hkey⟩

end VoiceNotesManager

/-! ## Claims on duplication and merge of voice notes -/

namespace VoiceNotesManager

variable {TI : Type}

/-- The table after a successful `dup_voice_note`. -/
theorem dup_voice_note_of_present_absent (X : VoiceDecls TI) (s : VoiceNotesManager TI)
    (new_id old_id : FileId) (o : VoiceNote TI) (hold : s.voice_notes_ old_id = some o)
    (hnew : s.voice_notes_ new_id = none) :
    dup_voice_note X s new_id old_id
      = some ({ s with
                voice_notes_ := Function.update s.voice_notes_ new_id
                  (some ⟨o.mime_type, o.duration, o.waveform,
                    X.copy_if_transcribed o.transcription_info, new_id⟩) }, new_id) := by
  simp only [dup_voice_note, get_voice_note, hold, hnew]

theorem dup_voice_note_eq_none_iff (X : VoiceDecls TI) (s : VoiceNotesManager TI)
    (new_id old_id : FileId) :
    dup_voice_note X s new_id old_id = none
      ↔ s.voice_notes_ old_id = none ∨ s.voice_notes_ new_id ≠ none := by
  unfold dup_voice_note get_voice_note
  rcases hold : s.voice_notes_ old_id with _ | o
  · simp
  · rcases hnew : s.voice_notes_ new_id with _ | e <;> simp

theorem merge_voice_notes_of_new_present (X : VoiceDecls TI) (s : VoiceNotesManager TI)
    (new_id old_id : FileId) (o e : VoiceNote TI)
    (hvold : X.is_valid old_id = true) (hvnew : X.is_valid new_id = true)
    (hne : new_id ≠ old_id) (hold : s.voice_notes_ old_id = some o)
    (hnew : s.voice_notes_ new_id = some e) :
    merge_voice_notes X s new_id old_id
      = some { s with file_manager_merge := s.file_manager_merge ++ [(new_id, old_id)] } := by
  simp [merge_voice_notes, get_voice_note, hvold, hvnew, hne, hold, hnew]

theorem merge_voice_notes_of_new_absent (X : VoiceDecls TI) (s : VoiceNotesManager TI)
    (new_id old_id : FileId) (o : VoiceNote TI)
    (hvold : X.is_valid old_id = true) (hvnew : X.is_valid new_id = true)
    (hne : new_id ≠ old_id) (hold : s.voice_notes_ old_id = some o)
    (hnew : s.voice_notes_ new_id = none) :
    merge_voice_notes X s new_id old_id
      = some { s with
                voice_notes_ := Function.update s.voice_notes_ new_id
                  (some ⟨o.mime_type, o.duration, o.waveform,
                    X.copy_if_transcribed o.transcription_info, new_id⟩)
                file_manager_merge := s.file_manager_merge ++ [(new_id, old_id)] } := by
  have hdup := dup_voice_note_of_present_absent X s new_id old_id o hold hnew
  simp [merge_voice_notes, get_voice_note, hvold, hvnew, hne, hold, hnew, hdup]

/-- C11: for every state in which `old_id` is present and `new_id` is absent,
`dup_voice_note(new_id, old_id)` returns `new_id`, and in the new table `new_id` maps to an entry
whose file identifier is `new_id` and whose mime type, duration and waveform are those of the
entry under `old_id`. -/
theorem C11_dup_voice_note_copies_fields (X : VoiceDecls TI) (s : VoiceNotesManager TI)
    (new_id old_id : FileId) (o : VoiceNote TI) (hold : s.voice_notes_ old_id = some o)
    (hnew : s.voice_notes_ new_id = none) :
    ∃ s' e, dup_voice_note X s new_id old_id = some (s', new_id)
      ∧ s'.voice_notes_ new_id = some e
      ∧ e.file_id = new_id
      ∧ e.mime_type = o.mime_type ∧ e.duration = o.duration ∧ e.waveform = o.waveform := by
  refine ⟨_, ⟨o.mime_type, o.duration, o.waveform, X.copy_if_transcribed o.transcription_info,
    new_id⟩, dup_voice_note_of_present_absent X s new_id old_id o hold hnew, ?_, rfl, rfl, rfl,
    rfl⟩
  simp only [Function.update_same]

/-- C11 in scenario A: `dup_voice_note(F2, F1)`. -/
theorem C11_dup_voice_note_witness :
    scenario_A.voice_notes_ F1 = some scenario_A_note
    ∧ scenario_A.voice_notes_ F2 = none
    ∧ ∃ s' e, dup_voice_note VoiceDecls.flag scenario_A F2 F1 = some (s', F2)
      ∧ s'.voice_notes_ F2 = some e
      ∧ e.file_id = F2
      ∧ e.mime_type = scenario_A_note.mime_type ∧ e.duration = scenario_A_note.duration
      ∧ e.waveform = scenario_A_note.waveform :=
  ⟨rfl, rfl,
    C11_dup_voice_note_copies_fields VoiceDecls.flag scenario_A F2 F1 scenario_A_note rfl rfl⟩

/-- C12: with `copy_if_transcribed` as the specification describes it, for every state in which
`old_id` is present and `new_id` is absent, after `dup_voice_note(new_id, old_id)` the new entry
has the transcription sub-resource of the old entry if that exists and is completed, and has no
sub-resource if the old one is absent or not completed. -/
theorem C12_dup_voice_note_copies_completed_transcription (X : VoiceDecls TI)
    (is_transcribed : TI → Bool) (s : VoiceNotesManager TI) (new_id old_id : FileId)
    (o : VoiceNote TI) (hold : s.voice_notes_ old_id = some o)
    (hnew : s.voice_notes_ new_id = none) :
    ∃ s' e,
      dup_voice_note
          { X with copy_if_transcribed := TranscriptionInfo.copy_if_transcribed is_transcribed }
          s new_id old_id = some (s', new_id)
      ∧ s'.voice_notes_ new_id = some e
      ∧ (∀ info, o.transcription_info = some info → is_transcribed info = true →
            e.transcription_info = some info)
      ∧ (∀ info, o.transcription_info = some info → is_transcribed info = false →
            e.transcription_info = none)
      ∧ (o.transcription_info = none → e.transcription_info = none) := by
  refine ⟨_, ⟨o.mime_type, o.duration, o.waveform,
    TranscriptionInfo.copy_if_transcribed is_transcribed o.transcription_info, new_id⟩,
    dup_voice_note_of_present_absent _ s new_id old_id o hold hnew, ?_, ?_, ?_, ?_⟩
  · simp only [Function.update_same]
  · intro info hinfo hdone
    simp [hinfo, TranscriptionInfo.copy_if_transcribed, hdone]
  · intro info hinfo hdone
    simp [hinfo, TranscriptionInfo.copy_if_transcribed, hdone]
  · intro hnone
    simp [hnone, TranscriptionInfo.copy_if_transcribed]

/-- C12 in scenario C: `F1` has a completed transcription and `dup_voice_note(F2, F1)` copies
it. -/
theorem C12_dup_voice_note_witness :
    scenario_C_completed.voice_notes_ F1
        = some { scenario_A_note with transcription_info := some true }
    ∧ scenario_C_completed.voice_notes_ F2 = none
    ∧ ∃ s' e,
      dup_voice_note
          { VoiceDecls.flag with
            copy_if_transcribed := TranscriptionInfo.copy_if_transcribed (fun b : Bool => b) }
          scenario_C_completed F2 F1 = some (s', F2)
      ∧ s'.voice_notes_ F2 = some e
      ∧ (∀ info, (some true : Option Bool) = some info → info = true →
            e.transcription_info = some info)
      ∧ (∀ info, (some true : Option Bool) = some info → info = false →
            e.transcription_info = none)
      ∧ ((some true : Option Bool) = none → e.transcription_info = none) :=
  ⟨rfl, rfl,
    C12_dup_voice_note_copies_completed_transcription VoiceDecls.flag (fun b : Bool => b)
      scenario_C_completed F2 F1 { scenario_A_note with transcription_info := some true }
      rfl rfl⟩

/-- C13: `dup_voice_note(new_id, old_id)` fails if and only if `old_id` is absent from the table
or `new_id` is present in it, and `merge_voice_notes(new_id, old_id)` fails if and only if one of
the identifiers is invalid, `new_id = old_id`, or `old_id` is absent. -/
theorem C13_dup_and_merge_fail_iff (X : VoiceDecls TI) (s : VoiceNotesManager TI)
    (new_id old_id : FileId) :
    (dup_voice_note X s new_id old_id = none
        ↔ s.voice_notes_ old_id = none ∨ s.voice_notes_ new_id ≠ none)
    ∧ (merge_voice_notes X s new_id old_id = none
        ↔ X.is_valid old_id = false ∨ X.is_valid new_id = false ∨ new_id = old_id
            ∨ s.voice_notes_ old_id = none) := by
  refine ⟨dup_voice_note_eq_none_iff X s new_id old_id, ?_⟩
  by_cases hvold : X.is_valid old_id = true
  · by_cases hvnew : X.is_valid new_id = true
    · by_cases hne : new_id = old_id
      · simp [merge_voice_notes, hvold, hvnew, hne]
      · rcases hold : s.voice_notes_ old_id with _ | o
        · simp [merge_voice_notes, get_voice_note, hvold, hvnew, hne, hold]
        · rcases hnew : s.voice_notes_ new_id with _ | e
          · rw [merge_voice_notes_of_new_absent X s new_id old_id o hvold hvnew hne hold hnew]
            simp [hvold, hvnew, hne]
          · rw [merge_voice_notes_of_new_present X s new_id old_id o e hvold hvnew hne hold hnew]
            simp [hvold, hvnew, hne]
    · simp [merge_voice_notes, hvold, hvnew]
  · simp [merge_voice_notes, hvold]

end VoiceNotesManager

namespace VoiceNotesManager

variable {TI : Type}

/-- C14: for every state and valid identifiers `new_id ≠ old_id` with `old_id` present,
`merge_voice_notes(new_id, old_id)` does not fail; if `new_id` is absent the table after it is the
table after `dup_voice_note(new_id, old_id)`, and if `new_id` is present the table is the one
before the call. -/
theorem C14_merge_voice_notes_table (X : VoiceDecls TI) (s : VoiceNotesManager TI)
    (new_id old_id : FileId) (o : VoiceNote TI)
    (hvold : X.is_valid old_id = true) (hvnew : X.is_valid new_id = true)
    (hne : new_id ≠ old_id) (hold : s.voice_notes_ old_id = some o) :
    ∃ s1, merge_voice_notes X s new_id old_id = some s1
      ∧ (s.voice_notes_ new_id = none →
          ∃ s2, dup_voice_note X s new_id old_id = some (s2, new_id)
            ∧ s1.voice_notes_ = s2.voice_notes_)
      ∧ (s.voice_notes_ new_id ≠ none → s1.voice_notes_ = s.voice_notes_) := by
  rcases hnew : s.voice_notes_ new_id with _ | e
  · refine ⟨_, merge_voice_notes_of_new_absent X s new_id old_id o hvold hvnew hne hold hnew,
      ?_, ?_⟩
    · intro _
      exact ⟨_, dup_voice_note_of_present_absent X s new_id old_id o hold hnew, rfl⟩
    · intro h
      exact absurd rfl h
  · refine ⟨_, merge_voice_notes_of_new_present X s new_id old_id o e hvold hvnew hne hold hnew,
      ?_, ?_⟩
    · intro h
      exact absurd h (by simp)
    · intro _
      rfl

/-- C14 in scenario A: `merge_voice_notes(F2, F1)` with `F2` absent. -/
theorem C14_merge_voice_notes_witness :
    VoiceDecls.flag.is_valid F1 = true ∧ VoiceDecls.flag.is_valid F2 = true ∧ F2 ≠ F1
    ∧ scenario_A.voice_notes_ F1 = some scenario_A_note
    ∧ ∃ s1, merge_voice_notes VoiceDecls.flag scenario_A F2 F1 = some s1
      ∧ (scenario_A.voice_notes_ F2 = none →
          ∃ s2, dup_voice_note VoiceDecls.flag scenario_A F2 F1 = some (s2, F2)
            ∧ s1.voice_notes_ = s2.voice_notes_)
      ∧ (scenario_A.voice_notes_ F2 ≠ none → s1.voice_notes_ = scenario_A.voice_notes_) :=
  ⟨rfl, rfl, by decide, rfl,
    C14_merge_voice_notes_table VoiceDecls.flag scenario_A F2 F1 scenario_A_note rfl rfl
      (by decide) rfl⟩

/-- C15: for every state and valid identifiers `new_id ≠ old_id` with `old_id` present, applying
`merge_voice_notes(new_id, old_id)` twice does not fail and leaves the same table as applying it
once. -/
theorem C15_merge_voice_notes_twice (X : VoiceDecls TI) (s : VoiceNotesManager TI)
    (new_id old_id : FileId) (o : VoiceNote TI)
    (hvold : X.is_valid old_id = true) (hvnew : X.is_valid new_id = true)
    (hne : new_id ≠ old_id) (hold : s.voice_notes_ old_id = some o) :
    ∃ s1 s2, merge_voice_notes X s new_id old_id = some s1
      ∧ merge_voice_notes X s1 new_id old_id = some s2
      ∧ s2.voice_notes_ = s1.voice_notes_ := by
  rcases hnew : s.voice_notes_ new_id with _ | e
  · refine ⟨_, _, merge_voice_notes_of_new_absent X s new_id old_id o hvold hvnew hne hold hnew,
      merge_voice_notes_of_new_present X _ new_id old_id o
        ⟨o.mime_type, o.duration, o.waveform, X.copy_if_transcribed o.transcription_info, new_id⟩
        hvold hvnew hne ?_ ?_, rfl⟩
    · simp only [Function.update_noteq (Ne.symm hne), hold]
    · simp only [Function.update_same]
  · exact ⟨_, _, merge_voice_notes_of_new_present X s new_id old_id o e hvold hvnew hne hold hnew,
      merge_voice_notes_of_new_present X _ new_id old_id o e hvold hvnew hne hold hnew, rfl⟩

/-- C15 in scenario A: `merge_voice_notes(F2, F1)` applied twice. -/
theorem C15_merge_voice_notes_twice_witness :
    VoiceDecls.flag.is_valid F1 = true ∧ VoiceDecls.flag.is_valid F2 = true ∧ F2 ≠ F1
    ∧ scenario_A.voice_notes_ F1 = some scenario_A_note
    ∧ ∃ s1 s2, merge_voice_notes VoiceDecls.flag scenario_A F2 F1 = some s1
      ∧ merge_voice_notes VoiceDecls.flag s1 F2 F1 = some s2
      ∧ s2.voice_notes_ = s1.voice_notes_ :=
  ⟨rfl, rfl, by decide, rfl,
    C15_merge_voice_notes_twice VoiceDecls.flag scenario_A F2 F1 scenario_A_note rfl rfl
      (by decide) rfl⟩

theorem merge_voice_notes_some_inv (X : VoiceDecls TI) (s s1 : VoiceNotesManager TI)
    (a b : FileId) (h : merge_voice_notes X s a b = some s1) :
    X.is_valid a = true ∧ X.is_valid b = true ∧ a ≠ b
      ∧ (∃ ea, s1.voice_notes_ a = some ea) ∧ (∃ eb, s1.voice_notes_ b = some eb) := by
  by_cases hvb : X.is_valid b = true
  swap
  · simp [merge_voice_notes, hvb] at h
  by_cases hva : X.is_valid a = true
  swap
  · simp [merge_voice_notes, hvb, hva] at h
  by_cases hne : a = b
  · simp [merge_voice_notes, hvb, hva, hne] at h
  rcases hold : s.voice_notes_ b with _ | o
  · simp [merge_voice_notes, get_voice_note, hvb, hva, hne, hold] at h
  refine ⟨hva, hvb, hne, ?_⟩
  rcases hnew : s.voice_notes_ a with _ | e
  · rw [merge_voice_notes_of_new_absent X s a b o hvb hva hne hold hnew] at h
    have h1 := Option.some.inj h
    subst h1
    exact ⟨⟨⟨o.mime_type, o.duration, o.waveform, X.copy_if_transcribed o.transcription_info,
        a⟩, by simp only [Function.update_same]⟩,
      ⟨o, by simp only [Function.update_noteq (Ne.symm hne), hold]⟩⟩
  · rw [merge_voice_notes_of_new_present X s a b o e hvb hva hne hold hnew] at h
    have h1 := Option.some.inj h
    subst h1
    exact ⟨⟨e, hnew⟩, ⟨o, hold⟩⟩

/-- C16, as stated, fails: in scenario A `merge_voice_notes(F2, F1)` succeeds, and the following
`merge_voice_notes(F1, F2)` is accepted and leaves the table exactly as the first merge left
it. -/
theorem C16_reverse_merge_is_accepted_without_change :
    ∃ s1 s2, merge_voice_notes VoiceDecls.flag scenario_A F2 F1 = some s1
      ∧ merge_voice_notes VoiceDecls.flag s1 F1 F2 = some s2
      ∧ s2.voice_notes_ = s1.voice_notes_ := by
  refine ⟨_, _, merge_voice_notes_of_new_absent VoiceDecls.flag scenario_A F2 F1 scenario_A_note
      rfl rfl (by decide) rfl rfl,
    merge_voice_notes_of_new_present VoiceDecls.flag _ F1 F2
      ⟨"audio/ogg", 5, "ABC", none, F2⟩ scenario_A_note rfl rfl (by decide) rfl rfl, rfl⟩

/-- C16, amended: for every state and identifiers `a`, `b` on which `merge_voice_notes(a, b)`
succeeds, the following `merge_voice_notes(b, a)` is accepted and leaves the table of voice notes
exactly as the first merge left it; it only repeats the delegated call, `merge(b, a)` of the file
manager. -/
theorem C16_reverse_merge_accepted (X : VoiceDecls TI) (s s1 : VoiceNotesManager TI)
    (a b : FileId) (h : merge_voice_notes X s a b = some s1) :
    ∃ s2, merge_voice_notes X s1 b a = some s2
      ∧ s2.voice_notes_ = s1.voice_notes_
      ∧ s2.transcription_completed = s1.transcription_completed
      ∧ s2.file_manager_merge = s1.file_manager_merge ++ [(b, a)] := by
  obtain ⟨hva, hvb, hne, ⟨ea, hea⟩, ⟨eb, heb⟩⟩ := merge_voice_notes_some_inv X s s1 a b h
  exact ⟨_, merge_voice_notes_of_new_present X s1 b a ea eb hva hvb (Ne.symm hne) hea heb,
    rfl, rfl, rfl⟩

/-- C16, amended, in scenario A: `merge_voice_notes(F2, F1)` followed by
`merge_voice_notes(F1, F2)`. -/
theorem C16_reverse_merge_accepted_witness :
    merge_voice_notes VoiceDecls.flag scenario_A F2 F1
        = some { scenario_A with
                  voice_notes_ := Function.update scenario_A.voice_notes_ F2
                    (some ⟨"audio/ogg", 5, "ABC", none, F2⟩)
                  file_manager_merge := [(F2, F1)] }
    ∧ ∃ s2, merge_voice_notes VoiceDecls.flag
          { scenario_A with
            voice_notes_ := Function.update scenario_A.voice_notes_ F2
              (some ⟨"audio/ogg", 5, "ABC", none, F2⟩)
            file_manager_merge := [(F2, F1)] } F1 F2 = some s2
      ∧ s2.voice_notes_ = Function.update scenario_A.voice_notes_ F2
          (some ⟨"audio/ogg", 5, "ABC", none, F2⟩)
      ∧ s2.transcription_completed = []
      ∧ s2.file_manager_merge = [(F2, F1)] ++ [(F1, F2)] :=
  have h : merge_voice_notes VoiceDecls.flag scenario_A F2 F1
      = some { scenario_A with
                voice_notes_ := Function.update scenario_A.voice_notes_ F2
                  (some ⟨"audio/ogg", 5, "ABC", none, F2⟩)
                file_manager_merge := [(F2, F1)] } :=
    merge_voice_notes_of_new_absent VoiceDecls.flag scenario_A F2 F1 scenario_A_note
      rfl rfl (by decide) rfl rfl
  ⟨h, C16_reverse_merge_accepted VoiceDecls.flag scenario_A _ F2 F1 h⟩

end VoiceNotesManager

/-! ## Claims on the creation of forum topics -/

namespace ForumTopicManager

variable {U O : Type}

theorem secure_random_id_some (draws : List Int) (h : ∃ x ∈ draws, x ≠ 0) :
    ∃ r, CreateForumTopicQuery.secure_random_id draws = some r ∧ r ≠ 0 := by
  induction draws with
  | nil =>
    obtain ⟨x, hx, -⟩ := h
    simp at hx
  | cons d ds ih =>
    by_cases hd : d = 0
    · obtain ⟨x, hx, hx0⟩ := h
      have hmem : x ∈ ds := by
        rcases List.mem_cons.1 hx with rfl | hmem
        · exact absurd hd hx0
        · exact hmem
      obtain ⟨r, hr, hr0⟩ := ih ⟨x, hmem, hx0⟩
      exact ⟨r, by simp only [CreateForumTopicQuery.secure_random_id, hd, if_true, hr], hr0⟩
    · exact ⟨d, by simp only [CreateForumTopicQuery.secure_random_id, hd, if_false], hd⟩

theorem send_dispatches (D : ForumDecls U O) (draws : List Int) (channel_id : ChannelId)
    (title : String) (icon_color : Int) (icon_custom_emoji_id : CustomEmojiId)
    (hdraw : ∃ x ∈ draws, x ≠ 0) (hchannel : D.get_input_channel channel_id ≠ none) :
    ∃ handler query,
      CreateForumTopicQuery.send D draws channel_id title icon_color icon_custom_emoji_id
        = some [Effect.send_query handler query] := by
  obtain ⟨r, hr, -⟩ := secure_random_id_some draws hdraw
  rcases hic : D.get_input_channel channel_id with _ | ic
  · exact absurd hic hchannel
  · simp only [CreateForumTopicQuery.send, hr, hic]
    exact ⟨_, _, rfl⟩

theorem create_forum_topic_cases (E : IdDecls) (td : Td) (D : ForumDecls U O)
    (draws : List Int) (dialog_id : DialogId) (title : String)
    (icon : Option td_api.forumTopicIcon) :
    (checks_pass E td D dialog_id title icon
        ∧ ∃ icon_color icon_custom_emoji_id,
            create_forum_topic E td D draws dialog_id title icon
              = CreateForumTopicQuery.send D draws (E.get_channel_id dialog_id)
                  (D.clean_name title D.MAX_FORUM_TOPIC_TITLE_LENGTH) icon_color
                  icon_custom_emoji_id)
    ∨ (¬ checks_pass E td D dialog_id title icon
        ∧ ∃ message, create_forum_topic E td D draws dialog_id title icon
            = some [Effect.promise_set_error ⟨400, message⟩]) := by
  by_cases h1 : td.messages_manager_.have_dialog_force dialog_id = true
  swap
  · exact Or.inr ⟨fun h => h1 h.1, "Chat not found", by
      simp [create_forum_topic, is_forum, TRY_STATUS_PROMISE, h1]⟩
  by_cases h2 : E.get_type dialog_id = DialogType.Channel
  swap
  · exact Or.inr ⟨fun h => h2 h.2.1, "The chat is not a forum", by
      simp [create_forum_topic, is_forum, TRY_STATUS_PROMISE, h1, h2]⟩
  by_cases h3 : D.is_forum_channel (E.get_channel_id dialog_id) = true
  swap
  · exact Or.inr ⟨fun h => h3 h.2.2.1, "The chat is not a forum", by
      simp [create_forum_topic, is_forum, TRY_STATUS_PROMISE, h1, h2, h3]⟩
  by_cases h4 : D.can_create_topics (E.get_channel_id dialog_id) = true
  swap
  · exact Or.inr ⟨fun h => h4 h.2.2.2.1, "Not enough rights to create a topic", by
      simp [create_forum_topic, is_forum, TRY_STATUS_PROMISE, h1, h2, h3, h4]⟩
  by_cases h5 : (D.clean_name title D.MAX_FORUM_TOPIC_TITLE_LENGTH).isEmpty = false
  swap
  · exact Or.inr ⟨fun h => h5 h.2.2.2.2.1, "Title must be non-empty", by
      simp [create_forum_topic, is_forum, TRY_STATUS_PROMISE, h1, h2, h3, h4, h5]⟩
  rcases icon with _ | i
  · exact Or.inl ⟨⟨h1, h2, h3, h4, h5, fun i hi => by simp at hi⟩, -1, ⟨0⟩, by
      simp [create_forum_topic, is_forum, TRY_STATUS_PROMISE, h1, h2, h3, h4, h5]⟩
  · by_cases h6 : 0 ≤ i.color_ ∧ i.color_ ≤ 0xFFFFFF
    · refine Or.inl ⟨⟨h1, h2, h3, h4, h5, fun j hj => ?_⟩, i.color_, ⟨i.custom_emoji_id_⟩, ?_⟩
      · cases hj
        exact h6
      · have h7 : ¬ (i.color_ < 0 ∨ i.color_ > 0xFFFFFF) := by omega
        simp [create_forum_topic, is_forum, TRY_STATUS_PROMISE, h1, h2, h3, h4, h5, h7]
    · refine Or.inr ⟨fun h => h6 (h.2.2.2.2.2 i rfl), "Invalid icon color specified", ?_⟩
      have h7 : i.color_ < 0 ∨ i.color_ > 0xFFFFFF := by omega
      simp [create_forum_topic, is_forum, TRY_STATUS_PROMISE, h1, h2, h3, h4, h5, h7]

end ForumTopicManager

namespace ForumTopicManager

variable {U O : Type}

/-- C17: when the random source yields a non-zero value and the input channel of a forum channel
is known, `create_forum_topic` dispatches a `CreateForumTopicQuery` if and only if the dialog is
found, it is a channel that is a forum, the permissions allow creating topics, the cleaned title
is not empty and the icon is absent or has a color between 0 and 0xFFFFFF; in every other case
the promise is resolved with an error of code 400 and nothing else happens. -/
theorem C17_create_forum_topic_dispatches_iff_checks_pass (E : IdDecls) (td : Td)
    (D : ForumDecls U O) (draws : List Int) (dialog_id : DialogId) (title : String)
    (icon : Option td_api.forumTopicIcon) (hdraw : ∃ x ∈ draws, x ≠ 0)
    (hchannel : D.is_forum_channel (E.get_channel_id dialog_id) = true →
      D.get_input_channel (E.get_channel_id dialog_id) ≠ none) :
    ((∃ handler query, create_forum_topic E td D draws dialog_id title icon
          = some [Effect.send_query handler query])
        ↔ checks_pass E td D dialog_id title icon)
    ∧ (¬ checks_pass E td D dialog_id title icon →
        ∃ message, create_forum_topic E td D draws dialog_id title icon
          = some [Effect.promise_set_error ⟨400, message⟩]) := by
  rcases create_forum_topic_cases E td D draws dialog_id title icon with
    ⟨hc, color, emoji, heq⟩ | ⟨hnc, message, heq⟩
  · obtain ⟨handler, query, hsend⟩ := send_dispatches D draws (E.get_channel_id dialog_id)
      (D.clean_name title D.MAX_FORUM_TOPIC_TITLE_LENGTH) color emoji hdraw (hchannel hc.2.2.1)
    exact ⟨⟨fun _ => hc, fun _ => ⟨handler, query, by rw [heq, hsend]⟩⟩, fun hn => absurd hc hn⟩
  · refine ⟨⟨?_, fun hc => absurd hc hnc⟩, fun _ => ⟨message, heq⟩⟩
    rintro ⟨handler, query, hd⟩
    rw [heq] at hd
    simp at hd

/-- C17 at the forum channel 3 with the title "News", an icon of color 255 and the random draws
0 and 11: the request is dispatched with the random identifier 11. -/
theorem C17_create_forum_topic_witness :
    (∃ x ∈ [(0 : Int), 11], x ≠ 0)
    ∧ create_forum_topic IdDecls.plain Td.all_known ForumDecls.plain [0, 11] ⟨3⟩ "News"
          (some ⟨255, 0⟩)
        = some [Effect.send_query scenario_D_query ⟨1, ⟨3, 0⟩, "News", 255, 0, 11⟩]
    ∧ ((∃ handler query,
          create_forum_topic IdDecls.plain Td.all_known ForumDecls.plain [0, 11] ⟨3⟩ "News"
            (some ⟨255, 0⟩) = some [Effect.send_query handler query])
        ↔ checks_pass IdDecls.plain Td.all_known ForumDecls.plain ⟨3⟩ "News" (some ⟨255, 0⟩))
    ∧ (¬ checks_pass IdDecls.plain Td.all_known ForumDecls.plain ⟨3⟩ "News" (some ⟨255, 0⟩) →
        ∃ message,
          create_forum_topic IdDecls.plain Td.all_known ForumDecls.plain [0, 11] ⟨3⟩ "News"
            (some ⟨255, 0⟩) = some [Effect.promise_set_error ⟨400, message⟩]) :=
  ⟨⟨11, by decide, by decide⟩, by decide,
    C17_create_forum_topic_dispatches_iff_checks_pass IdDecls.plain Td.all_known ForumDecls.plain
      [0, 11] ⟨3⟩ "News" (some ⟨255, 0⟩) ⟨11, by decide, by decide⟩ (fun _ => by decide)⟩

/-- C18: for every successfully decoded response given to `on_result` in which no message
matches the random identifier of the request, or the matched message is not a service message, or
its action is not a topic creation, the promise is resolved with the error 400 "Invalid result
received" and nothing else happens: the updates are not passed to `on_get_updates` and no topic
information is produced. -/
theorem C18_on_result_invalid_shape (E : IdDecls) (D : ForumDecls U O)
    (q : CreateForumTopicQuery) (packet : BufferSlice) (ptr : U)
    (hfetch : D.fetch_result packet = Except.ok ptr)
    (hshape :
      D.get_message_by_random_id ptr (E.dialog_id_of_channel_id q.channel_id_) q.random_id_ = none
      ∨ (∃ m, D.get_message_by_random_id ptr (E.dialog_id_of_channel_id q.channel_id_)
              q.random_id_ = some m
            ∧ ∀ id_ date_ action_, m ≠ telegram_api.Message.messageService id_ date_ action_)
      ∨ (∃ id_ date_ action_,
            D.get_message_by_random_id ptr (E.dialog_id_of_channel_id q.channel_id_)
              q.random_id_ = some (telegram_api.Message.messageService id_ date_ action_)
            ∧ ∀ title_ color emoji,
                action_ ≠ telegram_api.MessageAction.messageActionTopicCreate title_ color
                  emoji)) :
    CreateForumTopicQuery.on_result E D q packet
        = [Effect.promise_set_error ⟨400, "Invalid result received"⟩]
    ∧ ∀ updates info,
        Effect.on_get_updates updates info ∉ CreateForumTopicQuery.on_result E D q packet := by
  have hrun : CreateForumTopicQuery.on_result E D q packet
      = [Effect.promise_set_error ⟨400, "Invalid result received"⟩] := by
    rcases hshape with hnone | ⟨m, hm, hnot⟩ | ⟨id_, date_, action_, hm, hnot⟩
    · simp only [CreateForumTopicQuery.on_result, hfetch, hnone]
    · cases m with
      | messageEmpty => simp only [CreateForumTopicQuery.on_result, hfetch, hm]
      | message => simp only [CreateForumTopicQuery.on_result, hfetch, hm]
      | messageService id_ date_ action_ => exact absurd rfl (hnot id_ date_ action_)
    · cases action_ with
      | messageActionTopicCreate title_ color emoji => exact absurd rfl (hnot title_ color emoji)
      | messageActionOther => simp only [CreateForumTopicQuery.on_result, hfetch, hm]
  refine ⟨hrun, fun updates info hmem => ?_⟩
  rw [hrun] at hmem
  simp at hmem

/-- C18 at the handler of scenario D and the packet that decodes to an ordinary message. -/
theorem C18_on_result_invalid_shape_witness :
    ForumDecls.plain.fetch_result [2] = Except.ok (some telegram_api.Message.message)
    ∧ CreateForumTopicQuery.on_result IdDecls.plain ForumDecls.plain scenario_D_query [2]
        = [Effect.promise_set_error ⟨400, "Invalid result received"⟩]
    ∧ ∀ updates info,
        Effect.on_get_updates updates info
          ∉ CreateForumTopicQuery.on_result IdDecls.plain ForumDecls.plain scenario_D_query [2] :=
  ⟨rfl,
    C18_on_result_invalid_shape IdDecls.plain ForumDecls.plain scenario_D_query [2]
      (some telegram_api.Message.message) rfl
      (Or.inr (Or.inl ⟨telegram_api.Message.message, rfl, fun _ _ _ h => by cases h⟩))⟩

/-- C19: for every successfully decoded response of the expected shape, `on_result` does one
thing only: it hands the updates to `on_get_updates` together with the lambda promise that
captures the topic information and the caller's promise, and it resolves the caller's promise
neither with a value nor with an error; the promise is resolved with the created topic by the
lambda promise, which runs `on_forum_topic_created` once the updates manager sets it, so that
in the sequence of effects the call of `on_get_updates` and the end of the application of the
updates come before the resolution of the promise. -/
theorem C19_on_result_hands_updates_before_resolution (E : IdDecls) (D : ForumDecls U O)
    (q : CreateForumTopicQuery) (packet : BufferSlice) (ptr : U) (id_ date_ : Int)
    (title_ : String) (color emoji : Int)
    (hfetch : D.fetch_result packet = Except.ok ptr)
    (hmessage :
      D.get_message_by_random_id ptr (E.dialog_id_of_channel_id q.channel_id_) q.random_id_
        = some (telegram_api.Message.messageService id_ date_
            (telegram_api.MessageAction.messageActionTopicCreate title_ color emoji))) :
    CreateForumTopicQuery.on_result E D q packet
        = [Effect.on_get_updates ptr
            ⟨D.message_id_of_server_message_id id_, title_, D.forum_topic_icon color emoji,
              date_, q.creator_dialog_id_, true, false⟩]
    ∧ (∀ value, Effect.promise_set_value value ∉ CreateForumTopicQuery.on_result E D q packet)
    ∧ (∀ status, Effect.promise_set_error status ∉ CreateForumTopicQuery.on_result E D q packet)
    ∧ on_get_updates_lambda D (Except.ok ())
          ⟨D.message_id_of_server_message_id id_, title_, D.forum_topic_icon color emoji,
            date_, q.creator_dialog_id_, true, false⟩
        = [Effect.promise_set_value (D.get_forum_topic_info_object
            ⟨D.message_id_of_server_message_id id_, title_, D.forum_topic_icon color emoji,
              date_, q.creator_dialog_id_, true, false⟩)]
    ∧ CreateForumTopicQuery.on_result_completed E D (Except.ok ()) q packet
        = [Effect.on_get_updates ptr
            ⟨D.message_id_of_server_message_id id_, title_, D.forum_topic_icon color emoji,
              date_, q.creator_dialog_id_, true, false⟩,
          Effect.updates_applied ptr,
          Effect.promise_set_value (D.get_forum_topic_info_object
            ⟨D.message_id_of_server_message_id id_, title_, D.forum_topic_icon color emoji,
              date_, q.creator_dialog_id_, true, false⟩)] := by
  have hrun : CreateForumTopicQuery.on_result E D q packet
      = [Effect.on_get_updates ptr
          ⟨D.message_id_of_server_message_id id_, title_, D.forum_topic_icon color emoji,
            date_, q.creator_dialog_id_, true, false⟩] := by
    simp only [CreateForumTopicQuery.on_result, hfetch, hmessage]
  refine ⟨hrun, fun value hmem => ?_, fun status hmem => ?_, rfl, ?_⟩
  · rw [hrun] at hmem
    simp at hmem
  · rw [hrun] at hmem
    simp at hmem
  · rw [CreateForumTopicQuery.on_result_completed, hrun]
    rfl

/-- C19 at the handler of scenario D and the packet that decodes to a topic creation. -/
theorem C19_on_result_witness :
    ForumDecls.plain.fetch_result [1]
        = Except.ok (some (telegram_api.Message.messageService 5 100
            (telegram_api.MessageAction.messageActionTopicCreate "News" 255 0)))
    ∧ CreateForumTopicQuery.on_result IdDecls.plain ForumDecls.plain scenario_D_query [1]
        = [Effect.on_get_updates
            (some (telegram_api.Message.messageService 5 100
              (telegram_api.MessageAction.messageActionTopicCreate "News" 255 0)))
            scenario_D_info]
    ∧ (∀ value, Effect.promise_set_value value
        ∉ CreateForumTopicQuery.on_result IdDecls.plain ForumDecls.plain scenario_D_query [1])
    ∧ (∀ status, Effect.promise_set_error status
        ∉ CreateForumTopicQuery.on_result IdDecls.plain ForumDecls.plain scenario_D_query [1])
    ∧ on_get_updates_lambda ForumDecls.plain (Except.ok ()) scenario_D_info
        = [Effect.promise_set_value scenario_D_info]
    ∧ CreateForumTopicQuery.on_result_completed IdDecls.plain ForumDecls.plain (Except.ok ())
          scenario_D_query [1]
        = [Effect.on_get_updates
            (some (telegram_api.Message.messageService 5 100
              (telegram_api.MessageAction.messageActionTopicCreate "News" 255 0)))
            scenario_D_info,
          Effect.updates_applied
            (some (telegram_api.Message.messageService 5 100
              (telegram_api.MessageAction.messageActionTopicCreate "News" 255 0))),
          Effect.promise_set_value scenario_D_info] :=
  ⟨rfl,
    C19_on_result_hands_updates_before_resolution IdDecls.plain ForumDecls.plain scenario_D_query
      [1] _ 5 100 "News" 255 0 rfl rfl⟩

/-- C20, as stated, fails: in scenario D, when the completion reaches `on_forum_topic_created`
with an error as the close status, the promise is resolved, with that error. -/
theorem C20_late_completion_resolves_with_close_error :
    on_forum_topic_created ForumDecls.plain (Except.error ⟨500, "Request aborted"⟩)
        scenario_D_info
      = [Effect.promise_set_error ⟨500, "Request aborted"⟩]
    ∧ on_forum_topic_created ForumDecls.plain (Except.error ⟨500, "Request aborted"⟩)
        scenario_D_info ≠ [] := by
  refine ⟨rfl, by decide⟩

/-- C20, amended: when the completion of a topic creation reaches `on_forum_topic_created` and
the close status is an error, the promise is resolved once, with that error and never with a
value; no topic object is produced and nothing else happens. -/
theorem C20_late_completion_sets_close_error (D : ForumDecls U O) (status : Status)
    (forum_topic_info : ForumTopicInfo) :
    on_forum_topic_created D (Except.error status) forum_topic_info
        = [Effect.promise_set_error status]
    ∧ ∀ value, Effect.promise_set_value value
        ∉ on_forum_topic_created D (Except.error status) forum_topic_info := by
  refine ⟨rfl, fun value hmem => ?_⟩
  simp [on_forum_topic_created, TRY_STATUS_PROMISE] at hmem

end ForumTopicManager

/-! ## Single resolution of the promise -/

namespace ForumTopicManager

variable {U O : Type}

theorem send_cases (D : ForumDecls U O) (draws : List Int) (channel_id : ChannelId)
    (title : String) (icon_color : Int) (icon_custom_emoji_id : CustomEmojiId) :
    CreateForumTopicQuery.send D draws channel_id title icon_color icon_custom_emoji_id = none
      ∨ ∃ handler query,
          CreateForumTopicQuery.send D draws channel_id title icon_color icon_custom_emoji_id
            = some [Effect.send_query handler query] := by
  rcases hr : CreateForumTopicQuery.secure_random_id draws with _ | r
  · left
    simp only [CreateForumTopicQuery.send, hr]
  · rcases hic : D.get_input_channel channel_id with _ | ic
    · left
      simp only [CreateForumTopicQuery.send, hr, hic]
    · right
      simp only [CreateForumTopicQuery.send, hr, hic]
      exact ⟨_, _, rfl⟩

theorem on_result_cases (E : IdDecls) (D : ForumDecls U O) (q : CreateForumTopicQuery)
    (packet : BufferSlice) :
    (CreateForumTopicQuery.topic_created_answer E D q packet
        ∧ ∃ ptr info, CreateForumTopicQuery.on_result E D q packet
            = [Effect.on_get_updates ptr info])
    ∨ (¬ CreateForumTopicQuery.topic_created_answer E D q packet
        ∧ ((∃ status, CreateForumTopicQuery.on_result E D q packet
              = [Effect.on_get_channel_error q.channel_id_ status,
                  Effect.promise_set_error status])
          ∨ CreateForumTopicQuery.on_result E D q packet
              = [Effect.promise_set_error ⟨400, "Invalid result received"⟩])) := by
  rcases hf : D.fetch_result packet with status | ptr
  · refine Or.inr ⟨?_, Or.inl ⟨status, ?_⟩⟩
    · rintro ⟨ptr, _, _, _, _, _, hok, -⟩
      rw [hf] at hok
      cases hok
    · simp only [CreateForumTopicQuery.on_result, hf, CreateForumTopicQuery.on_error]
  · have hnot : ∀ m, D.get_message_by_random_id ptr (E.dialog_id_of_channel_id q.channel_id_)
          q.random_id_ = m →
        (∀ id_ date_ title_ color emoji, m ≠ some (telegram_api.Message.messageService id_ date_
            (telegram_api.MessageAction.messageActionTopicCreate title_ color emoji))) →
        ¬ CreateForumTopicQuery.topic_created_answer E D q packet := by
      rintro m hm hne ⟨ptr2, id_, date_, title_, color, emoji, hok, hmsg⟩
      rw [hf] at hok
      cases hok
      rw [hm] at hmsg
      exact hne id_ date_ title_ color emoji hmsg
    rcases hm : D.get_message_by_random_id ptr (E.dialog_id_of_channel_id q.channel_id_)
        q.random_id_ with _ | m
    · exact Or.inr ⟨hnot _ hm (by simp), Or.inr (by
        simp only [CreateForumTopicQuery.on_result, hf, hm])⟩
    · cases m with
      | messageEmpty =>
        exact Or.inr ⟨hnot _ hm (by simp), Or.inr (by
          simp only [CreateForumTopicQuery.on_result, hf, hm])⟩
      | message =>
        exact Or.inr ⟨hnot _ hm (by simp), Or.inr (by
          simp only [CreateForumTopicQuery.on_result, hf, hm])⟩
      | messageService id_ date_ action_ =>
        cases action_ with
        | messageActionOther =>
          exact Or.inr ⟨hnot _ hm (by simp), Or.inr (by
            simp only [CreateForumTopicQuery.on_result, hf, hm])⟩
        | messageActionTopicCreate title_ color emoji =>
          exact Or.inl ⟨⟨ptr, id_, date_, title_, color, emoji, hf, hm⟩, ptr,
            ⟨D.message_id_of_server_message_id id_, title_, D.forum_topic_icon color emoji,
              date_, q.creator_dialog_id_, true, false⟩, by
            simp only [CreateForumTopicQuery.on_result, hf, hm]⟩

theorem resolutions_on_forum_topic_created (D : ForumDecls U O)
    (close_status : Except Status Unit) (info : ForumTopicInfo) :
    resolutions (on_forum_topic_created D close_status info) = 1 := by
  rcases close_status with status | u <;> rfl

theorem resolutions_on_result_completed (E : IdDecls) (D : ForumDecls U O)
    (close_status : Except Status Unit) (q : CreateForumTopicQuery) (packet : BufferSlice) :
    resolutions (CreateForumTopicQuery.on_result_completed E D close_status q packet) = 1 := by
  unfold CreateForumTopicQuery.on_result_completed
  rcases on_result_cases E D q packet with ⟨-, ptr, info, h⟩ | ⟨-, ⟨status, h⟩ | h⟩
  · rw [h]
    have hlist : List.flatMap [Effect.on_get_updates ptr info] (fun effect =>
        match effect with
        | Effect.on_get_updates updates forum_topic_info =>
          effect :: UpdatesManager.on_get_updates D close_status updates forum_topic_info
        | _ => [effect])
        = Effect.on_get_updates ptr info :: Effect.updates_applied ptr
            :: on_forum_topic_created D close_status info := by
      simp [List.flatMap, UpdatesManager.on_get_updates, on_get_updates_lambda]
    rw [hlist]
    simp only [resolutions]
    exact resolutions_on_forum_topic_created D close_status info
  · rw [h]
    rfl
  · rw [h]
    rfl

end ForumTopicManager

namespace ForumTopicManager

variable {U O : Type}

theorem create_forum_topic_effects (E : IdDecls) (td : Td) (D : ForumDecls U O)
    (draws : List Int) (dialog_id : DialogId) (title : String)
    (icon : Option td_api.forumTopicIcon) (effects : List (Effect U O))
    (h : create_forum_topic E td D draws dialog_id title icon = some effects) :
    (checks_pass E td D dialog_id title icon
        ∧ ∃ handler query, effects = [Effect.send_query handler query])
    ∨ (¬ checks_pass E td D dialog_id title icon
        ∧ ∃ message, effects = [Effect.promise_set_error ⟨400, message⟩]) := by
  rcases create_forum_topic_cases E td D draws dialog_id title icon with
    ⟨hc, color, emoji, heq⟩ | ⟨hnc, message, heq⟩
  · rcases send_cases D draws (E.get_channel_id dialog_id)
        (D.clean_name title D.MAX_FORUM_TOPIC_TITLE_LENGTH) color emoji with
      hnone | ⟨handler, query, hsend⟩
    · rw [heq, hnone] at h
      cases h
    · rw [heq, hsend] at h
      exact Or.inl ⟨hc, handler, query, (Option.some.inj h).symm⟩
  · rw [heq] at h
    exact Or.inr ⟨hnc, message, (Option.some.inj h).symm⟩

/-- C21: along every path through `create_forum_topic`, `on_result`, `on_error` and
`on_forum_topic_created` the caller's promise is resolved at most once: each of the four
functions resolves it at most once, and a whole invocation, from `create_forum_topic` through the
handler to the lambda promise, resolves it exactly once.  It is resolved exactly once when a check
of `create_forum_topic` fails, in `on_error`, when the answer has not the expected shape, and when
`on_forum_topic_created` runs with an OK close status; `on_result` does not resolve it when the
answer has the expected shape. -/
theorem C21_promise_resolved_at_most_once (E : IdDecls) (td : Td) (D : ForumDecls U O)
    (draws : List Int) (dialog_id : DialogId) (title : String)
    (icon : Option td_api.forumTopicIcon) (q : CreateForumTopicQuery) (packet : BufferSlice)
    (status : Status) (forum_topic_info : ForumTopicInfo) (completion : Completion)
    (close_status : Except Status Unit) :
    (∀ effects, create_forum_topic E td D draws dialog_id title icon = some effects →
        resolutions effects ≤ 1)
    ∧ (¬ checks_pass E td D dialog_id title icon →
        ∃ effects, create_forum_topic E td D draws dialog_id title icon = some effects
          ∧ resolutions effects = 1)
    ∧ resolutions (CreateForumTopicQuery.on_error q status : List (Effect U O)) = 1
    ∧ resolutions (CreateForumTopicQuery.on_result E D q packet) ≤ 1
    ∧ (¬ CreateForumTopicQuery.topic_created_answer E D q packet →
        resolutions (CreateForumTopicQuery.on_result E D q packet) = 1)
    ∧ (CreateForumTopicQuery.topic_created_answer E D q packet →
        resolutions (CreateForumTopicQuery.on_result E D q packet) = 0)
    ∧ resolutions (on_forum_topic_created D close_status forum_topic_info) ≤ 1
    ∧ resolutions (on_forum_topic_created D (Except.ok ()) forum_topic_info) = 1
    ∧ (∀ effects,
        invocation E td D draws dialog_id title icon completion close_status = some effects →
          resolutions effects = 1) := by
  have hresult : (CreateForumTopicQuery.topic_created_answer E D q packet
        ∧ resolutions (CreateForumTopicQuery.on_result E D q packet) = 0)
      ∨ (¬ CreateForumTopicQuery.topic_created_answer E D q packet
        ∧ resolutions (CreateForumTopicQuery.on_result E D q packet) = 1) := by
    rcases on_result_cases E D q packet with ⟨hc, ptr, info, h⟩ | ⟨hnc, ⟨st, h⟩ | h⟩
    · exact Or.inl ⟨hc, by rw [h]; rfl⟩
    · exact Or.inr ⟨hnc, by rw [h]; rfl⟩
    · exact Or.inr ⟨hnc, by rw [h]; rfl⟩
  refine ⟨?_, ?_, rfl, ?_, ?_, ?_, ?_, rfl, ?_⟩
  · intro effects h
    rcases create_forum_topic_effects E td D draws dialog_id title icon effects h with
      ⟨-, handler, query, rfl⟩ | ⟨-, message, rfl⟩
    · exact Nat.zero_le 1
    · exact Nat.le_refl 1
  · intro hnc
    rcases create_forum_topic_cases E td D draws dialog_id title icon with
      ⟨hc, -⟩ | ⟨-, message, heq⟩
    · exact absurd hc hnc
    · exact ⟨_, heq, rfl⟩
  · rcases hresult with ⟨-, h⟩ | ⟨-, h⟩ <;> omega
  · intro hnc
    rcases hresult with ⟨hc, -⟩ | ⟨-, h⟩
    · exact absurd hc hnc
    · exact h
  · intro hc
    rcases hresult with ⟨-, h⟩ | ⟨hnc, -⟩
    · exact h
    · exact absurd hc hnc
  · exact Nat.le_of_eq (resolutions_on_forum_topic_created D close_status forum_topic_info)
  · intro effects h
    unfold invocation at h
    rcases hcreate : create_forum_topic E td D draws dialog_id title icon with _ | created
    · rw [hcreate] at h
      cases h
    · rw [hcreate] at h
      have heff := (Option.some.inj h).symm
      rcases create_forum_topic_effects E td D draws dialog_id title icon created hcreate with
        ⟨-, handler, query, rfl⟩ | ⟨-, message, rfl⟩
      · cases completion with
        | transport_error st =>
          have hlist : effects = Effect.send_query handler query
              :: CreateForumTopicQuery.on_error handler st := by
            rw [heff]
            simp [List.flatMap]
          rw [hlist]
          rfl
        | answer pkt =>
          have hlist : effects = Effect.send_query handler query
              :: CreateForumTopicQuery.on_result_completed E D close_status handler pkt := by
            rw [heff]
            simp [List.flatMap]
          rw [hlist]
          simp only [resolutions]
          exact resolutions_on_result_completed E D close_status handler pkt
      · rw [heff]
        rfl

/-- C21 in scenario D: the request for a topic in the forum channel 3 is dispatched, the answer
has the expected shape, and the close status is OK. -/
theorem C21_promise_resolved_witness :
    invocation IdDecls.plain Td.all_known ForumDecls.plain [0, 11] ⟨3⟩ "News" (some ⟨255, 0⟩)
        (Completion.answer [1]) (Except.ok ())
      = some [Effect.send_query scenario_D_query ⟨1, ⟨3, 0⟩, "News", 255, 0, 11⟩,
          Effect.on_get_updates
            (some (telegram_api.Message.messageService 5 100
              (telegram_api.MessageAction.messageActionTopicCreate "News" 255 0)))
            scenario_D_info,
          Effect.updates_applied
            (some (telegram_api.Message.messageService 5 100
              (telegram_api.MessageAction.messageActionTopicCreate "News" 255 0))),
          Effect.promise_set_value scenario_D_info]
    ∧ resolutions [Effect.send_query scenario_D_query ⟨1, ⟨3, 0⟩, "News", 255, 0, 11⟩,
          Effect.on_get_updates
            (some (telegram_api.Message.messageService 5 100
              (telegram_api.MessageAction.messageActionTopicCreate "News" 255 0)))
            scenario_D_info,
          Effect.updates_applied
            (some (telegram_api.Message.messageService 5 100
              (telegram_api.MessageAction.messageActionTopicCreate "News" 255 0))),
          (Effect.promise_set_value scenario_D_info :
            Effect (Option telegram_api.Message) ForumTopicInfo)] = 1 :=
  have h : invocation IdDecls.plain Td.all_known ForumDecls.plain [0, 11] ⟨3⟩ "News"
      (some ⟨255, 0⟩) (Completion.answer [1]) (Except.ok ())
      = some [Effect.send_query scenario_D_query ⟨1, ⟨3, 0⟩, "News", 255, 0, 11⟩,
          Effect.on_get_updates
            (some (telegram_api.Message.messageService 5 100
              (telegram_api.MessageAction.messageActionTopicCreate "News" 255 0)))
            scenario_D_info,
          Effect.updates_applied
            (some (telegram_api.Message.messageService 5 100
              (telegram_api.MessageAction.messageActionTopicCreate "News" 255 0))),
          Effect.promise_set_value scenario_D_info] := by decide
  ⟨h, (C21_promise_resolved_at_most_once IdDecls.plain Td.all_known ForumDecls.plain [0, 11] ⟨3⟩
    "News" (some ⟨255, 0⟩) scenario_D_query [1] ⟨500, ""⟩ scenario_D_info
    (Completion.answer [1]) (Except.ok ())).2.2.2.2.2.2.2.2 _ h⟩

end ForumTopicManager

/-! ## Resolution of references, null rules and the variants of rules -/

namespace UserPrivacySettingRules

theorem set_dialog_ids_eq_filter (E : IdDecls) (td : Td) (chat_ids : List Int) :
    UserPrivacySettingRule.set_dialog_ids E td chat_ids
      = (chat_ids.map DialogId.mk).filter (UserPrivacySettingRule.is_kept_dialog E td) := by
  induction chat_ids with
  | nil => rfl
  | cons c cs ih =>
    unfold UserPrivacySettingRule.set_dialog_ids
    simp only [List.map_cons, List.filter_cons, UserPrivacySettingRule.is_kept_dialog]
    by_cases hf : td.messages_manager_.have_dialog_force ⟨c⟩ = true
    · rw [if_neg (by simp [hf])]
      split
      · next h => simp [hf, h, ih]
      · next h =>
        by_cases hm : td.contacts_manager_.is_megagroup_channel (E.get_channel_id ⟨c⟩) = true
        · simp [hf, h, hm, ih]
        · simp [hf, h, hm, ih]
      · next h1 h2 =>
        have h3 : ¬ (E.get_type ⟨c⟩ = DialogType.Chat) := fun h => h1 h
        have h4 : ¬ (E.get_type ⟨c⟩ = DialogType.Channel) := fun h => h2 h
        simp [hf, h3, h4, ih]
    · simp [hf, ih, UserPrivacySettingRule.is_kept_dialog]

/-- C22: for every wire rule that lists users, whatever `have_user` answers, the constructor
returns a rule, and its user identifier list is the list of the listed user identifiers for which
`have_user` holds, in the original order; for every local chat-member rule, `set_dialog_ids` keeps,
in order, exactly the chat identifiers whose dialog is found and is a basic group or a megagroup
channel.  The function `UserId::get_user_ids` is taken to wrap every listed identifier. -/
theorem C22_unresolvable_references_are_dropped (E : IdDecls) (td : Td)
    (users chat_ids : List Int) (hget : E.get_user_ids users = users.map UserId.mk) :
    (∃ r, UserPrivacySettingRule.of_telegram_api E td (some (.privacyValueAllowUsers users))
          = some r
        ∧ r.type_ = RuleType.AllowUsers
        ∧ r.user_ids_ = (users.map UserId.mk).filter td.contacts_manager_.have_user)
    ∧ (∃ r, UserPrivacySettingRule.of_telegram_api E td (some (.privacyValueDisallowUsers users))
          = some r
        ∧ r.type_ = RuleType.RestrictUsers
        ∧ r.user_ids_ = (users.map UserId.mk).filter td.contacts_manager_.have_user)
    ∧ UserPrivacySettingRule.set_dialog_ids E td chat_ids
        = (chat_ids.map DialogId.mk).filter (UserPrivacySettingRule.is_kept_dialog E td)
    ∧ (UserPrivacySettingRule.of_td_api E td
          (.userPrivacySettingRuleAllowChatMembers chat_ids)).dialog_ids_
        = (chat_ids.map DialogId.mk).filter (UserPrivacySettingRule.is_kept_dialog E td)
    ∧ (UserPrivacySettingRule.of_td_api E td
          (.userPrivacySettingRuleRestrictChatMembers chat_ids)).dialog_ids_
        = (chat_ids.map DialogId.mk).filter (UserPrivacySettingRule.is_kept_dialog E td) := by
  refine ⟨⟨_, rfl, rfl, ?_⟩, ⟨_, rfl, rfl, ?_⟩, set_dialog_ids_eq_filter E td chat_ids,
    set_dialog_ids_eq_filter E td chat_ids, set_dialog_ids_eq_filter E td chat_ids⟩
  · simp only [UserPrivacySettingRule.of_PrivacyRule,
      UserPrivacySettingRule.of_telegram_api_switch, hget, Bool.not_not]
  · simp only [UserPrivacySettingRule.of_PrivacyRule,
      UserPrivacySettingRule.of_telegram_api_switch, hget, Bool.not_not]

/-- C22 with the users 1 and 3 known and the dialogs -5 and 8 found: of the users 1, 2, 3 the
users 1 and 3 are kept, and of the chats 8, 4, -5 the chats 8 and -5. -/
theorem C22_unresolvable_references_witness :
    IdDecls.plain.get_user_ids [1, 2, 3] = [1, 2, 3].map UserId.mk
    ∧ UserPrivacySettingRule.of_telegram_api IdDecls.plain Td.some_known
        (some (.privacyValueAllowUsers [1, 2, 3]))
        = some ⟨RuleType.AllowUsers, [⟨1⟩, ⟨3⟩], []⟩
    ∧ UserPrivacySettingRule.set_dialog_ids IdDecls.plain Td.some_known [8, 4, -5]
        = [⟨8⟩, ⟨-5⟩]
    ∧ (∃ r, UserPrivacySettingRule.of_telegram_api IdDecls.plain Td.some_known
          (some (.privacyValueAllowUsers [1, 2, 3])) = some r
        ∧ r.type_ = RuleType.AllowUsers
        ∧ r.user_ids_
            = ([1, 2, 3].map UserId.mk).filter Td.some_known.contacts_manager_.have_user)
    ∧ (∃ r, UserPrivacySettingRule.of_telegram_api IdDecls.plain Td.some_known
          (some (.privacyValueDisallowUsers [1, 2, 3])) = some r
        ∧ r.type_ = RuleType.RestrictUsers
        ∧ r.user_ids_
            = ([1, 2, 3].map UserId.mk).filter Td.some_known.contacts_manager_.have_user)
    ∧ UserPrivacySettingRule.set_dialog_ids IdDecls.plain Td.some_known [8, 4, -5]
        = ([8, 4, -5].map DialogId.mk).filter
            (UserPrivacySettingRule.is_kept_dialog IdDecls.plain Td.some_known)
    ∧ (UserPrivacySettingRule.of_td_api IdDecls.plain Td.some_known
          (.userPrivacySettingRuleAllowChatMembers [8, 4, -5])).dialog_ids_
        = ([8, 4, -5].map DialogId.mk).filter
            (UserPrivacySettingRule.is_kept_dialog IdDecls.plain Td.some_known)
    ∧ (UserPrivacySettingRule.of_td_api IdDecls.plain Td.some_known
          (.userPrivacySettingRuleRestrictChatMembers [8, 4, -5])).dialog_ids_
        = ([8, 4, -5].map DialogId.mk).filter
            (UserPrivacySettingRule.is_kept_dialog IdDecls.plain Td.some_known) :=
  ⟨rfl, by decide, by decide,
    C22_unresolvable_references_are_dropped IdDecls.plain Td.some_known [1, 2, 3] [8, 4, -5] rfl⟩

end UserPrivacySettingRules

namespace UserPrivacySettingRules

theorem emplace_back_td_api_cases (E : IdDecls) (td : Td)
    (l : List (Option td_api.UserPrivacySettingRule)) :
    (none ∈ l
        ∧ emplace_back_td_api E td l
            = Except.error ⟨400, "UserPrivacySettingRule must be non-empty"⟩)
    ∨ (none ∉ l
        ∧ ∃ rules_, emplace_back_td_api E td l = Except.ok rules_
            ∧ l.map (Option.map (fun rule => rule.rule_type)) = (rule_types rules_).map some) := by
  induction l with
  | nil => exact Or.inr ⟨by simp, [], rfl, rfl⟩
  | cons x xs ih =>
    cases x with
    | none => exact Or.inl ⟨List.mem_cons_self _ _, rfl⟩
    | some rule =>
      rcases ih with ⟨hmem, herr⟩ | ⟨hnot, rules_, hok, htypes⟩
      · exact Or.inl ⟨List.mem_cons_of_mem _ hmem, by
          simp only [emplace_back_td_api, herr, Except.map]⟩
      · refine Or.inr ⟨by simpa using hnot, UserPrivacySettingRule.of_td_api E td rule :: rules_,
          by simp only [emplace_back_td_api, hok, Except.map], ?_⟩
        simp only [List.map_cons, Option.map_some', htypes, rule_types, of_td_api_type]

/-- C24: the local overload of `get_user_privacy_setting_rules` returns an error if and only if
the rules object is null or one of its elements is null, and every error it returns has code 400;
otherwise it succeeds with one rule per input element, in input order, each with the rule type of
the variant of the element. -/
theorem C24_td_api_error_iff_null (E : IdDecls) (td : Td)
    (rules : Option td_api.userPrivacySettingRules) :
    ((∃ status, get_user_privacy_setting_rules_td_api E td rules = Except.error status)
        ↔ rules = none ∨ ∃ r, rules = some r ∧ none ∈ r.rules_)
    ∧ (∀ status, get_user_privacy_setting_rules_td_api E td rules = Except.error status →
        status.code = 400)
    ∧ (∀ r, rules = some r → none ∉ r.rules_ →
        ∃ result, get_user_privacy_setting_rules_td_api E td rules = Except.ok result
          ∧ result.rules_.length = r.rules_.length
          ∧ r.rules_.map (Option.map (fun rule => rule.rule_type))
              = (rule_types result.rules_).map some) := by
  cases rules with
  | none =>
    refine ⟨⟨fun _ => Or.inl rfl, fun _ => ⟨_, rfl⟩⟩, ?_, ?_⟩
    · intro status h
      simp only [get_user_privacy_setting_rules_td_api, Except.error.injEq] at h
      rw [← h]
    · intro r h
      cases h
  | some r0 =>
    rcases emplace_back_td_api_cases E td r0.rules_ with ⟨hmem, herr⟩ | ⟨hnot, rules_, hok, ht⟩
    · have hrun : get_user_privacy_setting_rules_td_api E td (some r0)
          = Except.error ⟨400, "UserPrivacySettingRule must be non-empty"⟩ := by
        simp only [get_user_privacy_setting_rules_td_api, herr, Except.map]
      refine ⟨⟨fun _ => Or.inr ⟨r0, rfl, hmem⟩, fun _ => ⟨_, hrun⟩⟩, ?_, ?_⟩
      · intro status h
        rw [hrun] at h
        simp only [Except.error.injEq] at h
        rw [← h]
      · intro r h hn
        cases h
        exact absurd hmem hn
    · have hrun : get_user_privacy_setting_rules_td_api E td (some r0) = Except.ok ⟨rules_⟩ := by
        simp only [get_user_privacy_setting_rules_td_api, hok, Except.map]
      refine ⟨⟨?_, ?_⟩, ?_, ?_⟩
      · rintro ⟨status, h⟩
        rw [hrun] at h
        cases h
      · rintro (h | ⟨r, h, hmem⟩)
        · cases h
        · cases h
          exact absurd hmem hnot
      · intro status h
        rw [hrun] at h
        cases h
      · intro r h _
        cases h
        refine ⟨⟨rules_⟩, hrun, ?_, ht⟩
        have hlen := congrArg List.length ht
        simpa [rule_types] using hlen.symm

/-- C27: for every rule, the caller-facing variant of `get_user_privacy_setting_rule_object`
converted back by the local constructor has the same rule type.  Each of the four mappings is
defined on its nine variants and maps different variants to different results: the local
constructor and the wire constructor reach each of the nine rule types and give equal types only
to equal variants, and the caller-facing object and the wire input rule have equal variants only
for equal rule types. -/
theorem C27_rule_type_round_trip (E : IdDecls) (td : Td) :
    (∀ r : UserPrivacySettingRule,
        (UserPrivacySettingRule.of_td_api E td (r.get_user_privacy_setting_rule_object td)).type_
          = r.type_)
    ∧ (∀ x y : td_api.UserPrivacySettingRule,
        (UserPrivacySettingRule.of_td_api E td x).type_
            = (UserPrivacySettingRule.of_td_api E td y).type_ →
          x.variant = y.variant)
    ∧ (∀ x y : telegram_api.PrivacyRule,
        (UserPrivacySettingRule.of_PrivacyRule E td x).type_
            = (UserPrivacySettingRule.of_PrivacyRule E td y).type_ →
          x.variant = y.variant)
    ∧ (∀ r s : UserPrivacySettingRule,
        (r.get_user_privacy_setting_rule_object td).variant
            = (s.get_user_privacy_setting_rule_object td).variant →
          r.type_ = s.type_)
    ∧ (∀ (r s : UserPrivacySettingRule) (x y : telegram_api.InputPrivacyRule),
        r.get_input_privacy_rule E td = some x → s.get_input_privacy_rule E td = some y →
          x.variant = y.variant → r.type_ = s.type_)
    ∧ (∀ t : RuleType, ∃ x, (UserPrivacySettingRule.of_td_api E td x).type_ = t)
    ∧ (∀ t : RuleType, ∃ x r, UserPrivacySettingRule.of_telegram_api E td (some x) = some r
        ∧ r.type_ = t)
    ∧ (∀ r : UserPrivacySettingRule,
        (∀ d ∈ r.dialog_ids_,
          E.get_type d = DialogType.Chat ∨ E.get_type d = DialogType.Channel) →
        ∃ x, r.get_input_privacy_rule E td = some x ∧ x.rule_type = r.type_) := by
  refine ⟨?_, ?_, ?_, ?_, ?_, ?_, ?_, ?_⟩
  · rintro ⟨t, u, d⟩
    cases t <;> rfl
  · intro x y h
    cases x <;> cases y <;> first | rfl | cases h
  · intro x y h
    cases x <;> cases y <;> first | rfl | cases h
  · rintro ⟨t, u, d⟩ ⟨t2, u2, d2⟩ h
    cases t <;> cases t2 <;> first | rfl | cases h
  · rintro ⟨t, u, d⟩ ⟨t2, u2, d2⟩ x y hx hy h
    cases t <;> cases t2 <;>
      first
      | rfl
      | (simp only [UserPrivacySettingRule.get_input_privacy_rule, Option.map_eq_some',
          Option.some.injEq] at hx hy
         first
         | (subst hx; subst hy; cases h)
         | (obtain ⟨a, -, rfl⟩ := hx; subst hy; cases h)
         | (subst hx; obtain ⟨b, -, rfl⟩ := hy; cases h)
         | (obtain ⟨a, -, rfl⟩ := hx; obtain ⟨b, -, rfl⟩ := hy; cases h))
  · intro t
    cases t
    · exact ⟨.userPrivacySettingRuleAllowContacts, rfl⟩
    · exact ⟨.userPrivacySettingRuleAllowCloseFriends, rfl⟩
    · exact ⟨.userPrivacySettingRuleAllowAll, rfl⟩
    · exact ⟨.userPrivacySettingRuleAllowUsers [], rfl⟩
    · exact ⟨.userPrivacySettingRuleAllowChatMembers [], rfl⟩
    · exact ⟨.userPrivacySettingRuleRestrictContacts, rfl⟩
    · exact ⟨.userPrivacySettingRuleRestrictAll, rfl⟩
    · exact ⟨.userPrivacySettingRuleRestrictUsers [], rfl⟩
    · exact ⟨.userPrivacySettingRuleRestrictChatMembers [], rfl⟩
  · intro t
    cases t
    · exact ⟨.privacyValueAllowContacts, _, rfl, rfl⟩
    · exact ⟨.privacyValueAllowCloseFriends, _, rfl, rfl⟩
    · exact ⟨.privacyValueAllowAll, _, rfl, rfl⟩
    · exact ⟨.privacyValueAllowUsers [], _, rfl, rfl⟩
    · exact ⟨.privacyValueAllowChatParticipants [], _, rfl, rfl⟩
    · exact ⟨.privacyValueDisallowContacts, _, rfl, rfl⟩
    · exact ⟨.privacyValueDisallowAll, _, rfl, rfl⟩
    · exact ⟨.privacyValueDisallowUsers [], _, rfl, rfl⟩
    · exact ⟨.privacyValueDisallowChatParticipants [], _, rfl, rfl⟩
  · intro r h
    exact get_input_privacy_rule_some E td r h

end UserPrivacySettingRules

/-! ## Notification, key invariant and frame of the voice note table -/

namespace VoiceNotesManager

variable {TI : Type}

theorem replace_steps_keep (v new_voice_note : VoiceNote TI) :
    (replace_duration_waveform (replace_mime_type v new_voice_note)
        new_voice_note).transcription_info = v.transcription_info
    ∧ (replace_duration_waveform (replace_mime_type v new_voice_note) new_voice_note).file_id
        = v.file_id := by
  unfold replace_duration_waveform replace_mime_type
  constructor <;> (split <;> split <;> rfl)

/-- The result of `on_get_voice_note`, branch by branch. -/
theorem on_get_voice_note_cases (X : VoiceDecls TI) (s s' : VoiceNotesManager TI)
    (v : VoiceNote TI) (replace : Bool) (id : FileId)
    (h : on_get_voice_note X s v replace = some (s', id)) :
    id = v.file_id
    ∧ ((s.voice_notes_ v.file_id = none
          ∧ s' = { s with voice_notes_ := Function.update s.voice_notes_ v.file_id (some v) })
      ∨ (∃ old, s.voice_notes_ v.file_id = some old ∧ replace = false ∧ s' = s)
      ∨ (∃ old e, s.voice_notes_ v.file_id = some old ∧ replace = true
          ∧ old.file_id = v.file_id ∧ e.file_id = v.file_id
          ∧ s'.voice_notes_ = Function.update s.voice_notes_ v.file_id (some e)
          ∧ s'.transcription_completed
              = if (X.update_from old.transcription_info v.transcription_info).2
                then s.transcription_completed ++ [v.file_id]
                else s.transcription_completed)) := by
  by_cases hvalid : X.is_valid v.file_id = true
  swap
  · simp [on_get_voice_note, hvalid] at h
  rcases hs : s.voice_notes_ v.file_id with _ | old
  · rw [on_get_voice_note_absent X s v replace hvalid hs] at h
    have h1 := Option.some.inj h
    exact ⟨(Prod.mk.inj h1).2.symm, Or.inl ⟨rfl, (Prod.mk.inj h1).1.symm⟩⟩
  · cases replace with
    | false =>
      simp only [on_get_voice_note, hvalid, hs, Bool.not_true, Bool.false_eq_true, if_false,
        Option.some.injEq, Prod.mk.injEq] at h
      exact ⟨h.2.symm, Or.inr (Or.inl ⟨old, rfl, rfl, h.1.symm⟩)⟩
    | true =>
      by_cases hkey : old.file_id = v.file_id
      · simp only [on_get_voice_note, hvalid, hs, hkey, Bool.not_true, Bool.false_eq_true,
          if_false, if_true, ne_eq, not_true_eq_false, Option.some.injEq, Prod.mk.injEq] at h
        obtain ⟨h1, h2⟩ := h
        refine ⟨h2.symm, Or.inr (Or.inr ⟨old,
          { replace_duration_waveform (replace_mime_type old v) v with
            transcription_info := (X.update_from (replace_duration_waveform
              (replace_mime_type old v) v).transcription_info v.transcription_info).1 },
          rfl, rfl, hkey, ?_, ?_, ?_⟩)⟩
        · exact (replace_steps_keep old v).2.trans hkey
        · rw [← h1]
        · rw [← h1, (replace_steps_keep old v).1]
      · simp [on_get_voice_note, hvalid, hs, hkey] at h

/-- C23: one call of `on_get_voice_note` that returns emits the transcription-completed
notification at most once, and it emits it exactly when the identifier was present, `replace` is
true and `TranscriptionInfo::update_from` reports a change; inserting an absent identifier and a
call with `replace = false` never emit it. -/
theorem C23_on_get_voice_note_notifies_at_most_once (X : VoiceDecls TI)
    (s s' : VoiceNotesManager TI) (v : VoiceNote TI) (replace : Bool) (id : FileId)
    (h : on_get_voice_note X s v replace = some (s', id)) :
    (s'.transcription_completed = s.transcription_completed
        ∨ s'.transcription_completed = s.transcription_completed ++ [v.file_id])
    ∧ (s'.transcription_completed = s.transcription_completed ++ [v.file_id]
        ↔ replace = true ∧ ∃ old, s.voice_notes_ v.file_id = some old
            ∧ (X.update_from old.transcription_info v.transcription_info).2 = true)
    ∧ (s.voice_notes_ v.file_id = none →
        s'.transcription_completed = s.transcription_completed)
    ∧ (replace = false → s'.transcription_completed = s.transcription_completed) := by
  have hne : s.transcription_completed ≠ s.transcription_completed ++ [v.file_id] := by
    intro hl
    have := congrArg List.length hl
    simp at this
  rcases (on_get_voice_note_cases X s s' v replace id h).2 with
    ⟨habs, rfl⟩ | ⟨old, hold, hrep, rfl⟩ | ⟨old, e, hold, hrep, -, -, -, hlog⟩
  · refine ⟨Or.inl rfl, ⟨fun hl => absurd hl hne, ?_⟩, fun _ => rfl, fun _ => rfl⟩
    rintro ⟨-, old, hold, -⟩
    rw [habs] at hold
    cases hold
  · refine ⟨Or.inl rfl, ⟨fun hl => absurd hl hne, ?_⟩, fun _ => rfl, fun _ => rfl⟩
    rintro ⟨hr, -⟩
    rw [hrep] at hr
    cases hr
  · by_cases hu : (X.update_from old.transcription_info v.transcription_info).2 = true
    · rw [if_pos hu] at hlog
      refine ⟨Or.inr hlog, ⟨fun _ => ⟨hrep, old, hold, hu⟩, fun _ => hlog⟩, ?_, ?_⟩
      · intro habs
        rw [habs] at hold
        cases hold
      · intro hr
        rw [hrep] at hr
        cases hr
    · rw [if_neg hu] at hlog
      refine ⟨Or.inl hlog, ⟨fun hl => absurd (hlog.symm.trans hl) hne, ?_⟩, fun _ => hlog,
        fun _ => hlog⟩
      rintro ⟨-, old2, hold2, hu2⟩
      rw [hold] at hold2
      cases hold2
      exact absurd hu2 hu

/-- C23 in scenario A: a transcribed voice note replaces the one under `F1`, and the
notification is emitted once. -/
theorem C23_on_get_voice_note_notifies_witness :
    on_get_voice_note VoiceDecls.flag scenario_A
        { scenario_A_note with transcription_info := some true } true
      = some ({ scenario_A with
                voice_notes_ := Function.update scenario_A.voice_notes_ F1
                  (some { scenario_A_note with transcription_info := some true })
                transcription_completed := [F1] }, F1)
    ∧ (([F1] : List FileId) = [] ∨ ([F1] : List FileId) = [] ++ [F1])
    ∧ (([F1] : List FileId) = [] ++ [F1]
        ↔ true = true ∧ ∃ old, scenario_A.voice_notes_ F1 = some old
            ∧ (VoiceDecls.flag.update_from old.transcription_info (some true)).2 = true)
    ∧ (scenario_A.voice_notes_ F1 = none → ([F1] : List FileId) = [])
    ∧ (true = false → ([F1] : List FileId) = []) :=
  have h : on_get_voice_note VoiceDecls.flag scenario_A
      { scenario_A_note with transcription_info := some true } true
      = some ({ scenario_A with
                voice_notes_ := Function.update scenario_A.voice_notes_ F1
                  (some { scenario_A_note with transcription_info := some true })
                transcription_completed := [F1] }, F1) := rfl
  ⟨h, C23_on_get_voice_note_notifies_at_most_once VoiceDecls.flag scenario_A _
    { scenario_A_note with transcription_info := some true } true F1 h⟩

end VoiceNotesManager

namespace VoiceNotesManager

variable {TI : Type}

theorem keys_match_update (s s' : VoiceNotesManager TI) (k : FileId) (e : VoiceNote TI)
    (hinv : keys_match s) (he : e.file_id = k)
    (htable : s'.voice_notes_ = Function.update s.voice_notes_ k (some e)) : keys_match s' := by
  intro k2 e2 h2
  rw [htable] at h2
  by_cases hk : k2 = k
  · subst hk
    rw [Function.update_same] at h2
    cases h2
    exact he
  · rw [Function.update_noteq hk] at h2
    exact hinv k2 e2 h2

theorem dup_voice_note_some_inv (X : VoiceDecls TI) (s s' : VoiceNotesManager TI)
    (new_id old_id id : FileId) (h : dup_voice_note X s new_id old_id = some (s', id)) :
    new_id ≠ old_id ∧ ∃ o, s.voice_notes_ old_id = some o ∧ s.voice_notes_ new_id = none
      ∧ s'.voice_notes_ = Function.update s.voice_notes_ new_id
          (some ⟨o.mime_type, o.duration, o.waveform,
            X.copy_if_transcribed o.transcription_info, new_id⟩) := by
  rcases hold : s.voice_notes_ old_id with _ | o
  · simp [dup_voice_note, get_voice_note, hold] at h
  · rcases hnew : s.voice_notes_ new_id with _ | e
    · rw [dup_voice_note_of_present_absent X s new_id old_id o hold hnew] at h
      have h1 := (Prod.mk.inj (Option.some.inj h)).1
      refine ⟨?_, o, rfl, rfl, by rw [← h1]⟩
      intro heq
      rw [heq, hold] at hnew
      cases hnew
    · simp [dup_voice_note, get_voice_note, hold, hnew] at h

theorem merge_voice_notes_table_cases (X : VoiceDecls TI) (s s' : VoiceNotesManager TI)
    (new_id old_id : FileId) (h : merge_voice_notes X s new_id old_id = some s') :
    new_id ≠ old_id ∧ ∃ o, s.voice_notes_ old_id = some o
      ∧ ((s.voice_notes_ new_id ≠ none ∧ s'.voice_notes_ = s.voice_notes_)
        ∨ (s.voice_notes_ new_id = none
          ∧ s'.voice_notes_ = Function.update s.voice_notes_ new_id
              (some ⟨o.mime_type, o.duration, o.waveform,
                X.copy_if_transcribed o.transcription_info, new_id⟩))) := by
  by_cases hvold : X.is_valid old_id = true
  swap
  · simp [merge_voice_notes, hvold] at h
  by_cases hvnew : X.is_valid new_id = true
  swap
  · simp [merge_voice_notes, hvold, hvnew] at h
  by_cases hne : new_id = old_id
  · simp [merge_voice_notes, hvold, hvnew, hne] at h
  rcases hold : s.voice_notes_ old_id with _ | o
  · simp [merge_voice_notes, get_voice_note, hvold, hvnew, hne, hold] at h
  refine ⟨hne, o, rfl, ?_⟩
  rcases hnew : s.voice_notes_ new_id with _ | e
  · rw [merge_voice_notes_of_new_absent X s new_id old_id o hvold hvnew hne hold hnew] at h
    have h1 := Option.some.inj h
    exact Or.inr ⟨rfl, by rw [← h1]⟩
  · rw [merge_voice_notes_of_new_present X s new_id old_id o e hvold hvnew hne hold hnew] at h
    have h1 := Option.some.inj h
    exact Or.inl ⟨by simp, by rw [← h1]⟩

/-- C25: if every entry of the table is stored under its own file identifier, this still holds
after `on_get_voice_note`, `create_voice_note`, `dup_voice_note` and `merge_voice_notes` whenever
they do not fail; a replacing `on_get_voice_note` leaves the file identifier of the entry as it
was. -/
theorem C25_keys_match_is_preserved (X : VoiceDecls TI) (s : VoiceNotesManager TI)
    (hinv : keys_match s) :
    (∀ v replace s' id, on_get_voice_note X s v replace = some (s', id) → keys_match s')
    ∧ (∀ file_id mime_type duration waveform replace s',
        create_voice_note X s file_id mime_type duration waveform replace = some s' →
          keys_match s')
    ∧ (∀ new_id old_id s' id, dup_voice_note X s new_id old_id = some (s', id) → keys_match s')
    ∧ (∀ new_id old_id s', merge_voice_notes X s new_id old_id = some s' → keys_match s')
    ∧ (∀ v s' id old e, on_get_voice_note X s v true = some (s', id) →
        s.voice_notes_ v.file_id = some old → s'.voice_notes_ v.file_id = some e →
          e.file_id = old.file_id) := by
  have hget : ∀ v replace s' id, on_get_voice_note X s v replace = some (s', id) →
      keys_match s' := by
    intro v replace s' id h
    rcases (on_get_voice_note_cases X s s' v replace id h).2 with
      ⟨-, rfl⟩ | ⟨old, -, -, rfl⟩ | ⟨old, e, -, -, -, he, htable, -⟩
    · exact keys_match_update s _ v.file_id v hinv rfl rfl
    · exact hinv
    · exact keys_match_update s s' v.file_id e hinv he htable
  refine ⟨hget, ?_, ?_, ?_, ?_⟩
  · intro file_id mime_type duration waveform replace s' h
    simp only [create_voice_note] at h
    rcases hrun : on_get_voice_note X s
        { file_id := file_id, mime_type := mime_type, duration := max duration 0,
          waveform := waveform, transcription_info := none } replace with _ | r
    · rw [hrun] at h
      cases h
    · rw [hrun] at h
      have h1 := Option.some.inj h
      rw [← h1]
      exact hget _ replace r.1 r.2 hrun
  · intro new_id old_id s' id h
    obtain ⟨-, o, -, -, htable⟩ := dup_voice_note_some_inv X s s' new_id old_id id h
    exact keys_match_update s s' new_id _ hinv rfl htable
  · intro new_id old_id s' h
    obtain ⟨-, o, -, ⟨-, htable⟩ | ⟨-, htable⟩⟩ :=
      merge_voice_notes_table_cases X s s' new_id old_id h
    · intro k e hk
      rw [htable] at hk
      exact hinv k e hk
    · exact keys_match_update s s' new_id _ hinv rfl htable
  · intro v s' id old e h hold he
    rcases (on_get_voice_note_cases X s s' v true id h).2 with
      ⟨habs, -⟩ | ⟨_, -, hrep, -⟩ | ⟨old2, e2, hold2, -, hkey, he2, htable, -⟩
    · rw [habs] at hold
      cases hold
    · cases hrep
    · rw [hold] at hold2
      cases hold2
      rw [htable, Function.update_same] at he
      cases he
      rw [he2, hkey]

/-- C25 in scenario A, whose only entry is stored under `F1` and carries `F1`. -/
theorem C25_keys_match_witness :
    keys_match scenario_A
    ∧ (∀ v replace s' id, on_get_voice_note VoiceDecls.flag scenario_A v replace = some (s', id) →
        keys_match s')
    ∧ (∀ file_id mime_type duration waveform replace s',
        create_voice_note VoiceDecls.flag scenario_A file_id mime_type duration waveform replace
            = some s' →
          keys_match s')
    ∧ (∀ new_id old_id s' id,
        dup_voice_note VoiceDecls.flag scenario_A new_id old_id = some (s', id) → keys_match s')
    ∧ (∀ new_id old_id s',
        merge_voice_notes VoiceDecls.flag scenario_A new_id old_id = some s' → keys_match s')
    ∧ (∀ v s' id old e, on_get_voice_note VoiceDecls.flag scenario_A v true = some (s', id) →
        scenario_A.voice_notes_ v.file_id = some old → s'.voice_notes_ v.file_id = some e →
          e.file_id = old.file_id) :=
  have hinv : keys_match scenario_A := by
    intro k e hk
    by_cases h1 : k = F1
    · subst h1
      have h2 : some scenario_A_note = some e := hk
      rw [← Option.some.inj h2]
      rfl
    · have h2 : scenario_A.voice_notes_ k = none := by
        simp only [scenario_A, Function.update_noteq h1]
      rw [h2] at hk
      cases hk
  ⟨hinv, C25_keys_match_is_preserved VoiceDecls.flag scenario_A hinv⟩

/-- C26: whenever `dup_voice_note(new_id, old_id)` or `merge_voice_notes(new_id, old_id)` does
not fail, the entry under `old_id` is present before and after the call and is the same, and the
entry under every identifier other than `new_id` is the same after the call as before it. -/
theorem C26_dup_and_merge_frame (X : VoiceDecls TI) (s : VoiceNotesManager TI)
    (new_id old_id : FileId) :
    (∀ s' id, dup_voice_note X s new_id old_id = some (s', id) →
        (∃ o, s.voice_notes_ old_id = some o ∧ s'.voice_notes_ old_id = some o)
        ∧ ∀ k, k ≠ new_id → s'.voice_notes_ k = s.voice_notes_ k)
    ∧ (∀ s', merge_voice_notes X s new_id old_id = some s' →
        (∃ o, s.voice_notes_ old_id = some o ∧ s'.voice_notes_ old_id = some o)
        ∧ ∀ k, k ≠ new_id → s'.voice_notes_ k = s.voice_notes_ k) := by
  constructor
  · intro s' id h
    obtain ⟨hne, o, hold, -, htable⟩ := dup_voice_note_some_inv X s s' new_id old_id id h
    refine ⟨⟨o, hold, ?_⟩, fun k hk => ?_⟩
    · rw [htable, Function.update_noteq (Ne.symm hne), hold]
    · rw [htable, Function.update_noteq hk]
  · intro s' h
    obtain ⟨hne, o, hold, ⟨-, htable⟩ | ⟨-, htable⟩⟩ :=
      merge_voice_notes_table_cases X s s' new_id old_id h
    · exact ⟨⟨o, hold, by rw [htable, hold]⟩, fun k _ => by rw [htable]⟩
    · refine ⟨⟨o, hold, ?_⟩, fun k hk => ?_⟩
      · rw [htable, Function.update_noteq (Ne.symm hne), hold]
      · rw [htable, Function.update_noteq hk]

/-- C26 in scenario A: `dup_voice_note(F2, F1)` and `merge_voice_notes(F2, F1)`. -/
theorem C26_dup_and_merge_frame_witness :
    (∃ s', dup_voice_note VoiceDecls.flag scenario_A F2 F1 = some (s', F2))
    ∧ (∃ s', merge_voice_notes VoiceDecls.flag scenario_A F2 F1 = some s')
    ∧ (∀ s' id, dup_voice_note VoiceDecls.flag scenario_A F2 F1 = some (s', id) →
        (∃ o, scenario_A.voice_notes_ F1 = some o ∧ s'.voice_notes_ F1 = some o)
        ∧ ∀ k, k ≠ F2 → s'.voice_notes_ k = scenario_A.voice_notes_ k)
    ∧ (∀ s', merge_voice_notes VoiceDecls.flag scenario_A F2 F1 = some s' →
        (∃ o, scenario_A.voice_notes_ F1 = some o ∧ s'.voice_notes_ F1 = some o)
        ∧ ∀ k, k ≠ F2 → s'.voice_notes_ k = scenario_A.voice_notes_ k) :=
  ⟨⟨_, dup_voice_note_of_present_absent VoiceDecls.flag scenario_A F2 F1 scenario_A_note rfl rfl⟩,
    ⟨_, merge_voice_notes_of_new_absent VoiceDecls.flag scenario_A F2 F1 scenario_A_note rfl rfl
      (by decide) rfl rfl⟩,
    C26_dup_and_merge_frame VoiceDecls.flag scenario_A F2 F1⟩

end VoiceNotesManager

/-! ## Symmetry of the two schemas -/

namespace UserPrivacySettingRules

theorem rule_type_eq_of_variant_eq (x : td_api.UserPrivacySettingRule)
    (y : telegram_api.PrivacyRule) (h : x.variant = y.variant) : x.rule_type = y.rule_type := by
  cases x <;> cases y <;> first | rfl | cases h

theorem variant_eq_of_denote_same (E : IdDecls) (td : Td)
    (x : td_api.UserPrivacySettingRule) (y : telegram_api.PrivacyRule)
    (h : denote_same_rule E td x y) : x.variant = y.variant := by
  cases x <;> cases y <;> first | rfl | exact False.elim h

theorem rule_types_eq_of_variants (E : IdDecls) (td : Td)
    (l : List td_api.UserPrivacySettingRule) (w : List telegram_api.PrivacyRule)
    (hv : List.Forall₂ (fun x y => x.variant = y.variant) l w) :
    rule_types (l.map (UserPrivacySettingRule.of_td_api E td))
      = rule_types (w.map (UserPrivacySettingRule.of_PrivacyRule E td)) := by
  induction hv with
  | nil => rfl
  | cons hxy _ ih =>
    simp only [rule_types, List.map_cons, of_td_api_type, of_PrivacyRule_type,
      rule_type_eq_of_variant_eq _ _ hxy] at ih ⊢
    rw [ih]

theorem user_ids_of_denote_same (E : IdDecls) (td : Td)
    (x : td_api.UserPrivacySettingRule) (y : telegram_api.PrivacyRule)
    (h : denote_same_rule E td x y) :
    (UserPrivacySettingRule.of_PrivacyRule E td y).user_ids_
      = (UserPrivacySettingRule.of_td_api E td x).user_ids_.filter
          td.contacts_manager_.have_user := by
  cases x <;> cases y <;>
    first
    | exact False.elim h
    | rfl
    | (have hu : _ = _ := h
       subst hu
       simp only [UserPrivacySettingRule.of_td_api, UserPrivacySettingRule.of_PrivacyRule,
         UserPrivacySettingRule.of_telegram_api_switch, Bool.not_not])

theorem set_dialog_ids_eq_from_server (E : IdDecls) (td : Td) (chat_ids chats : List Int)
    (hknown : List.Forall₂ (chat_known_alike E td) chat_ids chats)
    (hsame : chat_ids.map DialogId.mk = chats.map (server_chat_dialog E td)) :
    UserPrivacySettingRule.set_dialog_ids E td chat_ids
      = UserPrivacySettingRule.set_dialog_ids_from_server E td chats := by
  induction hknown with
  | nil => rfl
  | @cons a b as bs hab _ ih =>
    simp only [List.map_cons, List.cons.injEq] at hsame
    obtain ⟨hhead, htail⟩ := hsame
    have ih2 := ih htail
    rw [set_dialog_ids_eq_filter] at ih2 ⊢
    unfold chat_known_alike at hab
    unfold server_chat_dialog at hhead
    simp only [UserPrivacySettingRule.set_dialog_ids_from_server, List.map_cons,
      List.filter_cons]
    cases hchat : td.contacts_manager_.have_chat ⟨b⟩ with
    | true =>
      rw [hchat] at hab hhead
      simp only [Bool.true_or, if_true] at hab hhead
      rw [hab, if_pos rfl, hhead, ih2]
      simp
    | false =>
      rw [hchat] at hab hhead
      simp only [Bool.false_or, Bool.false_eq_true, if_false] at hab hhead
      cases hchannel : td.contacts_manager_.have_channel ⟨b⟩ with
      | true =>
        rw [hchannel] at hab
        rw [hab, if_pos rfl, hhead, ih2]
        simp [hchannel]
      | false =>
        rw [hchannel] at hab
        rw [hab, ih2]
        simp [hchannel]

theorem of_td_api_eq_of_known_alike (E : IdDecls) (td : Td)
    (x : td_api.UserPrivacySettingRule) (y : telegram_api.PrivacyRule)
    (h : denote_same_rule E td x y) (hk : known_alike_rule E td x y) :
    UserPrivacySettingRule.of_td_api E td x = UserPrivacySettingRule.of_PrivacyRule E td y := by
  cases x <;> cases y <;>
    first
    | exact False.elim h
    | rfl
    | (have hu : _ = _ := h
       have hall : ∀ x ∈ E.get_user_ids _, td.contacts_manager_.have_user x = true := hk
       subst hu
       simp only [UserPrivacySettingRule.of_td_api, UserPrivacySettingRule.of_PrivacyRule,
         UserPrivacySettingRule.of_telegram_api_switch, Bool.not_not,
         List.filter_eq_self.2 hall])
    | (have hd : List.map DialogId.mk _ = List.map (server_chat_dialog E td) _ := h
       have hall : List.Forall₂ (chat_known_alike E td) _ _ := hk
       simp only [UserPrivacySettingRule.of_td_api, UserPrivacySettingRule.of_PrivacyRule,
         UserPrivacySettingRule.of_telegram_api_switch, List.filter_nil,
         set_dialog_ids_eq_from_server E td _ _ hall hd])

theorem map_pop_back_if_RestrictAll {β : Type} (td : Td) (f : UserPrivacySettingRule → β)
    (l : List UserPrivacySettingRule) :
    (pop_back_if_RestrictAll td l).map f
      = if (rule_types l).getLast? = some RuleType.RestrictAll then (l.map f).dropLast
        else l.map f := by
  rcases List.eq_nil_or_concat l with rfl | ⟨pre, a, rfl⟩
  · rfl
  · rw [List.concat_eq_append, pop_back_if_RestrictAll_concat]
    simp only [rule_types, List.map_append, List.map_cons, List.map_nil, List.getLast?_concat,
      Option.some.injEq, List.dropLast_concat]
    split <;> simp

end UserPrivacySettingRules

namespace UserPrivacySettingRules

/-- C2, as stated, fails in three ways, each on lists that denote the same rules.  The local
list `[RestrictAll]` and the wire list `[DisallowAll]`: the local overload builds `[RestrictAll]`
and the wire overload the empty sequence.  The lists `[AllowUsers{2}]` with user 2 unknown: the
local overload keeps the user and the wire overload drops it.  The lists `[AllowChatMembers{7}]`
and `[AllowChatParticipants{7}]` with 7 a known broadcast channel: the local overload drops the
dialog and the wire overload keeps it. -/
theorem C2_overloads_differ :
    (List.Forall₂ (denote_same_rule IdDecls.plain Td.all_known)
        [.userPrivacySettingRuleRestrictAll] [.privacyValueDisallowAll]
      ∧ get_user_privacy_setting_rules_td_api IdDecls.plain Td.all_known
            (some ⟨[some .userPrivacySettingRuleRestrictAll]⟩)
          = Except.ok ⟨[⟨RuleType.RestrictAll, [], []⟩]⟩
      ∧ get_user_privacy_setting_rules_telegram_api IdDecls.plain Td.all_known
            [some .privacyValueDisallowAll]
          = some ⟨[]⟩
      ∧ (⟨[⟨RuleType.RestrictAll, [], []⟩]⟩ : UserPrivacySettingRules) ≠ ⟨[]⟩)
    ∧ (List.Forall₂ (denote_same_rule IdDecls.plain Td.some_known)
        [.userPrivacySettingRuleAllowUsers [2]] [.privacyValueAllowUsers [2]]
      ∧ get_user_privacy_setting_rules_td_api IdDecls.plain Td.some_known
            (some ⟨[some (.userPrivacySettingRuleAllowUsers [2])]⟩)
          = Except.ok ⟨[⟨RuleType.AllowUsers, [⟨2⟩], []⟩]⟩
      ∧ get_user_privacy_setting_rules_telegram_api IdDecls.plain Td.some_known
            [some (.privacyValueAllowUsers [2])]
          = some ⟨[⟨RuleType.AllowUsers, [], []⟩]⟩
      ∧ (⟨[⟨RuleType.AllowUsers, [⟨2⟩], []⟩]⟩ : UserPrivacySettingRules)
          ≠ ⟨[⟨RuleType.AllowUsers, [], []⟩]⟩)
    ∧ (List.Forall₂ (denote_same_rule IdDecls.plain Td.broadcast_known)
        [.userPrivacySettingRuleAllowChatMembers [7]] [.privacyValueAllowChatParticipants [7]]
      ∧ get_user_privacy_setting_rules_td_api IdDecls.plain Td.broadcast_known
            (some ⟨[some (.userPrivacySettingRuleAllowChatMembers [7])]⟩)
          = Except.ok ⟨[⟨RuleType.AllowChatParticipants, [], []⟩]⟩
      ∧ get_user_privacy_setting_rules_telegram_api IdDecls.plain Td.broadcast_known
            [some (.privacyValueAllowChatParticipants [7])]
          = some ⟨[⟨RuleType.AllowChatParticipants, [], [⟨7⟩]⟩]⟩
      ∧ (⟨[⟨RuleType.AllowChatParticipants, [], []⟩]⟩ : UserPrivacySettingRules)
          ≠ ⟨[⟨RuleType.AllowChatParticipants, [], [⟨7⟩]⟩]⟩) := by
  refine ⟨⟨List.Forall₂.cons trivial List.Forall₂.nil, rfl, by decide, by decide⟩,
    ⟨List.Forall₂.cons rfl List.Forall₂.nil, rfl, by decide, by decide⟩,
    ⟨List.Forall₂.cons
        (show [(7 : Int)].map DialogId.mk
            = [(7 : Int)].map (server_chat_dialog IdDecls.plain Td.broadcast_known) by decide)
        List.Forall₂.nil, rfl, by decide, by decide⟩⟩

/-- C2, amended: for a local list and a wire list with the same variant at every position both
overloads of `get_user_privacy_setting_rules` return, and the rule-type sequence of the wire
result is that of the local result without a trailing `RestrictAll`, the two being identical
when the list does not end in `RestrictAll`.  When the lists also carry the same referenced
identifiers, the user identifier lists of the wire result are those of the local result without
the users unknown to `have_user`.  When in addition every listed user is known and every listed
chat is known alike to both sides, the wire result is the local result without a trailing
`RestrictAll` rule, and is the local result when the list does not end in `RestrictAll`. -/
theorem C2_overloads_agree_up_to_trailing_RestrictAll (E : IdDecls) (td : Td)
    (l : List td_api.UserPrivacySettingRule) (w : List telegram_api.PrivacyRule)
    (hv : List.Forall₂ (fun x y => x.variant = y.variant) l w) :
    ∃ a b, get_user_privacy_setting_rules_td_api E td (some ⟨l.map some⟩) = Except.ok a
      ∧ get_user_privacy_setting_rules_telegram_api E td (w.map some) = some b
      ∧ rule_types b.rules_ = drop_trailing_RestrictAll (rule_types a.rules_)
      ∧ (l.getLast? ≠ some .userPrivacySettingRuleRestrictAll →
          rule_types b.rules_ = rule_types a.rules_)
      ∧ (List.Forall₂ (denote_same_rule E td) l w →
          b.rules_.map (fun r => r.user_ids_)
              = (pop_back_if_RestrictAll td a.rules_).map
                  (fun r => r.user_ids_.filter td.contacts_manager_.have_user)
          ∧ (List.Forall₂ (known_alike_rule E td) l w →
              b = ⟨pop_back_if_RestrictAll td a.rules_⟩
              ∧ (l.getLast? ≠ some .userPrivacySettingRuleRestrictAll → b = a))) := by
  have htypes := rule_types_eq_of_variants E td l w hv
  have hlast : l.getLast? ≠ some .userPrivacySettingRuleRestrictAll →
      (rule_types (l.map (UserPrivacySettingRule.of_td_api E td))).getLast?
        ≠ some RuleType.RestrictAll := by
    intro hne hc
    rw [rule_types_of_td_api, List.getLast?_map] at hc
    rcases hl : l.getLast? with _ | x
    · rw [hl] at hc
      simp at hc
    · rw [hl] at hc
      simp only [Option.map_some', Option.some.injEq] at hc
      rw [td_api_rule_type_eq_RestrictAll_iff] at hc
      exact hne (by rw [hl, hc])
  refine ⟨⟨l.map (UserPrivacySettingRule.of_td_api E td)⟩,
    ⟨pop_back_if_RestrictAll td (w.map (UserPrivacySettingRule.of_PrivacyRule E td))⟩,
    ?_, ?_, ?_, ?_, ?_⟩
  · simp only [get_user_privacy_setting_rules_td_api, emplace_back_td_api_some, Except.map]
  · simp only [get_user_privacy_setting_rules_telegram_api, push_back_telegram_api_some,
      Option.map_some']
  · rw [rule_types_pop_back_if_RestrictAll, htypes]
  · intro hne
    rw [rule_types_pop_back_if_RestrictAll, ← htypes,
      drop_trailing_RestrictAll_of_ne _ (hlast hne)]
  · intro hsame
    constructor
    · have hmap : (w.map (UserPrivacySettingRule.of_PrivacyRule E td)).map
            (fun r => r.user_ids_)
          = (l.map (UserPrivacySettingRule.of_td_api E td)).map
              (fun r => r.user_ids_.filter td.contacts_manager_.have_user) := by
        clear htypes hlast hv
        induction hsame with
        | nil => rfl
        | cons hxy _ ih =>
          simp only [List.map_cons, user_ids_of_denote_same E td _ _ hxy] at ih ⊢
          rw [ih]
      simp only [map_pop_back_if_RestrictAll, htypes, hmap]
    · intro hknown
      have hall : l.map (UserPrivacySettingRule.of_td_api E td)
          = w.map (UserPrivacySettingRule.of_PrivacyRule E td) := by
        clear htypes hlast hv
        induction hsame with
        | nil => rfl
        | cons hxy _ ih =>
          rcases List.forall₂_cons.1 hknown with ⟨hk, hks⟩
          simp only [List.map_cons, of_td_api_eq_of_known_alike E td _ _ hxy hk, ih hks]
      refine ⟨by rw [hall], fun hne => ?_⟩
      rw [← hall, pop_back_if_RestrictAll_of_ne td _ (hlast hne)]

/-- C2, amended, at the lists `[AllowChatMembers{-5}, RestrictUsers{42}]` and
`[AllowChatParticipants{5}, DisallowUsers{42}]` with every user and group known: the two
overloads build the same sequence. -/
theorem C2_overloads_agree_witness :
    List.Forall₂ (fun x y => x.variant = y.variant) scenario_B_chats scenario_B_chats_wire
    ∧ List.Forall₂ (denote_same_rule IdDecls.plain Td.all_known) scenario_B_chats
        scenario_B_chats_wire
    ∧ List.Forall₂ (known_alike_rule IdDecls.plain Td.all_known) scenario_B_chats
        scenario_B_chats_wire
    ∧ get_user_privacy_setting_rules_td_api IdDecls.plain Td.all_known
          (some ⟨scenario_B_chats.map some⟩)
        = Except.ok ⟨[⟨RuleType.AllowChatParticipants, [], [⟨-5⟩]⟩,
            ⟨RuleType.RestrictUsers, [⟨42⟩], []⟩]⟩
    ∧ get_user_privacy_setting_rules_telegram_api IdDecls.plain Td.all_known
          (scenario_B_chats_wire.map some)
        = some ⟨[⟨RuleType.AllowChatParticipants, [], [⟨-5⟩]⟩,
            ⟨RuleType.RestrictUsers, [⟨42⟩], []⟩]⟩
    ∧ ∃ a b, get_user_privacy_setting_rules_td_api IdDecls.plain Td.all_known
          (some ⟨scenario_B_chats.map some⟩) = Except.ok a
      ∧ get_user_privacy_setting_rules_telegram_api IdDecls.plain Td.all_known
          (scenario_B_chats_wire.map some) = some b
      ∧ rule_types b.rules_ = drop_trailing_RestrictAll (rule_types a.rules_)
      ∧ (scenario_B_chats.getLast? ≠ some .userPrivacySettingRuleRestrictAll →
          rule_types b.rules_ = rule_types a.rules_)
      ∧ (List.Forall₂ (denote_same_rule IdDecls.plain Td.all_known) scenario_B_chats
            scenario_B_chats_wire →
          b.rules_.map (fun r => r.user_ids_)
              = (pop_back_if_RestrictAll Td.all_known a.rules_).map
                  (fun r => r.user_ids_.filter Td.all_known.contacts_manager_.have_user)
          ∧ (List.Forall₂ (known_alike_rule IdDecls.plain Td.all_known) scenario_B_chats
                scenario_B_chats_wire →
              b = ⟨pop_back_if_RestrictAll Td.all_known a.rules_⟩
              ∧ (scenario_B_chats.getLast? ≠ some .userPrivacySettingRuleRestrictAll →
                  b = a))) :=
  ⟨List.Forall₂.cons rfl (List.Forall₂.cons rfl List.Forall₂.nil),
    List.Forall₂.cons
      (show [(-5 : Int)].map DialogId.mk
          = [(5 : Int)].map (server_chat_dialog IdDecls.plain Td.all_known) by decide)
      (List.Forall₂.cons rfl List.Forall₂.nil),
    List.Forall₂.cons
      (List.Forall₂.cons
        (show UserPrivacySettingRule.is_kept_dialog IdDecls.plain Td.all_known ⟨-5⟩
            = (Td.all_known.contacts_manager_.have_chat ⟨5⟩
                || Td.all_known.contacts_manager_.have_channel ⟨5⟩) by decide)
        List.Forall₂.nil)
      (List.Forall₂.cons (fun _ _ => rfl) List.Forall₂.nil),
    rfl, by decide,
    C2_overloads_agree_up_to_trailing_RestrictAll IdDecls.plain Td.all_known scenario_B_chats
      scenario_B_chats_wire (List.Forall₂.cons rfl (List.Forall₂.cons rfl List.Forall₂.nil))⟩

end UserPrivacySettingRules

end td
